import Mathlib

/-!
# MapR Kubernetes data fabric: FlexVolume plugin and volume provisioner

A shallow embedding of the two Go programs of the repository,

* `build/provisioner/maprfs-provisioner/main.go` (the volume control-plane client), and
* `build/plugincentos/maprfs/main.go` (the mount / unmount lifecycle manager),

together with theorems about them.

Conventions of the embedding.

* A Go `string` is a `GoString`, the list of its characters.  Literals are written
  `"...".toList`.
* Go `int64` values are mathematical integers together with the range predicate `inInt64`.
* Calls into the operating system, the network and the Kubernetes API are answered by an
  explicit `World` (or, for HTTP, by a `Net`), and every such call is recorded, in program order,
  in the trace of the `Run` a function produces.  Lines written to the log through the `Plugin` /
  `Plog` loggers and events handed to the event recorder are not part of the embedding.
* `os.Exit`, a Go run-time panic (index out of range) and death by a signal are the three ways a
  run can end without returning; they are the constructors of `Halt`.
-/

namespace MapR

/-! ## Go strings -/

/-- A Go string, as the list of its characters. -/
abbrev GoString := List Char

/-- The inclusive range of a Go `int64`. -/
def inInt64 (i : Int) : Prop := -(2 : Int) ^ 63 ≤ i ∧ i < (2 : Int) ^ 63

instance (i : Int) : Decidable (inInt64 i) := by
  unfold inInt64; infer_instance

/-! ## `strconv`: decimal rendering and parsing -/

/-- The ASCII character of a decimal digit, Go `byte('0' + d)`. -/
def digitChar (d : Nat) : Char := Char.ofNat (48 + d)

/-- Whether a character is one of `'0'` .. `'9'`. -/
def isDigit (c : Char) : Bool := decide (48 ≤ c.toNat) && decide (c.toNat ≤ 57)

/-- The numeric value of a digit character, Go `ch - '0'`. -/
def digitVal (c : Char) : Nat := c.toNat - 48

/-- The digit loop of `strconv.formatBits` in base 10: the digits of `u` are pushed in front of
`acc`, least significant first.  The first argument bounds the number of iterations; `formatBits`
starts it at `u + 1`, which the loop never exhausts. -/
def formatBits.loop : Nat → Nat → GoString → GoString
  | 0, _, acc => acc
  | fuel + 1, u, acc =>
    if u < 10 then digitChar u :: acc
    else formatBits.loop fuel (u / 10) (digitChar (u % 10) :: acc)

/-- Decimal digits of an unsigned value, most significant first (`"0"` for zero). -/
def formatBits (u : Nat) : GoString := formatBits.loop (u + 1) u []

/-- Go `strconv.FormatInt(i, 10)`: a minus sign for a negative value, then the decimal digits of
the magnitude. -/
def FormatInt (i : Int) : GoString :=
  if i < 0 then '-' :: formatBits i.natAbs else formatBits i.natAbs

/-- The value of a digit string read left to right, starting from `init`. -/
def decimalValue (init : Nat) (ds : GoString) : Nat :=
  ds.foldl (fun n c => n * 10 + digitVal c) init

/-- Go `strconv.Atoi` on a 64-bit platform.  The result is the pair of the returned `int` and
whether the returned error is `nil`.  A syntax error returns `0`; a value out of range returns the
nearest bound of `int64` together with an error. -/
def Atoi (s : GoString) : Int × Bool :=
  let neg : Bool := s.head? == some '-'
  let ds : GoString := if s.head? == some '-' || s.head? == some '+' then s.tail else s
  if ds.isEmpty || !(ds.all isDigit) then (0, false)
  else
    let un := decimalValue 0 ds
    if neg then
      if 2 ^ 63 < un then (-(2 : Int) ^ 63, false) else (-(un : Int), true)
    else
      if 2 ^ 63 ≤ un then ((2 : Int) ^ 63 - 1, false) else ((un : Int), true)

/-! ## Provisioner: capacity conversion -/

/-- Translate a Kubernetes capacity into a MapR quota (`convertCapacity`, provisioner
`main.go` lines 104-111).  Go's `/` on `int64` truncates toward zero. -/
def convertCapacity (capacity : Int) : GoString :=
  let mb := Int.tdiv capacity 1000000
  let quota := FormatInt mb ++ "M".toList
  quota

/-! ## `strings`: the routines the programs use -/

/-- Go `strings.Split(s, sep)` for a separator of one byte: the pieces between the occurrences of
`sep`, empty pieces included; the empty string splits into one empty piece. -/
def Split (s : GoString) (sep : Char) : List GoString := s.splitOn sep

/-- Go `strings.Contains(s, sub)` for a `sub` of one byte. -/
def Contains (s : GoString) (sub : Char) : Bool := s.contains sub

/-- Go `strings.Trim(s, cutset)` for a cutset of one byte: leading and trailing occurrences of
the byte are removed. -/
def Trim (s : GoString) (cut : Char) : GoString :=
  ((s.dropWhile (fun c => c == cut)).reverse.dropWhile (fun c => c == cut)).reverse

/-- Go `strings.TrimLeft(s, cutset)` for a cutset of one byte. -/
def TrimLeft (s : GoString) (cut : Char) : GoString := s.dropWhile (fun c => c == cut)

/-- Go `unicode.IsSpace`: the characters with the Unicode White_Space property. -/
def isSpace (c : Char) : Bool :=
  let n := c.toNat
  (decide (9 ≤ n) && decide (n ≤ 13)) || n == 32 || n == 133 || n == 160 || n == 5760 ||
    (decide (8192 ≤ n) && decide (n ≤ 8202)) || n == 8232 || n == 8233 || n == 8239 ||
    n == 8287 || n == 12288

/-- Go `strings.TrimSpace`: leading and trailing white space removed. -/
def TrimSpace (s : GoString) : GoString :=
  ((s.dropWhile isSpace).reverse.dropWhile isSpace).reverse

/-- The bytes of the UTF-8 encoding of a character, the form in which a Go string holds it. -/
def utf8Bytes (c : Char) : List Nat :=
  let n := c.toNat
  if n < 128 then [n]
  else if n < 2048 then [192 + n / 64, 128 + n % 64]
  else if n < 65536 then [224 + n / 4096, 128 + n / 64 % 64, 128 + n % 64]
  else [240 + n / 262144, 128 + n / 4096 % 64, 128 + n / 64 % 64, 128 + n % 64]

/-- The hexadecimal digit of Go's `upperhex` table (`"0123456789ABCDEF"`). -/
def upperhex (d : Nat) : Char := Char.ofNat (if d < 10 then 48 + d else 55 + d)

/-- Go `url.shouldEscape` in the mode `encodeQueryComponent`: every byte is escaped except the
ASCII letters and digits and the four marks `-`, `_`, `.` and `~`. -/
def shouldEscape (c : Char) : Bool :=
  let n := c.toNat
  !((decide (97 ≤ n) && decide (n ≤ 122)) || (decide (65 ≤ n) && decide (n ≤ 90)) ||
    (decide (48 ≤ n) && decide (n ≤ 57)) || n == 45 || n == 95 || n == 46 || n == 126)

/-- Go `url.QueryEscape`: a space becomes `+`, every other byte that must be escaped becomes
`%XX` with upper-case hexadecimal digits, and the remaining bytes are kept. -/
def QueryEscape (s : GoString) : GoString :=
  s.flatMap (fun c =>
    if c = ' ' then ['+']
    else if shouldEscape c then
      (utf8Bytes c).flatMap (fun b => ['%', upperhex (b / 16), upperhex (b % 16)])
    else [c])

/-- A Go `map[string]string`, as the list of its entries in iteration order. -/
abbrev GoMap := List (GoString × GoString)

/-- The value of `m[k]`: the empty string when the key is absent. -/
def GoMap.get (m : GoMap) (k : GoString) : GoString :=
  match m.lookup k with
  | some v => v
  | none => []

/-- The assignment `m[k] = v`. -/
def GoMap.set (m : GoMap) (k v : GoString) : GoMap :=
  m.filter (fun kv => kv.1 != k) ++ [(k, v)]

/-- Go `delete(m, k)`. -/
def GoMap.delete (m : GoMap) (k : GoString) : GoMap :=
  m.filter (fun kv => kv.1 != k)

/-! ## The world outside the program -/

/-- User name and password of a `url.Userinfo`. -/
structure Userinfo where
  username : GoString
  password : GoString
  deriving DecidableEq, Repr

/-- The fields of a `url.URL` that `constructQuery` sets. -/
structure URL where
  Scheme : GoString
  User : Userinfo
  Host : GoString
  Path : GoString
  RawQuery : GoString
  deriving DecidableEq, Repr

/-- What one call of `executeQuery` hands back: a non-nil error (the request could not be built
or sent), or a response with its HTTP status code and, when `ioutil.ReadAll` succeeds on it, its
body. -/
inductive HttpResult where
  | transportError
  | response (StatusCode : Int) (body : Option GoString)
  deriving DecidableEq, Repr

/-- What `kubernetes.NewForConfig` hands back. -/
inductive ClientResult where
  | error
  | nilClient
  | client
  deriving DecidableEq, Repr

/-- The answers of everything outside the program.  A Boolean answer is `true` when the Go call
returns a `nil` error.  File-system answers are indexed by the path, HTTP answers by the number of
the attempt and the URL. -/
structure World where
  /-- Answer of `os.Stat`. -/
  stat : GoString → Bool
  /-- Answer of `os.MkdirAll`. -/
  mkdirAll : GoString → Bool
  /-- Answer of `syscall.Unmount(path, MNT_FORCE)`. -/
  sysUnmount : GoString → Bool
  /-- Answer of `os.Remove`. -/
  remove : GoString → Bool
  /-- Answer of `os.RemoveAll`. -/
  removeAll : GoString → Bool
  /-- Answer of `ioutil.ReadFile`: the content, or `none` on error. -/
  readFile : GoString → Option GoString
  /-- Answer of `ioutil.WriteFile`. -/
  writeFile : GoString → GoString → Bool
  /-- Answer of `ioutil.ReadDir`: the entry names, or `none` on error. -/
  readDir : GoString → Option (List GoString)
  /-- Answer of `exec.Command(name, args...).Run()`. -/
  execRun : GoString → List GoString → Bool
  /-- Answer of `rest.InClusterConfig`. -/
  inClusterConfig : Bool
  /-- Answer of `kubernetes.NewForConfig`. -/
  newForConfig : ClientResult
  /-- Answer of `Secrets(namespace).Get(name)`: the secret's data, or `none` on error. -/
  getSecret : GoString → GoString → Option GoMap
  /-- Whether `SIGKILL` sent to this pid reaches the sending process itself.  Under kill(2) it
  does for pid 0 (the caller's process group), for the caller's own pid and for the negated id of
  the caller's process group. -/
  sigkillHitsCaller : Int → Bool
  /-- Answer of the `idx`-th HTTP attempt of a failover loop. -/
  httpDo : Nat → URL → HttpResult
  /-- The `status` member that `json.Unmarshal` finds in a response body, when it is a string. -/
  jsonStatus : GoString → Option GoString
  /-- Go `url.QueryEscape`. -/
  QueryEscape : GoString → GoString
  /-- The random generator behind `rand.Intn`: its `i`-th draw, before reduction to the range
  asked for. -/
  rand : Nat → Nat

/-- A call that leaves the program, recorded in program order. -/
inductive Effect where
  | stat (path : GoString)
  | mkdirAll (path : GoString)
  | sysUnmount (path : GoString)
  | remove (path : GoString)
  | removeAll (path : GoString)
  | readFile (path : GoString)
  | writeFile (path data : GoString)
  | readDir (path : GoString)
  | setenv (key value : GoString)
  | execRun (name : GoString) (args : List GoString)
  | inClusterConfig
  | newForConfig
  | getSecret (ns name : GoString)
  | kill (pid : Int)
  | httpPost (query : URL)
  | print (text : GoString)
  deriving DecidableEq, Repr

/-- The ways a run ends without returning to its caller. -/
inductive Halt where
  /-- `os.Exit(code)`. -/
  | exit (code : Nat)
  /-- A Go run-time panic, here always an index out of range. -/
  | panic
  /-- The process received the `SIGKILL` it sent. -/
  | killed
  deriving DecidableEq, Repr

/-- How a run ends: it returns a value, or it halts. -/
inductive Outcome (α : Type) where
  | ret (a : α)
  | halt (h : Halt)
  deriving DecidableEq, Repr

/-- A run of a function: the calls it made, in order, and how it ended. -/
structure Run (α : Type) where
  trace : List Effect
  outcome : Outcome α
  deriving DecidableEq

/-- A run that returns at once. -/
def Run.pure {α : Type} (a : α) : Run α := ⟨[], .ret a⟩

/-- Sequencing: the second part runs only when the first one returns. -/
def Run.bind {α β : Type} (x : Run α) (f : α → Run β) : Run β :=
  match x.outcome with
  | .ret a => ⟨x.trace ++ (f a).trace, (f a).outcome⟩
  | .halt h => ⟨x.trace, .halt h⟩

instance : Monad Run where
  pure := Run.pure
  bind := Run.bind

/-- One call to the outside, with its answer. -/
def call {α : Type} (e : Effect) (answer : α) : Run α := ⟨[e], .ret answer⟩

/-- The run stops here. -/
def halt {α : Type} (h : Halt) : Run α := ⟨[], .halt h⟩

/-- Go `os.Exit(code)`. -/
def osExit {α : Type} (code : Nat) : Run α := halt (.exit code)

/-- Go `fmt.Print` / `fmt.Printf` to standard output, with the text already formatted. -/
def fmtPrint (text : GoString) : Run Unit := call (.print text) ()

/-- Go slice indexing `xs[i]`, which panics when the index is out of range. -/
def index {α : Type} (xs : List α) (i : Int) : Run α :=
  if i < 0 then halt .panic
  else match xs[i.toNat]? with
    | some x => Run.pure x
    | none => halt .panic

/-- Go `syscall.Kill(pid, SIGKILL)`; the returned error is discarded by the caller.  The run ends
when the signal reaches the caller itself. -/
def sysKill (w : World) (pid : Int) : Run Unit :=
  ⟨[.kill pid], if w.sigkillHitsCaller pid then .halt .killed else .ret ()⟩

/-! ## Plugin: constants (`build/plugincentos/maprfs/main.go`, lines 22-38) -/

def install_dir : GoString := "/opt/mapr".toList
def k8s_dir : GoString := install_dir ++ "/k8s".toList
def log_path : GoString := install_dir ++ "/logs".toList
def client_bin_path : GoString := k8s_dir ++ "/bin".toList
def client_mounts_path : GoString := k8s_dir ++ "/mounts/".toList
def client_support_path : GoString := k8s_dir ++ "/support/".toList
def info_file : GoString := k8s_dir ++ "/serviceinfo".toList
def fuse_script : GoString := client_bin_path ++ "/start-fuse".toList
def cldb_default_port : GoString := ":7222".toList
def ticket_key : GoString := "CONTAINER_TICKET".toList

/-! ## Plugin: identity extraction (lines 100-116) -/

/-- Pod id of a kernel path: the fourth segment from the end (`getPodId`).  The index expression
`podslice[idx]` panics when the path has fewer than four segments. -/
def getPodId (kpath : GoString) : Run GoString :=
  let podslice := Split kpath '/'
  let slicelen : Int := podslice.length
  let idx := slicelen - 4
  index podslice idx

/-- Volume id of a kernel path: the last segment (`getVolId`). -/
def getVolId (kpath : GoString) : Run GoString :=
  let volslice := Split kpath '/'
  let slicelen : Int := volslice.length
  let idx := slicelen - 1
  index volslice idx

/-! ## Plugin: `startFuse` (lines 118-283) -/

/-- The loop "Fix CLDB Server Ports" of `startFuse` (lines 179-187), over the pieces of
`strings.Split(cldb, " ")`: every piece, with the default port appended when it has no colon, is
followed by one space. -/
def startFuse.cldblist : List GoString → GoString
  | [] => []
  | cldbserver :: rest =>
    let cldbserver :=
      if !Contains cldbserver ':' then cldbserver ++ cldb_default_port else cldbserver
    cldbserver ++ " ".toList ++ startFuse.cldblist rest

/-- The extraction loop over the secret's entries (lines 252-258): the ticket is the value of an
entry whose key is `CONTAINER_TICKET`, and stays empty when there is none. -/
def startFuse.ticket (secretMap : GoMap) : GoString :=
  secretMap.foldl (fun ticket kv => if kv.1 = ticket_key then kv.2 else ticket) []

/-- The secure branch of `startFuse` (lines 191-270): it checks the ticket-secret fields, reads
the service-info file, fetches the ticket secret and writes the ticket file.  It returns the
cluster configuration line. -/
def startFuse.secure (w : World) (cluster cldblist tsname tsnamespace ticketfile : GoString) :
    Run GoString := do
  if tsname = [] ∨ tsnamespace = [] then
    fmtPrint "\x7b \"status\": \"Failure\" , \"message\": \"Must pass a MapR Ticket if you specify secure \" \x7d".toList
    osExit 1
  -- read INFO
  let info ← call (.readFile info_file) (w.readFile info_file)
  match info with
  | none =>
    fmtPrint "\x7b \"status\": \"Failure\" , \"message\": \"Failed to read INFO file \" \x7d".toList
    osExit 1
  | some info =>
    let sinfo := Trim info '\n'
    let kinfo := Split sinfo ':'
    let khost ← index kinfo 0
    let kport ← index kinfo 1
    call (.setenv "KUBERNETES_SERVICE_HOST".toList khost) ()
    call (.setenv "KUBERNETES_SERVICE_PORT".toList kport) ()
    call (.setenv "KUBERNETES_SERVICE_PORT_HTTPS".toList kport) ()
  -- Call kubeclient to get ticket in secret
  let config ← call .inClusterConfig w.inClusterConfig
  if !config then
    fmtPrint "\x7b \"status\": \"Failure\" , \"message\": \"Failed to create config to get ticket \" \x7d".toList
    osExit 1
  -- Create client
  let kubeClient ← call .newForConfig w.newForConfig
  if kubeClient = .error then
    fmtPrint "\x7b \"status\": \"Failure\" , \"message\": \"Failed to create client to get ticket \" \x7d".toList
    osExit 1
  if kubeClient = .nilClient then
    fmtPrint "\x7b \"status\": \"Failure\" , \"message\": \"Cannot get kube client \" \x7d".toList
    osExit 1
  -- Get Secret Data
  let secrets ← call (.getSecret tsnamespace tsname) (w.getSecret tsnamespace tsname)
  match secrets with
  | none =>
    fmtPrint "\x7b \"status\": \"Failure\" , \"message\": \"Can't get secrets \" \x7d".toList
    osExit 1
  | some secretMap =>
    -- Extract Ticket
    if secretMap.length = 0 then
      fmtPrint "\x7b \"status\": \"Failure\" , \"message\": \"Empty secret map data \" \x7d".toList
      osExit 1
    let ticket := startFuse.ticket secretMap
    -- Write Ticket
    let sDec := ticket
    let ok ← call (.writeFile ticketfile sDec) (w.writeFile ticketfile sDec)
    if !ok then
      fmtPrint ("\x7b \"status\": \"Failure\" , \"message\": \"Failed to write ticket: ".toList
        ++ ticketfile ++ "  \" \x7d".toList)
      osExit 1
    let conf := cluster ++ " secure=true ".toList ++ cldblist
    return conf

/-- Mount a FUSE filesystem for the kernel path `kpath` with the volume's `options`
(`startFuse`).  It returns the staging mount point. -/
def startFuse (w : World) (kpath : GoString) (options : GoMap) : Run GoString := do
  let readoptions := options.get "kubernetes.io/readwrite".toList
  let readOnly := options.get "readOnly".toList
  let cluster := options.get "cluster".toList
  let cldb := options.get "cldbHosts".toList
  let sectype := options.get "securityType".toList
  let platinum := options.get "platinum".toList
  let mountOptions := options.get "mountOptions".toList
  let tsname := options.get "ticketSecretName".toList
  let tsnamespace := options.get "ticketSecretNamespace".toList
  let ticketname := "maprticket_0".toList
  let args := "-o allow_other -o big_writes -o auto_unmount -o async_dio -o max_background=64 -o auto_inval_data --disable_writeback".toList
  let podid ← getPodId kpath
  let volid ← getVolId kpath
  let fmount := client_mounts_path ++ podid ++ "-".toList ++ volid
  let spath := client_support_path ++ podid ++ "-".toList ++ volid
  let ticketfile := spath ++ "/".toList ++ ticketname
  let ffspath := log_path ++ "/".toList ++ podid ++ "-".toList ++ volid
  let args := if TrimSpace mountOptions ≠ [] then mountOptions else args
  let args := if readoptions ≠ "rw".toList ∨ readOnly = "true".toList then
    args ++ " -o ro".toList else args
  -- make sure we have enough info to mount FUSE
  if cluster = [] ∨ cldb = [] then
    fmtPrint "\x7b \"status\": \"Failure\" , \"message\": \"Must specify a Cluster and CldbHosts \" \x7d".toList
    osExit 1
  -- create FUSE Mount directory
  let ok ← call (.mkdirAll fmount) (w.mkdirAll fmount)
  if !ok then
    fmtPrint ("\x7b \"status\": \"Failure\" , \"message\": \"Failed to create FUSE mount directory: ".toList
      ++ fmount ++ " \" \x7d".toList)
    osExit 1
  -- create FUSE Support directory
  let ok ← call (.mkdirAll spath) (w.mkdirAll spath)
  if !ok then
    fmtPrint ("\x7b \"status\": \"Failure\" , \"message\": \"Failed to create FUSE support directory: ".toList
      ++ spath ++ " \" \x7d".toList)
    osExit 1
  -- Fix CLDB Server Ports
  let cldbservers := Split cldb ' '
  let cldblist := startFuse.cldblist cldbservers
  -- set cluster conf line
  let conf := cluster ++ " secure=false ".toList ++ cldblist
  -- if secure, write out ticket
  let conf ← if sectype = "secure".toList then
      startFuse.secure w cluster cldblist tsname tsnamespace ticketfile
    else pure conf
  -- Setup command to call FUSE, and call it
  let cmdArgs := [fmount, spath, ffspath, kpath, sectype, ticketfile, conf, platinum, podid, args]
  let ok ← call (.execRun fuse_script cmdArgs) (w.execRun fuse_script cmdArgs)
  if !ok then
    fmtPrint ("\x7b \"status\": \"Failure\" , \"message\": \"Failed to mount: ".toList
      ++ kpath ++ " \" \x7d".toList)
    osExit 1
  return fmount

/-! ## Plugin: `stopFuse` and `unmount` (lines 285-308 and 352-426) -/

/-- Stop the FUSE mount at `fmount` (`stopFuse`).  The result is `true` when the returned error
is `nil`. -/
def stopFuse (w : World) (fmount : GoString) : Run Bool := do
  let st ← call (.stat fmount) (w.stat fmount)
  if st then
    let ok ← call (.sysUnmount fmount) (w.sysUnmount fmount)
    if !ok then return false
    let ok ← call (.remove fmount) (w.remove fmount)
    if !ok then return false
    return true
  else
    return true

/-- Step "do bind unmount" of `unmount` (lines 362-378).  The result is `true` when the step set
the `error` flag. -/
def unmount.bindStep (w : World) (kpath : GoString) : Run Bool := do
  let st ← call (.stat kpath) (w.stat kpath)
  if st then
    let ok1 ← call (.sysUnmount kpath) (w.sysUnmount kpath)
    let ok2 ← call (.removeAll kpath) (w.removeAll kpath)
    return (!ok1 || !ok2)
  else
    return false

/-- Step "read fusepid" and "kill fuse" of `unmount` (lines 384-405).  The result is `true` when
the step set the `error` flag.  The pid handed to `syscall.Kill` is whatever `strconv.Atoi`
returned, also when it returned an error; the second test of `err` looks at the error of `Atoi`
again, since the result of `syscall.Kill` is not assigned. -/
def unmount.killStep (w : World) (fpidfile : GoString) : Run Bool := do
  let fpid ← call (.readFile fpidfile) (w.readFile fpidfile)
  match fpid with
  | none => return true
  | some spid =>
    let (ipid, ok) := Atoi (Trim spid '\n')
    -- kill fuse
    sysKill w ipid
    return !ok

/-- Step "Remove support dir" of `unmount` (lines 407-416).  The result is `true` when the step
set the `error` flag. -/
def unmount.supportStep (w : World) (spath : GoString) : Run Bool := do
  let st ← call (.stat spath) (w.stat spath)
  if st then
    let ok ← call (.removeAll spath) (w.removeAll spath)
    return !ok
  else
    return false

/-- Unmount a previously created FUSE mount (`unmount`).  With `cleanup = false` the run ends in
`os.Exit`; with `cleanup = true` it returns to `cleanup`. -/
def unmount (w : World) (args : List GoString) (cleanup : Bool) : Run Unit := do
  let kpath ← index args 2
  let podid ← getPodId kpath
  let volid ← getVolId kpath
  let fmount := client_mounts_path ++ podid ++ "-".toList ++ volid
  let spath := client_support_path ++ podid ++ "-".toList ++ volid
  -- do bind unmount
  let error1 ← unmount.bindStep w kpath
  -- do fuse unmount
  let ok ← stopFuse w fmount
  let error2 := !ok
  -- read fusepid, kill fuse
  let fpidfile := spath ++ "/fusepid".toList
  let error3 ← unmount.killStep w fpidfile
  -- Remove support dir
  let error4 ← unmount.supportStep w spath
  let error := error1 || error2 || error3 || error4
  if error = true ∧ cleanup = false then
    fmtPrint ("\x7b \"status\": \"Failure\" , \"message\": \"ERROR Failed to unmount: ".toList
      ++ kpath ++ " \" \x7d".toList)
    osExit 1
  if cleanup = false then
    fmtPrint "\x7b \"status\": \"Success\" \x7d".toList
    osExit 0

/-! ## Plugin: `cleanup` (lines 55-85) -/

/-- The loop of `cleanup` over the entries of the support root: the `kpath` file of the entry is
read and, when that succeeds, `unmount` is called in cleanup mode with the content, trimmed of
newlines, as third argument. -/
def cleanup.loop (w : World) : List GoString → Run Unit
  | [] => pure ()
  | file :: rest => do
    let path := client_support_path ++ file
    let kpathfile := path ++ "/kpath".toList
    let kpathinfo ← call (.readFile kpathfile) (w.readFile kpathfile)
    match kpathinfo with
    | none => pure ()
    | some kpathinfo =>
      let kpath := kpathinfo
      let args := ["1".toList, "2".toList, Trim kpath '\n', "4".toList]
      unmount w args true
    cleanup.loop w rest

/-- Clean up the mounts of an old installation (`cleanup`). -/
def cleanup (w : World) : Run Unit := do
  let st ← call (.stat client_support_path) (w.stat client_support_path)
  if st then
    let files ← call (.readDir client_support_path) (w.readDir client_support_path)
    match files with
    | none => return ()
    | some files => cleanup.loop w files
  else
    return ()

/-! ## Provisioner: the REST client (`build/provisioner/maprfs-provisioner/main.go`) -/

def restServerPort : GoString := ":8443".toList

/-- The part of `serverInfo` (lines 77-88) that the REST client reads and that the persistent
volume records. -/
structure serverInfo where
  REST : GoString
  Cldbhosts : GoString
  Cluster : GoString
  Securitytype : GoString
  Userinfo : Userinfo
  RESTSecretName : GoString
  RESTSecretNamespace : GoString
  TicketSecretName : GoString
  TicketSecretNamespace : GoString

/-- Build the REST parameter string from the sanitized options (`createRawQuery`, lines
258-270): `&key=escaped value` for every entry, with the leading ampersands trimmed. -/
def createRawQuery (w : World) (cleanoptions : GoMap) : GoString :=
  let buffer := cleanoptions.foldl
    (fun buffer kv => buffer ++ "&".toList ++ kv.1 ++ "=".toList ++
      w.QueryEscape (cleanoptions.get kv.1)) []
  let rawquery := buffer
  TrimLeft rawquery '&'

/-- Build the URL of a REST call (`constructQuery`, lines 272-284). -/
def constructQuery (restserver : GoString) (userinfo : Userinfo) (path rawquery : GoString) :
    URL :=
  { Scheme := "https".toList, Host := restserver, User := userinfo, Path := path,
    RawQuery := rawquery }

/-- Send the `idx`-th request of a failover loop (`executeQuery`, lines 286-312). -/
def executeQuery (w : World) (idx : Nat) (query : URL) : Run HttpResult :=
  call (.httpPost query) (w.httpDo idx query)

/-- The `for idx := range restservers` loop of `createMaprVolume` (lines 319-360), from index
`idx` on.  The result is the value of `success` when the loop is left. -/
def createMaprVolume.loop (w : World) (si : serverInfo) (maprquerystring rawquery : GoString) :
    Nat → List GoString → Run Bool
  | _, [] => pure false
  | idx, restserver :: rest => do
    let restserver :=
      if !Contains restserver ':' then restserver ++ restServerPort else restserver
    let query := constructQuery restserver si.Userinfo maprquerystring rawquery
    let resp ← executeQuery w idx query
    match resp with
    | .transportError => createMaprVolume.loop w si maprquerystring rawquery (idx + 1) rest
    | .response StatusCode body =>
      if StatusCode ≤ 200 ∧ StatusCode ≥ 299 then
        pure false
      else
        match body with
        | none => createMaprVolume.loop w si maprquerystring rawquery (idx + 1) rest
        | some body =>
          let status := w.jsonStatus body
          if status = some "ERROR".toList then
            createMaprVolume.loop w si maprquerystring rawquery (idx + 1) rest
          else
            pure true

/-- Create a MapR volume through the first REST server that answers (`createMaprVolume`, lines
314-366).  The result is the returned error: `none` for `nil`. -/
def createMaprVolume (w : World) (cleanoptions : GoMap) (si : serverInfo) :
    Run (Option GoString) := do
  let maprquerystring := "/rest/volume/create".toList
  let rawquery := createRawQuery w cleanoptions
  let restservers := Split si.REST ' '
  let success ← createMaprVolume.loop w si maprquerystring rawquery 0 restservers
  if !success then
    return some "ERROR  cannot create volume".toList
  return none

/-- The `for idx := range restservers` loop of `deleteMaprVolume` (lines 373-413), from index
`idx` on.  The result is the value of `success` when the loop is left. -/
def deleteMaprVolume.loop (w : World) (si : serverInfo) (maprquerystring rawquery : GoString) :
    Nat → List GoString → Run Bool
  | _, [] => pure false
  | idx, restserver :: rest => do
    let restserver :=
      if !Contains restserver ':' then restserver ++ restServerPort else restserver
    let query := constructQuery restserver si.Userinfo maprquerystring rawquery
    let resp ← executeQuery w idx query
    match resp with
    | .transportError => deleteMaprVolume.loop w si maprquerystring rawquery (idx + 1) rest
    | .response StatusCode body =>
      if StatusCode ≤ 200 ∧ StatusCode ≥ 299 then
        pure false
      else
        match body with
        | none => deleteMaprVolume.loop w si maprquerystring rawquery (idx + 1) rest
        | some body =>
          let status := w.jsonStatus body
          if status = some "ERROR".toList then
            deleteMaprVolume.loop w si maprquerystring rawquery (idx + 1) rest
          else
            pure true

/-- Remove a MapR volume through the first REST server that answers (`deleteMaprVolume`, lines
368-419).  The result is the returned error: `none` for `nil`. -/
def deleteMaprVolume (w : World) (volumename : GoString) (si : serverInfo) :
    Run (Option GoString) := do
  let maprquerystring := "/rest/volume/remove".toList
  let rawquery := "name=".toList ++ volumename
  let restservers := Split si.REST ' '
  let success ← deleteMaprVolume.loop w si maprquerystring rawquery 0 restservers
  if !success then
    return some "ERROR  cannot delete volume".toList
  return none

/-! ## Provisioner: parameters, credentials and volume identity -/

def provisionerVersion : GoString := "v1.0.0".toList
def driverName : GoString := "mapr.com/maprfs".toList
def randomSize : Nat := 10
def adminUserKey : GoString := "MAPR_CLUSTER_USER".toList
def adminPasswordKey : GoString := "MAPR_CLUSTER_PASSWORD".toList

/-- The allow-list of storage-class parameters (`legalparams`, line 39). -/
def legalparams : List GoString :=
  ["cldbHosts", "maprSecretName", "maprSecretNamespace", "ticketSecretName",
   "ticketSecretNamespace", "namePrefix", "cluster", "mount", "mountPrefix", "securityType",
   "restServers", "platinum", "mountOptions", "readOnly", "reclaimPolicy", "advisoryquota", "ae",
   "aetype", "allowgrant", "allowinherit", "auditenabled", "cluster", "coalesce",
   "containerallocationfactor", "criticalrereplicationtimeoutsec", "dataauditops",
   "dbindexlagsecalarmthresh", "dbrepllagsecalarmthresh", "enforceminreplicationforio",
   "forceauditenable", "group", "inherit", "localvolumehost", "localvolumeport",
   "maxinodesalarmthreshold", "maxnssizembalarmthreshold", "minreplication", "mirrorschedule",
   "mirrorthrottle", "nsminreplication", "nsreplication", "readAce", "readonly", "replication",
   "replicationtype", "rereplicationtimeoutsec", "rootdirperms", "schedule", "skipinherit",
   "source", "tenantuser", "topology", "type", "user", "wiresecurityenabled",
   "writeaAce"].map String.toList

/-- The fields of `maprProvisioner` (lines 55-63) that the embedded functions read: whether
`kubeClient` is a non-nil client, and the identity. -/
structure maprProvisioner where
  kubeClient : Bool
  identity : GoString

/-- Info on the PV to be created (`volumeInfo`, lines 65-75). -/
structure volumeInfo where
  PVName : GoString
  Name : GoString
  Path : GoString
  Quota : GoString
  Platinum : GoString
  ReadOnly : GoString
  MountOptions : GoString
  ReclaimPolicy : GoString
  deriving DecidableEq, Repr

/-- The part of a persistent volume claim that `Provision` reads: the access modes and the
value of the storage request. -/
structure PersistentVolumeClaim where
  AccessModes : List GoString
  storageRequest : Int

/-- The part of `controller.VolumeOptions` that `Provision` reads. -/
structure VolumeOptions where
  Parameters : GoMap
  PVC : PersistentVolumeClaim

/-- The persistent volume object that `Provision` builds (lines 475-511). -/
structure PersistentVolume where
  Name : GoString
  Annotations : GoMap
  PersistentVolumeReclaimPolicy : GoString
  AccessModes : List GoString
  Capacity : Int
  Driver : GoString
  Options : GoMap
  deriving DecidableEq, Repr

/-- The errors that `Delete` returns: `errors.New(text)` or `controller.IgnoredError`. -/
inductive GoError where
  | errorsNew (text : GoString)
  | IgnoredError (Reason : GoString)
  deriving DecidableEq, Repr

/-- A random integer (`randInt`, lines 99-102): `min + rand.Intn(max - min)`, where `draw` is
the number of the draw. -/
def randInt (w : World) (draw : Nat) (min max : Nat) : Nat :=
  min + w.rand draw % (max - min)

/-- A random string of the given size (`randomString`, lines 90-97). -/
def randomString (w : World) (l : Nat) : GoString :=
  (List.range l).map (fun i => Char.ofNat (randInt w i 97 122 % 256))

/-- The location of the admin secret (`getSecretLocation`, lines 113-120); the two keys are
deleted from the options. -/
def getSecretLocation (cleanoptions : GoMap) : GoString × GoString × GoMap :=
  let sname := cleanoptions.get "maprSecretName".toList
  let snamespace := cleanoptions.get "maprSecretNamespace".toList
  let cleanoptions := cleanoptions.delete "maprSecretName".toList
  let cleanoptions := cleanoptions.delete "maprSecretNamespace".toList
  (sname, snamespace, cleanoptions)

/-- User name and password from the admin secret (`getUserInfo`, lines 122-169).  The result is
the user info and the returned error, `none` for `nil`. -/
def getUserInfo (w : World) (p : maprProvisioner) (sname snamespace : GoString) :
    Run (Userinfo × Option GoString) := do
  let username : GoString := []
  let password : GoString := []
  let userinfo : Userinfo := ⟨username, password⟩
  if p.kubeClient = false then
    return (userinfo, some "ERROR  Cannot get kube client".toList)
  let secrets ← call (.getSecret snamespace sname) (w.getSecret snamespace sname)
  match secrets with
  | none => return (userinfo, some "ERROR  Can't get secrets".toList)
  | some secretMap =>
    if secretMap.length = 0 then
      return (userinfo, some "ERROR  Empty secret map data".toList)
    let (username, password) := secretMap.foldl
      (fun (up : GoString × GoString) kv =>
        (if kv.1 = adminUserKey then kv.2 else up.1,
         if kv.1 = adminPasswordKey then kv.2 else up.2))
      (username, password)
    let userinfo : Userinfo := ⟨username, password⟩
    return (userinfo, none)

/-- Server info from the sanitized options (`createServerInfo`, lines 171-193).  An error of
`getUserInfo` is logged and not returned.  The result carries the options with the server keys
deleted. -/
def createServerInfo (w : World) (p : maprProvisioner) (cleanoptions : GoMap) :
    Run (serverInfo × GoMap) := do
  let restservers := cleanoptions.get "restServers".toList
  let cldb := cleanoptions.get "cldbHosts".toList
  let cluster := cleanoptions.get "cluster".toList
  let security := cleanoptions.get "securityType".toList
  let ticketSecretName := cleanoptions.get "ticketSecretName".toList
  let ticketSecretNamespace := cleanoptions.get "ticketSecretNamespace".toList
  let (sname, snamespace, cleanoptions) := getSecretLocation cleanoptions
  let (userinfo, _err) ← getUserInfo w p sname snamespace
  let si : serverInfo :=
    { REST := restservers, Cldbhosts := cldb, Cluster := cluster, Securitytype := security,
      Userinfo := userinfo, RESTSecretName := sname, RESTSecretNamespace := snamespace,
      TicketSecretName := ticketSecretName, TicketSecretNamespace := ticketSecretNamespace }
  let cleanoptions := cleanoptions.delete "restServers".toList
  let cleanoptions := cleanoptions.delete "cldbHosts".toList
  let cleanoptions := cleanoptions.delete "cluster".toList
  let cleanoptions := cleanoptions.delete "securityType".toList
  let cleanoptions := cleanoptions.delete "ticketSecretName".toList
  let cleanoptions := cleanoptions.delete "ticketSecretNamespace".toList
  return (si, cleanoptions)

/-- Volume info from the sanitized options (`createVolumeInfo`, lines 195-236).  The result
carries the options as the function leaves them, ready for the REST query. -/
def createVolumeInfo (w : World) (cleanoptions : GoMap) (quota : GoString) :
    volumeInfo × GoMap :=
  let platinum := cleanoptions.get "platinum".toList
  let platinum := if platinum = [] then "false".toList else platinum
  let ro := cleanoptions.get "readOnly".toList
  let ro := if ro = [] then "false".toList else ro
  let mo := cleanoptions.get "mountOptions".toList
  let rp := cleanoptions.get "reclaimPolicy".toList
  let reclaim := if rp = "Retain".toList then "Retain".toList else "Delete".toList
  let namePrefix := cleanoptions.get "namePrefix".toList
  let namePrefix := if namePrefix = [] then "maprprovisioner".toList else namePrefix
  let mountPrefix := cleanoptions.get "mountPrefix".toList
  let uniqueName := randomString w randomSize
  let pvname := namePrefix ++ "-".toList ++ uniqueName
  let volumename := namePrefix ++ ".".toList ++ uniqueName
  let volumepath := mountPrefix ++ "/".toList ++ pvname
  let cleanoptions := cleanoptions.set "name".toList volumename
  let cleanoptions := cleanoptions.set "path".toList volumepath
  let cleanoptions := cleanoptions.set "quota".toList quota
  let cleanoptions := cleanoptions.delete "namePrefix".toList
  let cleanoptions := cleanoptions.delete "mountPrefix".toList
  let cleanoptions := cleanoptions.delete "platinum".toList
  let cleanoptions := cleanoptions.delete "mountOptions".toList
  let cleanoptions := cleanoptions.delete "readOnly".toList
  let cleanoptions := cleanoptions.delete "reclaimPolicy".toList
  let cleanoptions := cleanoptions.set "createparent".toList "1".toList
  let cleanoptions := cleanoptions.set "mount".toList "1".toList
  let vi : volumeInfo :=
    { PVName := pvname, Name := volumename, Path := volumepath, Quota := quota,
      Platinum := platinum, ReadOnly := ro, MountOptions := mo, ReclaimPolicy := reclaim }
  (vi, cleanoptions)

/-- Sanitize the storage-class parameters (`cleanParams`, lines 238-256): every entry whose key
is in `legalparams` is copied; for the others a warning is logged. -/
def cleanParams (options : VolumeOptions) : GoMap :=
  let params := options.Parameters
  let legalMap : GoString → Bool := fun k => legalparams.contains k
  params.foldl
    (fun cleanoptions kv =>
      if legalMap kv.1 = true then cleanoptions.set kv.1 (params.get kv.1) else cleanoptions)
    []

/-- Create a MapR volume and the persistent volume object that represents it (`Provision`,
lines 442-514).  The result is the pair of the returned volume and error. -/
def Provision (w : World) (p : maprProvisioner) (options : VolumeOptions) :
    Run (Option PersistentVolume × Option GoString) := do
  let cleanoptions := cleanParams options
  let (si, cleanoptions) ← createServerInfo w p cleanoptions
  let capacity := options.PVC.storageRequest
  let quota := convertCapacity capacity
  let (vi, cleanoptions) := createVolumeInfo w cleanoptions quota
  let err ← createMaprVolume w cleanoptions si
  if err ≠ none then
    return (none, some "Can't create volume because of REST error".toList)
  let reclaim := vi.ReclaimPolicy
  let description := "Dynamically provisioned PV for MapR-FS: ".toList ++ vi.Name
  let pv : PersistentVolume :=
    { Name := vi.PVName
      Annotations :=
        [("mapr.com/maprProvisionerIdentity".toList, p.identity),
         ("mapr.com/provisionerVersion".toList, provisionerVersion),
         ("mapr.com/description".toList, description),
         ("mapr.com/restServers".toList, si.REST),
         ("mapr.com/secretName".toList, si.RESTSecretName),
         ("mapr.com/secretNamespace".toList, si.RESTSecretNamespace),
         ("mapr.com/volumeName".toList, vi.Name)]
      PersistentVolumeReclaimPolicy := reclaim
      AccessModes := options.PVC.AccessModes
      Capacity := capacity
      Driver := driverName
      Options :=
        [("volumePath".toList, vi.Path),
         ("cluster".toList, si.Cluster),
         ("cldbHosts".toList, si.Cldbhosts),
         ("securityType".toList, si.Securitytype),
         ("ticketSecretName".toList, si.TicketSecretName),
         ("ticketSecretNamespace".toList, si.TicketSecretNamespace),
         ("platinum".toList, vi.Platinum),
         ("mountOptions".toList, vi.MountOptions),
         ("readOnly".toList, vi.ReadOnly)] }
  return (some pv, none)

/-- Remove the MapR volume behind a persistent volume (`Delete`, lines 516-571).  The result is
the returned error, `none` for `nil`. -/
def Delete (w : World) (p : maprProvisioner) (volume : PersistentVolume) :
    Run (Option GoError) := do
  match volume.Annotations.lookup "mapr.com/maprProvisionerIdentity".toList with
  | none =>
    return some (.IgnoredError
      "identity annotation on PV is not mapr.com/maprProvisionerIdentity".toList)
  | some _ =>
  match volume.Annotations.lookup "mapr.com/restServers".toList with
  | none => return some (.errorsNew "mapr.com/restServers annotation not found on PV".toList)
  | some restservers =>
  match volume.Annotations.lookup "mapr.com/volumeName".toList with
  | none => return some (.errorsNew "mapr.com/volumeName annotation not found on PV".toList)
  | some volumename =>
  match volume.Annotations.lookup "mapr.com/secretName".toList with
  | none => return some (.errorsNew "mapr.com/secretName annotation not found on PV".toList)
  | some sname =>
  match volume.Annotations.lookup "mapr.com/secretNamespace".toList with
  | none => return some (.errorsNew "mapr.com/secretNamespace annotation not found on PV".toList)
  | some snamespace =>
  let (userinfo, err) ← getUserInfo w p sname snamespace
  if err ≠ none then
    return some (.errorsNew "Failed to get User Info".toList)
  let si : serverInfo :=
    { REST := restservers, Cldbhosts := [], Cluster := [], Securitytype := [],
      Userinfo := userinfo, RESTSecretName := [], RESTSecretNamespace := [],
      TicketSecretName := [], TicketSecretNamespace := [] }
  let err ← deleteMaprVolume w volumename si
  if err ≠ none then
    return some (.errorsNew "Failed delete MapR via REST".toList)
  return none

/-! ## Concrete worlds, for evaluating the programs -/

/-- A world in which nothing exists yet and every request succeeds: `os.Stat`, reads and the
secret lookup fail; creating, removing, unmounting, writing and running commands succeed; every
HTTP attempt fails at transport level.  Query values are escaped as `url.QueryEscape` does. -/
def World.blank : World :=
  { stat := fun _ => false
    mkdirAll := fun _ => true
    sysUnmount := fun _ => true
    remove := fun _ => true
    removeAll := fun _ => true
    readFile := fun _ => none
    writeFile := fun _ _ => true
    readDir := fun _ => none
    execRun := fun _ _ => true
    inClusterConfig := true
    newForConfig := .client
    getSecret := fun _ _ => none
    sigkillHitsCaller := fun pid => decide (pid = 0)
    httpDo := fun _ _ => .transportError
    jsonStatus := fun _ => none
    QueryEscape := MapR.QueryEscape
    rand := fun i => i }

/-- A kernel path as the kubelet builds it: `.../pods/<pod>/volumes/<driver>/<volume>`. -/
def sampleKpath : GoString := "/var/lib/kubelet/pods/pod1/volumes/mapr.com~maprfs/vol1".toList

/-- Options of a secure-mode mount request that names no ticket secret. -/
def secureOptionsNoTicket : GoMap :=
  [("cluster".toList, "my.cluster.com".toList), ("cldbHosts".toList, "cldb1 cldb2:9999".toList),
   ("securityType".toList, "secure".toList)]

/-- The argument vector of `maprfs unmount <sampleKpath>`. -/
def sampleUnmountArgs : List GoString := ["maprfs".toList, "unmount".toList, sampleKpath]

/-- The same world with every HTTP status code replaced by its image under `f`; nothing else
changes. -/
def World.mapStatusCode (f : Int → Int) (w : World) : World :=
  { w with
    httpDo := fun idx query =>
      match w.httpDo idx query with
      | .transportError => .transportError
      | .response StatusCode body => .response (f StatusCode) body }

/-- A world whose first HTTP attempt fails at transport level and whose later attempts answer
`200` with a body of status `OK`. -/
def World.failover : World :=
  { World.blank with
    httpDo := fun idx _ =>
      if idx = 0 then .transportError
      else .response 200 (some "\x7b\"status\":\"OK\"\x7d".toList)
    jsonStatus := fun _ => some "OK".toList }

/-- A server description with three REST endpoints, the second of which carries a port. -/
def sampleServerInfo : serverInfo :=
  { REST := "rest1 rest2:9443 rest3".toList
    Cldbhosts := "cldb1".toList
    Cluster := "my.cluster.com".toList
    Securitytype := "unsecure".toList
    Userinfo := ⟨"mapr".toList, "secret".toList⟩
    RESTSecretName := "mapr-admin".toList
    RESTSecretNamespace := "mapr-system".toList
    TicketSecretName := []
    TicketSecretNamespace := [] }

/-- A world in which every path exists and the `fusepid` file holds the pid 4242. -/
def World.mounted : World :=
  { World.blank with
    stat := fun _ => true
    readFile := fun _ => some "4242\n".toList }

/-- Options of a mount request that is not in secure mode, with its own mount options and a
read-only access mode. -/
def sampleMountOptions : GoMap :=
  [("cluster".toList, "my.cluster.com".toList), ("cldbHosts".toList, "cldb1 cldb2:9999".toList),
   ("mountOptions".toList, "-o big_writes".toList),
   ("kubernetes.io/readwrite".toList, "ro".toList)]

/-- The arguments of the mount daemon for `sampleKpath` and `sampleMountOptions`. -/
def sampleDaemonArgs : List GoString :=
  ["/opt/mapr/k8s/mounts/pod1-vol1".toList, "/opt/mapr/k8s/support/pod1-vol1".toList,
   "/opt/mapr/logs/pod1-vol1".toList, sampleKpath, [],
   "/opt/mapr/k8s/support/pod1-vol1/maprticket_0".toList,
   "my.cluster.com secure=false cldb1:7222 cldb2:9999 ".toList, [], "pod1".toList,
   "-o big_writes -o ro".toList]

/-- Options of a secure-mode mount request that names its ticket secret. -/
def secureOptions : GoMap :=
  secureOptionsNoTicket ++
    [("ticketSecretName".toList, "ticket".toList),
     ("ticketSecretNamespace".toList, "mapr-system".toList)]

/-- A world in which the service-info file is readable and every secret holds the single entry
`OTHER_KEY`, so that none of the keys the programs look for is present. -/
def World.secretWithoutKeys : World :=
  { World.blank with
    readFile := fun _ => some "10.0.0.1:443\n".toList
    getSecret := fun _ _ => some [("OTHER_KEY".toList, "value".toList)] }

/-- A world in which every HTTP attempt is answered `401` with a body that is not JSON. -/
def World.unauthorized : World :=
  { World.blank with
    httpDo := fun _ _ => .response 401 (some "Unauthorized".toList)
    jsonStatus := fun _ => none }

/-- A provisioner with a kube client. -/
def provisionerWithClient : maprProvisioner := ⟨true, "mapr.com/maprfs".toList⟩

/-- Volume options with one REST server and an admin secret, asking for five gigabytes. -/
def sampleVolumeOptions : VolumeOptions :=
  { Parameters :=
      [("restServers".toList, "rest1".toList), ("maprSecretName".toList, "mapr-admin".toList),
       ("maprSecretNamespace".toList, "mapr-system".toList),
       ("namePrefix".toList, "pv".toList), ("mountPrefix".toList, "/k8s".toList)]
    PVC := ⟨["ReadWriteOnce".toList], 5000000000⟩ }

/-- The persistent volume that `Provision` builds for `sampleVolumeOptions` when the random
generator draws `0, 1, 2, ...`. -/
def sampleProvisionedVolume : PersistentVolume :=
  { Name := "pv-abcdefghij".toList
    Annotations :=
      [("mapr.com/maprProvisionerIdentity".toList, "mapr.com/maprfs".toList),
       ("mapr.com/provisionerVersion".toList, "v1.0.0".toList),
       ("mapr.com/description".toList,
         "Dynamically provisioned PV for MapR-FS: pv.abcdefghij".toList),
       ("mapr.com/restServers".toList, "rest1".toList),
       ("mapr.com/secretName".toList, "mapr-admin".toList),
       ("mapr.com/secretNamespace".toList, "mapr-system".toList),
       ("mapr.com/volumeName".toList, "pv.abcdefghij".toList)]
    PersistentVolumeReclaimPolicy := "Delete".toList
    AccessModes := ["ReadWriteOnce".toList]
    Capacity := 5000000000
    Driver := "mapr.com/maprfs".toList
    Options :=
      [("volumePath".toList, "/k8s/pv-abcdefghij".toList), ("cluster".toList, []),
       ("cldbHosts".toList, []), ("securityType".toList, []), ("ticketSecretName".toList, []),
       ("ticketSecretNamespace".toList, []), ("platinum".toList, "false".toList),
       ("mountOptions".toList, []), ("readOnly".toList, "false".toList)] }


/-- The kernel path of a second mount. -/
def sampleKpath2 : GoString := "/var/lib/kubelet/pods/pod2/volumes/mapr.com~maprfs/vol2".toList

/-- A world after a restart: the support root holds the two records `pod1-vol1` and `pod2-vol2`.
The files `kpath` and `fusepid` of the first record hold `kpath1` and `fusepid1`; the second
record holds the kernel path `sampleKpath2` and the pid 4242.  Nothing else exists. -/
def World.stale (kpath1 fusepid1 : GoString) : World :=
  { World.blank with
    stat := fun path =>
      ["/opt/mapr/k8s/support/".toList, "/opt/mapr/k8s/support/pod1-vol1".toList,
        "/opt/mapr/k8s/support/pod2-vol2".toList].contains path
    readDir := fun path =>
      if path = "/opt/mapr/k8s/support/".toList then
        some ["pod1-vol1".toList, "pod2-vol2".toList]
      else none
    readFile := fun path =>
      List.lookup path
        [("/opt/mapr/k8s/support/pod1-vol1/kpath".toList, kpath1),
         ("/opt/mapr/k8s/support/pod1-vol1/fusepid".toList, fusepid1),
         ("/opt/mapr/k8s/support/pod2-vol2/kpath".toList, sampleKpath2 ++ "\n".toList),
         ("/opt/mapr/k8s/support/pod2-vol2/fusepid".toList, "4242\n".toList)] }

/-- Options of a mount request whose `cldbHosts` separates its two endpoints by two spaces. -/
def doubleSpaceOptions : GoMap :=
  [("cluster".toList, "my.cluster.com".toList), ("cldbHosts".toList, "cldb1  cldb2".toList),
   ("kubernetes.io/readwrite".toList, "rw".toList)]

/-- A world in which the admin secret holds a user name and a password and every HTTP attempt
is answered `200` with a body whose status is `OK`. -/
def World.accepting : World :=
  { World.blank with
    getSecret := fun _ _ =>
      some [("MAPR_CLUSTER_USER".toList, "mapr".toList),
        ("MAPR_CLUSTER_PASSWORD".toList, "secret".toList)]
    httpDo := fun _ _ => .response 200 (some "\x7b\"status\":\"OK\"\x7d".toList)
    jsonStatus := fun _ => some "OK".toList }

/-- The volume options `sampleVolumeOptions` with the name prefix `a&b`. -/
def ampersandVolumeOptions : VolumeOptions :=
  { Parameters :=
      [("restServers".toList, "rest1".toList), ("maprSecretName".toList, "mapr-admin".toList),
       ("maprSecretNamespace".toList, "mapr-system".toList),
       ("namePrefix".toList, "a&b".toList), ("mountPrefix".toList, "/k8s".toList)]
    PVC := ⟨["ReadWriteOnce".toList], 5000000000⟩ }

/-- The persistent volume that `Provision` builds for `ampersandVolumeOptions` when the random
generator draws `0, 1, 2, ...`. -/
def ampersandProvisionedVolume : PersistentVolume :=
  { Name := "a&b-abcdefghij".toList
    Annotations :=
      [("mapr.com/maprProvisionerIdentity".toList, "mapr.com/maprfs".toList),
       ("mapr.com/provisionerVersion".toList, "v1.0.0".toList),
       ("mapr.com/description".toList,
         "Dynamically provisioned PV for MapR-FS: a&b.abcdefghij".toList),
       ("mapr.com/restServers".toList, "rest1".toList),
       ("mapr.com/secretName".toList, "mapr-admin".toList),
       ("mapr.com/secretNamespace".toList, "mapr-system".toList),
       ("mapr.com/volumeName".toList, "a&b.abcdefghij".toList)]
    PersistentVolumeReclaimPolicy := "Delete".toList
    AccessModes := ["ReadWriteOnce".toList]
    Capacity := 5000000000
    Driver := "mapr.com/maprfs".toList
    Options :=
      [("volumePath".toList, "/k8s/a&b-abcdefghij".toList), ("cluster".toList, []),
       ("cldbHosts".toList, []), ("securityType".toList, []), ("ticketSecretName".toList, []),
       ("ticketSecretNamespace".toList, []), ("platinum".toList, "false".toList),
       ("mountOptions".toList, []), ("readOnly".toList, "false".toList)] }
/-! ## Lemmas on decimal rendering -/

theorem digitVal_digitChar {d : Nat} (h : d < 10) : digitVal (digitChar d) = d := by
  interval_cases d <;> rfl

theorem isDigit_digitChar {d : Nat} (h : d < 10) : isDigit (digitChar d) = true := by
  interval_cases d <;> rfl

theorem formatBits_loop_value (fuel : Nat) : ∀ (u : Nat) (acc : GoString), u < fuel →
    decimalValue 0 (formatBits.loop fuel u acc) = decimalValue u acc := by
  induction fuel with
  | zero => intro u acc h; omega
  | succ fuel ih =>
    intro u acc h
    unfold formatBits.loop
    by_cases hu : u < 10
    · simp [hu, decimalValue, digitVal_digitChar hu]
    · simp only [hu, if_false]
      rw [ih (u / 10) _ (by omega)]
      simp only [decimalValue, List.foldl_cons]
      rw [digitVal_digitChar (Nat.mod_lt _ (by norm_num))]
      congr 1
      omega

theorem formatBits_loop_shape (fuel : Nat) : ∀ (u : Nat) (acc : GoString), u < fuel →
    ∃ d ds, isDigit d = true ∧ ds.all isDigit = true ∧
      formatBits.loop fuel u acc = d :: (ds ++ acc) := by
  induction fuel with
  | zero => intro u acc h; omega
  | succ fuel ih =>
    intro u acc h
    unfold formatBits.loop
    by_cases hu : u < 10
    · exact ⟨digitChar u, [], isDigit_digitChar hu, rfl, by simp [hu]⟩
    · obtain ⟨d, ds, hd, hds, heq⟩ := ih (u / 10) (digitChar (u % 10) :: acc) (by omega)
      refine ⟨d, ds ++ [digitChar (u % 10)], hd, ?_, ?_⟩
      · simp [List.all_append, hds, isDigit_digitChar (Nat.mod_lt u (by norm_num : 10 > 0))]
      · simp [hu, heq]

theorem decimalValue_formatBits (u : Nat) : decimalValue 0 (formatBits u) = u := by
  unfold formatBits
  rw [formatBits_loop_value _ _ _ (Nat.lt_succ_self u)]
  rfl

theorem formatBits_shape (u : Nat) :
    ∃ d ds, isDigit d = true ∧ ds.all isDigit = true ∧ formatBits u = d :: ds := by
  obtain ⟨d, ds, hd, hds, heq⟩ := formatBits_loop_shape (u + 1) u [] (Nat.lt_succ_self u)
  exact ⟨d, ds, hd, hds, by simpa [formatBits] using heq⟩

theorem isDigit_ne_sign {d : Char} (h : isDigit d = true) : d ≠ '-' ∧ d ≠ '+' := by
  constructor <;> (rintro rfl; revert h; decide)

theorem Atoi_FormatInt (i : Int) (h : inInt64 i) : Atoi (FormatInt i) = (i, true) := by
  obtain ⟨d, ds, hd, hds, heq⟩ := formatBits_shape i.natAbs
  have hval := decimalValue_formatBits i.natAbs
  obtain ⟨hm, hp⟩ := isDigit_ne_sign hd
  unfold inInt64 at h
  by_cases hneg : i < 0
  · have hle : ¬ (2 ^ 63 < i.natAbs) := by omega
    have hi : -(i.natAbs : Int) = i := by omega
    simp only [FormatInt, hneg, if_true, Atoi, List.head?_cons, List.tail_cons, beq_self_eq_true,
      Bool.true_or]
    rw [hval]
    have hle2 : ¬ (9223372036854775808 < i.natAbs) := by omega
    simp [heq, hd, hds, hle2, abs_of_neg hneg]
  · have hlt : ¬ (2 ^ 63 ≤ i.natAbs) := by omega
    have hi : (i.natAbs : Int) = i := by omega
    have hs : FormatInt i = d :: ds := by simp [FormatInt, hneg, heq]
    have hv : decimalValue 0 (d :: ds) = i.natAbs := by rw [← heq]; exact hval
    simp only [hs, Atoi, List.head?_cons]
    have h1 : (some d == some '-') = false := by simpa using hm
    have h2 : (some d == some '+') = false := by simpa using hp
    simp only [h1, h2, Bool.or_false, Bool.false_eq_true, if_false, hv]
    have hlt2 : i.natAbs < 9223372036854775808 := by omega
    simp [hd, hds, hlt2, hi]

theorem FormatInt_injective {i j : Int} (h : FormatInt i = FormatInt j) : i = j := by
  obtain ⟨d, ds, hd, -, hi⟩ := formatBits_shape i.natAbs
  obtain ⟨e, es, he, -, hj⟩ := formatBits_shape j.natAbs
  have hvi := decimalValue_formatBits i.natAbs
  have hvj := decimalValue_formatBits j.natAbs
  unfold FormatInt at h
  by_cases hni : i < 0 <;> by_cases hnj : j < 0 <;> simp only [hni, hnj, if_true, if_false] at h
  · have h2 : formatBits i.natAbs = formatBits j.natAbs := List.tail_eq_of_cons_eq h
    rw [h2, hvj] at hvi
    omega
  · rw [hj] at h
    have h2 := List.head_eq_of_cons_eq h
    exact absurd h2.symm (isDigit_ne_sign he).1
  · rw [hi] at h
    have h2 := List.head_eq_of_cons_eq h
    exact absurd h2 (isDigit_ne_sign hd).1
  · rw [h, hvj] at hvi
    omega

/-! ## Capacity conversion -/

theorem tdiv_million (c : Int) :
    (0 ≤ c → Int.tdiv c 1000000 = c / 1000000) ∧
    (c ≤ 0 → Int.tdiv c 1000000 = -((-c) / 1000000)) := by
  constructor
  · intro hc
    exact Int.tdiv_eq_ediv hc (by norm_num)
  · intro hc
    have h1 : Int.tdiv (-c) 1000000 = (-c) / 1000000 :=
      Int.tdiv_eq_ediv (Int.neg_nonneg.mpr hc) (by norm_num)
    rw [Int.neg_tdiv] at h1
    omega

/-- C1: for every int64 capacity, `convertCapacity` returns the decimal rendering of the capacity
integer-divided by 1,000,000, the quotient truncated toward zero, followed by the letter `M`:
the result is `FormatInt q ++ "M"` for a `q` that lies within one decimal megabyte of the capacity
on the side of zero, and reading the text before the `M` back as a decimal number gives `q`.
In particular `convertCapacity 1000000 = "1M"` and `convertCapacity 1500000 = "1M"`. -/
theorem convertCapacity_spec (capacity : Int) (h : inInt64 capacity) :
    convertCapacity capacity = FormatInt (Int.tdiv capacity 1000000) ++ "M".toList ∧
    (∃ digits, convertCapacity capacity = digits ++ ['M'] ∧
      Atoi digits = (Int.tdiv capacity 1000000, true)) ∧
    (0 ≤ capacity → Int.tdiv capacity 1000000 * 1000000 ≤ capacity ∧
      capacity < (Int.tdiv capacity 1000000 + 1) * 1000000) ∧
    (capacity ≤ 0 → capacity ≤ Int.tdiv capacity 1000000 * 1000000 ∧
      (Int.tdiv capacity 1000000 - 1) * 1000000 < capacity) ∧
    convertCapacity 1000000 = "1M".toList ∧
    convertCapacity 1500000 = "1M".toList := by
  obtain ⟨hpos, hneg⟩ := tdiv_million capacity
  unfold inInt64 at h
  refine ⟨rfl, ⟨FormatInt (Int.tdiv capacity 1000000), rfl, Atoi_FormatInt _ ?_⟩, ?_, ?_,
    by decide, by decide⟩
  · unfold inInt64
    rcases le_total 0 capacity with hc | hc
    · rw [hpos hc]; omega
    · rw [hneg hc]; omega
  · intro hc
    rw [hpos hc]; omega
  · intro hc
    rw [hneg hc]; omega

/-- Witness of `convertCapacity_spec` at the capacity 1,500,000. -/
theorem convertCapacity_spec_witness :
    inInt64 1500000 ∧ convertCapacity 1500000 = FormatInt (Int.tdiv 1500000 1000000) ++ "M".toList :=
  ⟨by decide, (convertCapacity_spec 1500000 (by decide)).1⟩

/-- C2: `convertCapacity` is idempotent under re-application to its own megabyte value: whenever
`convertCapacity x` is the text `"{N}M"` for an int64 `x`, the product `N * 1,000,000` is again an
int64 (no overflow) and `convertCapacity (N * 1,000,000) = convertCapacity x`. -/
theorem convertCapacity_idempotent (x N : Int) (hx : inInt64 x)
    (hN : convertCapacity x = FormatInt N ++ "M".toList) :
    inInt64 (N * 1000000) ∧ convertCapacity (N * 1000000) = convertCapacity x := by
  have hq : Int.tdiv x 1000000 = N := by
    apply FormatInt_injective
    exact List.append_cancel_right hN
  obtain ⟨hpos, hneg⟩ := tdiv_million x
  unfold inInt64 at hx ⊢
  have hcancel : Int.tdiv (N * 1000000) 1000000 = N := Int.mul_tdiv_cancel N (by norm_num)
  refine ⟨?_, ?_⟩
  · rcases le_total 0 x with hc | hc
    · rw [hpos hc] at hq; omega
    · rw [hneg hc] at hq; omega
  · simp only [convertCapacity, hcancel, hq]

/-- Witness of `convertCapacity_idempotent` at `x = 1,500,000`, whose quota is `"1M"`. -/
theorem convertCapacity_idempotent_witness :
    inInt64 1500000 ∧ convertCapacity 1500000 = FormatInt 1 ++ "M".toList ∧
    inInt64 (1 * 1000000) ∧ convertCapacity (1 * 1000000) = convertCapacity 1500000 :=
  ⟨by decide, by decide, convertCapacity_idempotent 1500000 1 (by decide) (by decide)⟩

/-! ## Lemmas on runs -/

theorem run_bind_eq {α β : Type} (x : Run α) (f : α → Run β) :
    (x >>= f) = Run.bind x f := rfl

theorem run_pure_eq {α : Type} (a : α) : (pure a : Run α) = ⟨[], .ret a⟩ := rfl

theorem run_pure_mk {α : Type} (a : α) : Run.pure a = ⟨[], .ret a⟩ := rfl

theorem call_mk {α : Type} (e : Effect) (a : α) : call e a = ⟨[e], .ret a⟩ := rfl

theorem fmtPrint_mk (t : GoString) : fmtPrint t = ⟨[.print t], .ret ()⟩ := rfl

theorem halt_mk {α : Type} (h : Halt) : (halt h : Run α) = ⟨[], .halt h⟩ := rfl

theorem osExit_mk {α : Type} (c : Nat) : (osExit c : Run α) = ⟨[], .halt (.exit c)⟩ := rfl

theorem bind_ret_mk {α β : Type} (tr : List Effect) (a : α) (f : α → Run β) :
    Run.bind ⟨tr, .ret a⟩ f = ⟨tr ++ (f a).trace, (f a).outcome⟩ := rfl

theorem bind_halt_mk {α β : Type} (tr : List Effect) (h : Halt) (f : α → Run β) :
    Run.bind ⟨tr, .halt h⟩ f = ⟨tr, .halt h⟩ := rfl

theorem Split_ne_nil (s : GoString) (sep : Char) : Split s sep ≠ [] := by
  unfold Split List.splitOn
  exact List.splitOnP_ne_nil _ _

theorem index_of_lt {α : Type} (xs : List α) (n : Nat) (h : n < xs.length) :
    index xs (n : Int) = Run.pure (xs.get ⟨n, h⟩) := by
  have h0 : ¬ ((n : Int) < 0) := by omega
  simp [index, h0, List.getElem?_eq_getElem h, Run.pure]

/-- A kernel path with at least four segments has a pod id. -/
theorem getPodId_of_le (kpath : GoString) (h : 4 ≤ (Split kpath '/').length) :
    ∃ podid, getPodId kpath = Run.pure podid := by
  have hlt : (Split kpath '/').length - 4 < (Split kpath '/').length := by omega
  refine ⟨(Split kpath '/').get ⟨(Split kpath '/').length - 4, hlt⟩, ?_⟩
  unfold getPodId
  have hcast : (((Split kpath '/').length : Int) - 4) = (((Split kpath '/').length - 4 : Nat) : Int) := by
    omega
  simp only [hcast]
  exact index_of_lt _ _ hlt

/-- A kernel path with fewer than four segments makes `getPodId` panic. -/
theorem getPodId_of_lt (kpath : GoString) (h : (Split kpath '/').length < 4) :
    getPodId kpath = halt .panic := by
  unfold getPodId
  have hneg : (((Split kpath '/').length : Int) - 4) < 0 := by omega
  simp [index, hneg]

/-- Every kernel path has a volume id. -/
theorem getVolId_total (kpath : GoString) : ∃ volid, getVolId kpath = Run.pure volid := by
  have hpos : 0 < (Split kpath '/').length := List.length_pos.mpr (Split_ne_nil _ _)
  have hlt : (Split kpath '/').length - 1 < (Split kpath '/').length := by omega
  refine ⟨(Split kpath '/').get ⟨(Split kpath '/').length - 1, hlt⟩, ?_⟩
  unfold getVolId
  have hcast : (((Split kpath '/').length : Int) - 1) = (((Split kpath '/').length - 1 : Nat) : Int) := by
    omega
  simp only [hcast]
  exact index_of_lt _ _ hlt

/-! ## Endpoint normalisation -/

theorem cldblist_eq_flatten (eps : List GoString) :
    startFuse.cldblist eps =
      (eps.map (fun e => (if ':' ∈ e then e else e ++ ":7222".toList) ++ " ".toList)).flatten := by
  induction eps with
  | nil => rfl
  | cons e rest ih =>
    by_cases h : ':' ∈ e <;>
    simp [startFuse.cldblist, Contains, h, ih, cldb_default_port]

/-- C3: endpoint normalisation in `startFuse`.  For a `cldbHosts` string made of endpoints
separated by single spaces, the normalised list is the concatenation, in input order, of each
endpoint followed by one space, where `:7222` is appended to an endpoint exactly when it contains
no colon and an endpoint that carries a port is left unchanged; `"cldb1 cldb2:9999"` becomes
`"cldb1:7222 cldb2:9999 "`. -/
theorem startFuse_cldblist_normalised (eps : List GoString) (hne : eps ≠ [])
    (hsp : ∀ e ∈ eps, ' ' ∉ e) :
    startFuse.cldblist (Split ([' '].intercalate eps) ' ') =
      (eps.map (fun e => (if ':' ∈ e then e else e ++ ":7222".toList) ++ " ".toList)).flatten ∧
    startFuse.cldblist (Split "cldb1 cldb2:9999".toList ' ') = "cldb1:7222 cldb2:9999 ".toList := by
  refine ⟨?_, by decide⟩
  rw [Split, List.splitOn_intercalate eps ' ' hsp hne]
  exact cldblist_eq_flatten eps

/-- Witness of `startFuse_cldblist_normalised` at the endpoints `cldb1` and `cldb2:9999`. -/
theorem startFuse_cldblist_normalised_witness :
    startFuse.cldblist (Split ([' '].intercalate ["cldb1".toList, "cldb2:9999".toList]) ' ') =
      (["cldb1".toList, "cldb2:9999".toList].map
        (fun e => (if ':' ∈ e then e else e ++ ":7222".toList) ++ " ".toList)).flatten :=
  (startFuse_cldblist_normalised ["cldb1".toList, "cldb2:9999".toList] (by decide)
    (by decide)).1

/-! ## `startFuse`: precondition failures -/

/-- C7, as amended: for every mount request whose options lack a non-empty `cluster` or a
non-empty `cldbHosts`, `startFuse` never returns and, before it stops, creates no directory,
writes no file and runs no command.  When the kernel path has at least four segments the run is
exactly the Failure payload on standard output followed by `os.Exit(1)`; when it has fewer,
`getPodId` panics before anything is printed. -/
theorem startFuse_missing_cluster_or_cldbHosts (w : World) (kpath : GoString) (options : GoMap)
    (h : options.get "cluster".toList = [] ∨ options.get "cldbHosts".toList = []) :
    (4 ≤ (Split kpath '/').length →
      startFuse w kpath options =
        ⟨[.print "\x7b \"status\": \"Failure\" , \"message\": \"Must specify a Cluster and CldbHosts \" \x7d".toList],
          .halt (.exit 1)⟩) ∧
    ((Split kpath '/').length < 4 → startFuse w kpath options = ⟨[], .halt .panic⟩) := by
  constructor
  · intro hlen
    obtain ⟨podid, hpod⟩ := getPodId_of_le kpath hlen
    obtain ⟨volid, hvol⟩ := getVolId_total kpath
    simp only [startFuse, hpod, hvol, h, run_bind_eq, run_pure_eq, run_pure_mk, call_mk, fmtPrint_mk,
      halt_mk, osExit_mk, bind_ret_mk, bind_halt_mk, if_true, List.append_nil, List.nil_append,
      List.cons_append]
  · intro hlen
    simp only [startFuse, getPodId_of_lt kpath hlen, run_bind_eq, halt_mk, bind_halt_mk]

/-- Witness of `startFuse_missing_cluster_or_cldbHosts`: a kubelet-style kernel path and an empty
option map. -/
theorem startFuse_missing_cluster_or_cldbHosts_witness :
    startFuse World.blank sampleKpath [] =
      ⟨[.print "\x7b \"status\": \"Failure\" , \"message\": \"Must specify a Cluster and CldbHosts \" \x7d".toList],
        .halt (.exit 1)⟩ :=
  (startFuse_missing_cluster_or_cldbHosts World.blank sampleKpath [] (by decide)).1 (by decide)

/-- C7, counterexample to the claim as stated: the mount request for the kernel path `/a` with an
empty option map lacks `cluster`, yet `startFuse` neither prints a Failure payload nor exits with
code 1: `getPodId` indexes the two segments of `/a` at `-2` and the run panics. -/
theorem startFuse_missing_cluster_short_kpath :
    GoMap.get [] "cluster".toList = [] ∧
    (startFuse World.blank "/a".toList []).trace = [] ∧
    (startFuse World.blank "/a".toList []).outcome = .halt .panic ∧
    (startFuse World.blank "/a".toList []).outcome ≠ .halt (.exit 1) := by
  decide

/-- C8, as amended: for every secure-mode mount request with `cluster` and `cldbHosts` present
and a kernel path of at least four segments that is missing `ticketSecretName` or
`ticketSecretNamespace`, `startFuse` ends in `os.Exit(1)` after a Failure payload, before any
credential lookup, ticket write or daemon call, but only after it has called `os.MkdirAll` for
the staging mount directory and then for the support directory.  When both calls succeed the run
is exactly the two directory creations followed by the payload "Must pass a MapR Ticket if you
specify secure": both directories exist at the moment of failure.  When a directory creation
fails the run ends there with that creation's Failure payload. -/
theorem startFuse_secure_missing_ticket_secret (w : World) (kpath : GoString) (options : GoMap)
    (podid volid : GoString)
    (hpod : getPodId kpath = Run.pure podid) (hvol : getVolId kpath = Run.pure volid)
    (hsec : options.get "securityType".toList = "secure".toList)
    (hcluster : options.get "cluster".toList ≠ [])
    (hcldb : options.get "cldbHosts".toList ≠ [])
    (hticket : options.get "ticketSecretName".toList = [] ∨
      options.get "ticketSecretNamespace".toList = []) :
    startFuse w kpath options =
      if w.mkdirAll (client_mounts_path ++ podid ++ "-".toList ++ volid) = true then
        if w.mkdirAll (client_support_path ++ podid ++ "-".toList ++ volid) = true then
          ⟨[.mkdirAll (client_mounts_path ++ podid ++ "-".toList ++ volid),
            .mkdirAll (client_support_path ++ podid ++ "-".toList ++ volid),
            .print "\x7b \"status\": \"Failure\" , \"message\": \"Must pass a MapR Ticket if you specify secure \" \x7d".toList],
            .halt (.exit 1)⟩
        else
          ⟨[.mkdirAll (client_mounts_path ++ podid ++ "-".toList ++ volid),
            .mkdirAll (client_support_path ++ podid ++ "-".toList ++ volid),
            .print ("\x7b \"status\": \"Failure\" , \"message\": \"Failed to create FUSE support directory: ".toList
              ++ (client_support_path ++ podid ++ "-".toList ++ volid) ++ " \" \x7d".toList)],
            .halt (.exit 1)⟩
      else
        ⟨[.mkdirAll (client_mounts_path ++ podid ++ "-".toList ++ volid),
          .print ("\x7b \"status\": \"Failure\" , \"message\": \"Failed to create FUSE mount directory: ".toList
            ++ (client_mounts_path ++ podid ++ "-".toList ++ volid) ++ " \" \x7d".toList)],
          .halt (.exit 1)⟩ := by
  have hor : ¬ (options.get "cluster".toList = [] ∨ options.get "cldbHosts".toList = []) := by
    simp only [hcluster, hcldb, or_self, not_false_eq_true]
  cases h1 : w.mkdirAll (client_mounts_path ++ podid ++ "-".toList ++ volid) <;>
  cases h2 : w.mkdirAll (client_support_path ++ podid ++ "-".toList ++ volid) <;>
  simp only [startFuse, startFuse.secure, hpod, hvol, hsec, hor, hticket, h1, h2, run_bind_eq,
    run_pure_eq, run_pure_mk, call_mk, fmtPrint_mk, halt_mk, osExit_mk, bind_ret_mk, bind_halt_mk,
    if_true, if_false, List.append_nil, List.nil_append, List.cons_append, Bool.not_true,
    Bool.not_false, Bool.false_eq_true]

/-- Witness of `startFuse_secure_missing_ticket_secret`: the secure request without a ticket
secret, in a world where both directory creations succeed. -/
theorem startFuse_secure_missing_ticket_secret_witness :
    startFuse World.blank sampleKpath secureOptionsNoTicket =
      ⟨[.mkdirAll "/opt/mapr/k8s/mounts/pod1-vol1".toList,
        .mkdirAll "/opt/mapr/k8s/support/pod1-vol1".toList,
        .print "\x7b \"status\": \"Failure\" , \"message\": \"Must pass a MapR Ticket if you specify secure \" \x7d".toList],
        .halt (.exit 1)⟩ :=
  (startFuse_secure_missing_ticket_secret World.blank sampleKpath secureOptionsNoTicket
    "pod1".toList "vol1".toList (by decide) (by decide) (by decide) (by decide) (by decide)
    (by decide)).trans (by decide)

/-- C8, counterexample to the claim as stated: a secure-mode request with `cluster` and
`cldbHosts` present and no ticket secret is rejected, but at the moment of failure `startFuse` has
already created the staging mount directory and the support directory (both `os.MkdirAll` calls
were made and answered with success). -/
theorem startFuse_secure_missing_ticket_creates_directories :
    secureOptionsNoTicket.get "securityType".toList = "secure".toList ∧
    secureOptionsNoTicket.get "cluster".toList ≠ [] ∧
    secureOptionsNoTicket.get "cldbHosts".toList ≠ [] ∧
    secureOptionsNoTicket.get "ticketSecretName".toList = [] ∧
    World.blank.mkdirAll "/opt/mapr/k8s/mounts/pod1-vol1".toList = true ∧
    World.blank.mkdirAll "/opt/mapr/k8s/support/pod1-vol1".toList = true ∧
    (startFuse World.blank sampleKpath secureOptionsNoTicket).outcome = .halt (.exit 1) ∧
    Effect.mkdirAll "/opt/mapr/k8s/mounts/pod1-vol1".toList ∈
      (startFuse World.blank sampleKpath secureOptionsNoTicket).trace ∧
    Effect.mkdirAll "/opt/mapr/k8s/support/pod1-vol1".toList ∈
      (startFuse World.blank sampleKpath secureOptionsNoTicket).trace := by
  decide

/-- The run of `startFuse` for a request that is not in secure mode, with `cluster` and
`cldbHosts` present and both directories created: the third call is the mount daemon, with the
cluster configuration line `cluster ++ " secure=false " ++` the normalised endpoint list and with
the option string computed from `mountOptions`, `kubernetes.io/readwrite` and `readOnly`. -/
theorem startFuse_unsecure_eq (w : World) (kpath : GoString) (options : GoMap)
    (podid volid : GoString)
    (hpod : getPodId kpath = Run.pure podid) (hvol : getVolId kpath = Run.pure volid)
    (hsec : options.get "securityType".toList ≠ "secure".toList)
    (hcluster : options.get "cluster".toList ≠ [])
    (hcldb : options.get "cldbHosts".toList ≠ [])
    (hfmount : w.mkdirAll (client_mounts_path ++ podid ++ "-".toList ++ volid) = true)
    (hspath : w.mkdirAll (client_support_path ++ podid ++ "-".toList ++ volid) = true) :
    (startFuse w kpath options).trace.take 3 =
      [.mkdirAll (client_mounts_path ++ podid ++ "-".toList ++ volid),
        .mkdirAll (client_support_path ++ podid ++ "-".toList ++ volid),
        .execRun fuse_script
          [client_mounts_path ++ podid ++ "-".toList ++ volid,
            client_support_path ++ podid ++ "-".toList ++ volid,
            log_path ++ "/".toList ++ podid ++ "-".toList ++ volid,
            kpath,
            options.get "securityType".toList,
            client_support_path ++ podid ++ "-".toList ++ volid ++ "/".toList ++
              "maprticket_0".toList,
            options.get "cluster".toList ++ " secure=false ".toList ++
              startFuse.cldblist (Split (options.get "cldbHosts".toList) ' '),
            options.get "platinum".toList,
            podid,
            if options.get "kubernetes.io/readwrite".toList ≠ "rw".toList ∨
                options.get "readOnly".toList = "true".toList then
              (if TrimSpace (options.get "mountOptions".toList) ≠ [] then
                options.get "mountOptions".toList
              else "-o allow_other -o big_writes -o auto_unmount -o async_dio -o max_background=64 -o auto_inval_data --disable_writeback".toList)
                ++ " -o ro".toList
            else
              (if TrimSpace (options.get "mountOptions".toList) ≠ [] then
                options.get "mountOptions".toList
              else "-o allow_other -o big_writes -o auto_unmount -o async_dio -o max_background=64 -o auto_inval_data --disable_writeback".toList)]] := by
  have hor : ¬ (options.get "cluster".toList = [] ∨ options.get "cldbHosts".toList = []) := by
    simp only [hcluster, hcldb, or_self, not_false_eq_true]
  simp only [startFuse, hpod, hvol, hsec, hor, hfmount, hspath, run_bind_eq, run_pure_eq,
    run_pure_mk, call_mk, fmtPrint_mk, halt_mk, osExit_mk, bind_ret_mk, bind_halt_mk, if_true,
    if_false, List.append_nil, List.nil_append, List.cons_append, Bool.not_true, Bool.not_false,
    Bool.false_eq_true, List.take_succ_cons, List.take_zero]

/-! ## `unmount`: the four steps -/

/-- The run of the step "do bind unmount": `os.Stat`, then, when the path exists, the forced
unmount and the removal, both attempted; the flag is set when either fails. -/
theorem unmount_bindStep_eq (w : World) (kpath : GoString) :
    unmount.bindStep w kpath =
      ⟨.stat kpath :: (if w.stat kpath = true then [.sysUnmount kpath, .removeAll kpath] else []),
        .ret (w.stat kpath && (!w.sysUnmount kpath || !w.removeAll kpath))⟩ := by
  cases h1 : w.stat kpath <;>
  simp only [unmount.bindStep, h1, run_bind_eq, run_pure_eq, call_mk, bind_ret_mk, if_true,
    if_false, List.append_nil, List.nil_append, List.cons_append, Bool.false_and, Bool.true_and,
    Bool.false_eq_true]

/-- The run of `stopFuse`: `os.Stat`, then, when the mount point exists, the forced unmount and,
when that succeeds, the removal; the returned error is `nil` unless one of the two fails. -/
theorem stopFuse_eq (w : World) (fmount : GoString) :
    stopFuse w fmount =
      ⟨.stat fmount :: (if w.stat fmount = true then
          .sysUnmount fmount :: (if w.sysUnmount fmount = true then [.remove fmount] else [])
        else []),
        .ret (!(w.stat fmount && (!w.sysUnmount fmount || !w.remove fmount)))⟩ := by
  cases h1 : w.stat fmount <;> cases h2 : w.sysUnmount fmount <;> cases h3 : w.remove fmount <;>
  simp only [stopFuse, h1, h2, h3, run_bind_eq, run_pure_eq, call_mk, bind_ret_mk, if_true,
    if_false, List.append_nil, List.nil_append, List.cons_append, Bool.false_and, Bool.true_and,
    Bool.false_eq_true, Bool.not_true, Bool.not_false, Bool.or_self, Bool.or_true, Bool.true_or,
    Bool.or_false]

/-- The run of the step "read fusepid, kill fuse" when the signal it sends does not reach the
caller: the read, then, when the file is readable, `SIGKILL` to the pid that `Atoi` returned; the
flag is set when the read or the conversion fails. -/
theorem unmount_killStep_eq (w : World) (fpidfile : GoString)
    (hsurvive : ∀ spid, w.readFile fpidfile = some spid →
      w.sigkillHitsCaller (Atoi (Trim spid '\n')).1 = false) :
    unmount.killStep w fpidfile =
      ⟨.readFile fpidfile :: (match w.readFile fpidfile with
          | none => []
          | some spid => [.kill (Atoi (Trim spid '\n')).1]),
        .ret (match w.readFile fpidfile with
          | none => true
          | some spid => !(Atoi (Trim spid '\n')).2)⟩ := by
  cases h1 : w.readFile fpidfile with
  | none =>
    simp only [unmount.killStep, h1, run_bind_eq, run_pure_eq, call_mk, bind_ret_mk,
      List.append_nil, List.cons_append, List.nil_append]
  | some spid =>
    have hs := hsurvive spid h1
    simp only [unmount.killStep, sysKill, h1, hs, run_bind_eq, run_pure_eq, call_mk, bind_ret_mk,
      List.append_nil, List.cons_append, List.nil_append, if_false, Bool.false_eq_true]

/-- The run of the step "Remove support dir": `os.Stat`, then, when the directory exists, its
removal; the flag is set when the removal fails. -/
theorem unmount_supportStep_eq (w : World) (spath : GoString) :
    unmount.supportStep w spath =
      ⟨.stat spath :: (if w.stat spath = true then [.removeAll spath] else []),
        .ret (w.stat spath && !w.removeAll spath)⟩ := by
  cases h1 : w.stat spath <;>
  simp only [unmount.supportStep, h1, run_bind_eq, run_pure_eq, call_mk, bind_ret_mk, if_true,
    if_false, List.append_nil, List.nil_append, List.cons_append, Bool.false_and, Bool.true_and,
    Bool.false_eq_true]

theorem index_two {α : Type} (a0 a1 a2 : α) (rest : List α) :
    index (a0 :: a1 :: a2 :: rest) 2 = Run.pure a2 := by
  simp [index]

/-- C9, as amended: release on absent state.  For every kernel path with at least four segments
such that the path itself, the staging mount directory and the support directory (hence the
`fusepid` file in it) do not exist, `unmount(args, false)` runs through all four steps without
unmounting, removing or signalling anything, and, because the failed read of `fusepid` sets the
error flag, it reports the Failure payload and ends in `os.Exit(1)`. -/
theorem unmount_absent_state (w : World) (a0 a1 kpath : GoString) (rest : List GoString)
    (podid volid : GoString)
    (hpod : getPodId kpath = Run.pure podid) (hvol : getVolId kpath = Run.pure volid)
    (hkpath : w.stat kpath = false)
    (hfmount : w.stat (client_mounts_path ++ podid ++ "-".toList ++ volid) = false)
    (hspath : w.stat (client_support_path ++ podid ++ "-".toList ++ volid) = false)
    (hfpid : w.readFile
      (client_support_path ++ podid ++ "-".toList ++ volid ++ "/fusepid".toList) = none) :
    unmount w (a0 :: a1 :: kpath :: rest) false =
      ⟨[.stat kpath,
        .stat (client_mounts_path ++ podid ++ "-".toList ++ volid),
        .readFile (client_support_path ++ podid ++ "-".toList ++ volid ++ "/fusepid".toList),
        .stat (client_support_path ++ podid ++ "-".toList ++ volid),
        .print ("\x7b \"status\": \"Failure\" , \"message\": \"ERROR Failed to unmount: ".toList
          ++ kpath ++ " \" \x7d".toList)],
        .halt (.exit 1)⟩ := by
  have hkill := unmount_killStep_eq w
    (client_support_path ++ podid ++ "-".toList ++ volid ++ "/fusepid".toList)
    (by intro spid hs; rw [hfpid] at hs; exact absurd hs (by simp))
  simp only [unmount, index_two, hpod, hvol, unmount_bindStep_eq, stopFuse_eq, hkill,
    unmount_supportStep_eq, hkpath, hfmount, hspath, hfpid, run_bind_eq, run_pure_eq, run_pure_mk,
    fmtPrint_mk, osExit_mk, bind_ret_mk, bind_halt_mk, if_true, if_false, List.append_nil,
    List.nil_append, List.cons_append, Bool.false_and, Bool.not_false, Bool.or_true, Bool.true_or,
    Bool.false_eq_true, and_self]

/-- Witness of `unmount_absent_state`: `maprfs unmount` of a kubelet-style path in a world where
nothing exists. -/
theorem unmount_absent_state_witness :
    unmount World.blank sampleUnmountArgs false =
      ⟨[.stat sampleKpath,
        .stat "/opt/mapr/k8s/mounts/pod1-vol1".toList,
        .readFile "/opt/mapr/k8s/support/pod1-vol1/fusepid".toList,
        .stat "/opt/mapr/k8s/support/pod1-vol1".toList,
        .print ("\x7b \"status\": \"Failure\" , \"message\": \"ERROR Failed to unmount: ".toList
          ++ sampleKpath ++ " \" \x7d".toList)],
        .halt (.exit 1)⟩ :=
  (unmount_absent_state World.blank "maprfs".toList "unmount".toList sampleKpath []
    "pod1".toList "vol1".toList (by decide) (by decide) (by decide) (by decide) (by decide)
    (by decide)).trans (by decide)

/-- C9, counterexample to the claim as stated: for the kubelet-style path `sampleKpath`, which has
eight segments, in a world where neither the path nor the staging mount directory nor the support
directory exists, `unmount(args, false)` does not report Success with exit code 0: it prints a
Failure payload and exits with code 1. -/
theorem unmount_absent_state_reports_failure :
    4 ≤ (Split sampleKpath '/').length ∧
    World.blank.stat sampleKpath = false ∧
    World.blank.stat "/opt/mapr/k8s/mounts/pod1-vol1".toList = false ∧
    World.blank.stat "/opt/mapr/k8s/support/pod1-vol1".toList = false ∧
    (unmount World.blank sampleUnmountArgs false).outcome = .halt (.exit 1) ∧
    (unmount World.blank sampleUnmountArgs false).outcome ≠ .halt (.exit 0) ∧
    Effect.print "\x7b \"status\": \"Success\" \x7d".toList ∉
      (unmount World.blank sampleUnmountArgs false).trace := by
  decide

/-- The run of `unmount` for a kernel path with at least four segments, when the signal of step
three does not reach the caller: the traces of the four steps one after the other and, in plugin
mode, one payload and `os.Exit`. -/
theorem unmount_eq (w : World) (a0 a1 kpath : GoString) (rest : List GoString)
    (podid volid : GoString) (cleanup : Bool)
    (hpod : getPodId kpath = Run.pure podid) (hvol : getVolId kpath = Run.pure volid)
    (hsurvive : ∀ spid, w.readFile
        (client_support_path ++ podid ++ "-".toList ++ volid ++ "/fusepid".toList) = some spid →
      w.sigkillHitsCaller (Atoi (Trim spid '\n')).1 = false)
    (failed : Bool)
    (hfailed : failed =
      (w.stat kpath && (!w.sysUnmount kpath || !w.removeAll kpath) ||
        !(!(w.stat (client_mounts_path ++ podid ++ "-".toList ++ volid) &&
          (!w.sysUnmount (client_mounts_path ++ podid ++ "-".toList ++ volid) ||
            !w.remove (client_mounts_path ++ podid ++ "-".toList ++ volid)))) ||
        (match w.readFile
            (client_support_path ++ podid ++ "-".toList ++ volid ++ "/fusepid".toList) with
          | none => true
          | some spid => !(Atoi (Trim spid '\n')).2) ||
        (w.stat (client_support_path ++ podid ++ "-".toList ++ volid) &&
          !w.removeAll (client_support_path ++ podid ++ "-".toList ++ volid)))) :
    unmount w (a0 :: a1 :: kpath :: rest) cleanup =
      ⟨(.stat kpath ::
          (if w.stat kpath = true then [.sysUnmount kpath, .removeAll kpath] else [])) ++
        (.stat (client_mounts_path ++ podid ++ "-".toList ++ volid) ::
          (if w.stat (client_mounts_path ++ podid ++ "-".toList ++ volid) = true then
            .sysUnmount (client_mounts_path ++ podid ++ "-".toList ++ volid) ::
              (if w.sysUnmount (client_mounts_path ++ podid ++ "-".toList ++ volid) = true then
                [.remove (client_mounts_path ++ podid ++ "-".toList ++ volid)] else [])
            else [])) ++
        (.readFile (client_support_path ++ podid ++ "-".toList ++ volid ++ "/fusepid".toList) ::
          (match w.readFile
              (client_support_path ++ podid ++ "-".toList ++ volid ++ "/fusepid".toList) with
            | none => []
            | some spid => [.kill (Atoi (Trim spid '\n')).1])) ++
        (.stat (client_support_path ++ podid ++ "-".toList ++ volid) ::
          (if w.stat (client_support_path ++ podid ++ "-".toList ++ volid) = true then
            [.removeAll (client_support_path ++ podid ++ "-".toList ++ volid)] else [])) ++
        (if cleanup = true then [] else
          [.print (if failed = true then
            "\x7b \"status\": \"Failure\" , \"message\": \"ERROR Failed to unmount: ".toList
              ++ kpath ++ " \" \x7d".toList
            else "\x7b \"status\": \"Success\" \x7d".toList)]),
        if cleanup = true then .ret () else .halt (.exit (if failed = true then 1 else 0))⟩ := by
  have hkill := unmount_killStep_eq w
    (client_support_path ++ podid ++ "-".toList ++ volid ++ "/fusepid".toList) hsurvive
  simp only [unmount, index_two, hpod, hvol, unmount_bindStep_eq, stopFuse_eq, hkill,
    unmount_supportStep_eq, run_bind_eq, run_pure_mk, bind_ret_mk]
  rw [← hfailed]
  cases failed <;> cases cleanup <;>
  simp [fmtPrint_mk, osExit_mk, bind_ret_mk, bind_halt_mk, run_pure_eq]

/-- C10, as amended: accumulate-errors semantics of `unmount`.  For a kernel path with at least
four segments, and for every combination of outcomes of the file-system operations in which the
`SIGKILL` of step three does not reach the plugin process itself, the four steps (bind unmount of
`kpath`, staging unmount via `stopFuse`, `fusepid` read and kill, support-directory removal) are
all attempted, in this order, whatever the earlier steps did, and no step prints.  In plugin mode
(`cleanup = false`) the aggregate result is then printed exactly once, at the end: the Failure
payload with `os.Exit(1)` when at least one step set the error flag, the Success payload with
`os.Exit(0)` otherwise.  In cleanup mode (`cleanup = true`) the same four steps run, nothing is
printed and `unmount` returns to its caller. -/
theorem unmount_accumulates_errors (w : World) (a0 a1 kpath : GoString) (rest : List GoString)
    (podid volid : GoString)
    (hpod : getPodId kpath = Run.pure podid) (hvol : getVolId kpath = Run.pure volid)
    (hsurvive : ∀ spid, w.readFile
        (client_support_path ++ podid ++ "-".toList ++ volid ++ "/fusepid".toList) = some spid →
      w.sigkillHitsCaller (Atoi (Trim spid '\n')).1 = false) :
    let fmount := client_mounts_path ++ podid ++ "-".toList ++ volid
    let spath := client_support_path ++ podid ++ "-".toList ++ volid
    let fpidfile := spath ++ "/fusepid".toList
    let step1 : List Effect := .stat kpath ::
      (if w.stat kpath = true then [.sysUnmount kpath, .removeAll kpath] else [])
    let step2 : List Effect := .stat fmount :: (if w.stat fmount = true then
      .sysUnmount fmount :: (if w.sysUnmount fmount = true then [.remove fmount] else [])
      else [])
    let step3 : List Effect := .readFile fpidfile :: (match w.readFile fpidfile with
      | none => []
      | some spid => [.kill (Atoi (Trim spid '\n')).1])
    let step4 : List Effect := .stat spath ::
      (if w.stat spath = true then [.removeAll spath] else [])
    let failed1 : Bool := w.stat kpath && (!w.sysUnmount kpath || !w.removeAll kpath)
    let failed2 : Bool := w.stat fmount && (!w.sysUnmount fmount || !w.remove fmount)
    let failed3 : Bool := match w.readFile fpidfile with
      | none => true
      | some spid => !(Atoi (Trim spid '\n')).2
    let failed4 : Bool := w.stat spath && !w.removeAll spath
    let failed : Bool := failed1 || failed2 || failed3 || failed4
    unmount w (a0 :: a1 :: kpath :: rest) false =
      ⟨step1 ++ step2 ++ step3 ++ step4 ++
        [.print (if failed = true then
          "\x7b \"status\": \"Failure\" , \"message\": \"ERROR Failed to unmount: ".toList
            ++ kpath ++ " \" \x7d".toList
          else "\x7b \"status\": \"Success\" \x7d".toList)],
        .halt (.exit (if failed = true then 1 else 0))⟩ ∧
    unmount w (a0 :: a1 :: kpath :: rest) true =
      ⟨step1 ++ step2 ++ step3 ++ step4, .ret ()⟩ ∧
    (∀ e ∈ step1 ++ step2 ++ step3 ++ step4, ∀ text, e ≠ .print text) := by
  intro fmount spath fpidfile step1 step2 step3 step4 failed1 failed2 failed3 failed4 failed
  have hfailed : failed =
      (w.stat kpath && (!w.sysUnmount kpath || !w.removeAll kpath) ||
        !(!(w.stat (client_mounts_path ++ podid ++ "-".toList ++ volid) &&
          (!w.sysUnmount (client_mounts_path ++ podid ++ "-".toList ++ volid) ||
            !w.remove (client_mounts_path ++ podid ++ "-".toList ++ volid)))) ||
        (match w.readFile
            (client_support_path ++ podid ++ "-".toList ++ volid ++ "/fusepid".toList) with
          | none => true
          | some spid => !(Atoi (Trim spid '\n')).2) ||
        (w.stat (client_support_path ++ podid ++ "-".toList ++ volid) &&
          !w.removeAll (client_support_path ++ podid ++ "-".toList ++ volid))) := by
    simp only [failed, failed1, failed2, failed3, failed4, fmount, spath, fpidfile, Bool.not_not]
  refine ⟨?_, ?_, ?_⟩
  · rw [unmount_eq w a0 a1 kpath rest podid volid false hpod hvol hsurvive failed hfailed]
    simp only [Bool.false_eq_true, if_false]
  · rw [unmount_eq w a0 a1 kpath rest podid volid true hpod hvol hsurvive failed hfailed]
    simp only [if_true, List.append_nil]
  · intro e he text
    simp only [step1, step2, step3, step4, List.mem_append, List.mem_cons] at he
    rcases he with ((h | h) | h) | h
    · rcases h with h | h
      · rw [h]; simp
      · split at h <;> simp at h
        rcases h with h | h <;> (rw [h]; simp)
    · rcases h with h | h
      · rw [h]; simp
      · split at h
        · rcases List.mem_cons.mp h with h | h
          · rw [h]; simp
          · split at h <;> simp at h
            rw [h]; simp
        · simp at h
    · rcases h with h | h
      · rw [h]; simp
      · split at h <;> simp at h
        rw [h]; simp
    · rcases h with h | h
      · rw [h]; simp
      · split at h <;> simp at h
        rw [h]; simp

/-- Witness of `unmount_accumulates_errors`: in a world where every path exists, every operation
succeeds and `fusepid` holds `4242`, the plugin-mode run is the ten calls of the four steps
followed by the Success payload. -/
theorem unmount_accumulates_errors_witness :
    unmount World.mounted sampleUnmountArgs false =
      ⟨[.stat sampleKpath, .sysUnmount sampleKpath, .removeAll sampleKpath,
        .stat "/opt/mapr/k8s/mounts/pod1-vol1".toList,
        .sysUnmount "/opt/mapr/k8s/mounts/pod1-vol1".toList,
        .remove "/opt/mapr/k8s/mounts/pod1-vol1".toList,
        .readFile "/opt/mapr/k8s/support/pod1-vol1/fusepid".toList,
        .kill 4242,
        .stat "/opt/mapr/k8s/support/pod1-vol1".toList,
        .removeAll "/opt/mapr/k8s/support/pod1-vol1".toList,
        .print "\x7b \"status\": \"Success\" \x7d".toList],
        .halt (.exit 0)⟩ :=
  (unmount_accumulates_errors World.mounted "maprfs".toList "unmount".toList sampleKpath []
    "pod1".toList "vol1".toList (by decide) (by decide)
    (fun spid hs => by
      have hspid : "4242\n".toList = spid := Option.some.inj hs
      subst hspid
      decide)).1.trans (by decide)

/-- C10, counterexample to the claim as stated.  In cleanup mode, in a world where nothing
exists, step three records a failure (the `fusepid` file cannot be read), yet no Failure is
reported: nothing is printed and `unmount` returns.  And for the kernel path `/a`, in plugin mode,
none of the four steps is attempted and nothing is reported: the run panics in `getPodId`. -/
theorem unmount_not_always_reporting :
    World.blank.readFile "/opt/mapr/k8s/support/pod1-vol1/fusepid".toList = none ∧
    unmount World.blank sampleUnmountArgs true =
      ⟨[.stat sampleKpath,
        .stat "/opt/mapr/k8s/mounts/pod1-vol1".toList,
        .readFile "/opt/mapr/k8s/support/pod1-vol1/fusepid".toList,
        .stat "/opt/mapr/k8s/support/pod1-vol1".toList], .ret ()⟩ ∧
    unmount World.blank ["maprfs".toList, "unmount".toList, "/a".toList] false =
      ⟨[], .halt .panic⟩ := by
  decide

/-- When the `fusepid` file does not hold a number, `strconv.Atoi` returns 0 with an error and
`unmount` still calls `syscall.Kill(0, SIGKILL)`, which addresses the caller's own process group:
the run ends there, before the support directory is looked at and before anything is reported. -/
theorem unmount_unparsable_fusepid_kills_caller :
    Atoi (Trim "not-a-pid\n".toList '\n') = (0, false) ∧
    unmount { World.blank with readFile := fun _ => some "not-a-pid\n".toList }
        sampleUnmountArgs false =
      ⟨[.stat sampleKpath,
        .stat "/opt/mapr/k8s/mounts/pod1-vol1".toList,
        .readFile "/opt/mapr/k8s/support/pod1-vol1/fusepid".toList,
        .kill 0], .halt .killed⟩ := by
  decide

/-! ## The three paths of `unmount` are distinct

The answers of a `World` are indexed by the path.  `unmount` asks about three paths, the kernel
path, the staging mount point and the support directory; they are pairwise different, so a world
can answer every call of one run independently of the others. -/

theorem splitOnP_append_sep (p : Char → Bool) (sep : Char) (hsep : p sep = true) (b : GoString)
    (hb : ∀ x ∈ b, ¬ p x = true) :
    ∀ a : GoString, (a ++ sep :: b).splitOnP p = a.splitOnP p ++ [b] := by
  intro a
  induction a with
  | nil => simp [hsep, List.splitOnP_eq_single p b hb]
  | cons x a ih =>
    simp only [List.cons_append, List.splitOnP_cons, ih]
    split
    · rfl
    · cases hsplit : a.splitOnP p with
      | nil => exact absurd hsplit (List.splitOnP_ne_nil p a)
      | cons hd tl => rfl

theorem splitOnP_no_sep (p : Char → Bool) :
    ∀ (s : GoString) (l : GoString), l ∈ s.splitOnP p → ∀ x ∈ l, ¬ p x = true := by
  intro s
  induction s with
  | nil =>
    intro l hl x hx
    simp at hl
    subst hl
    simp at hx
  | cons c s ih =>
    intro l hl x hx
    rw [List.splitOnP_cons] at hl
    by_cases hc : p c = true
    · rw [if_pos hc] at hl
      rcases List.mem_cons.mp hl with h | h
      · subst h; simp at hx
      · exact ih l h x hx
    · rw [if_neg hc] at hl
      cases hsplit : s.splitOnP p with
      | nil => exact absurd hsplit (List.splitOnP_ne_nil p s)
      | cons hd tl =>
        rw [hsplit] at hl ih
        simp only [List.modifyHead_cons, List.mem_cons] at hl
        rcases hl with h | h
        · subst h
          rcases List.mem_cons.mp hx with hx | hx
          · subst hx; exact hc
          · exact ih hd (List.mem_cons_self _ _) x hx
        · exact ih l (List.mem_cons_of_mem _ h) x hx

/-- No piece of `Split s sep` contains the separator. -/
theorem Split_no_sep (s : GoString) (sep : Char) (l : GoString) (hl : l ∈ Split s sep) :
    sep ∉ l := by
  intro hmem
  exact splitOnP_no_sep (fun c => c == sep) s l hl sep hmem (by simp)

/-- The last piece of a string that ends in `sep` followed by a text without `sep` is that
text. -/
theorem Split_getLast_append (a b : GoString) (sep : Char) (hb : sep ∉ b) :
    (Split (a ++ sep :: b) sep).getLast? = some b := by
  unfold Split List.splitOn
  rw [splitOnP_append_sep (fun c => c == sep) sep (by simp) b
    (by intro x hx hp; simp at hp; subst hp; exact hb hx) a]
  simp

theorem index_mem {α : Type} (xs : List α) (i : Int) (x : α) (h : index xs i = Run.pure x) :
    x ∈ xs ∧ (i = (xs.length : Int) - 1 → xs.getLast? = some x) := by
  unfold index at h
  by_cases hi : i < 0
  · simp [hi, halt, Run.pure] at h
  · simp only [hi, if_false] at h
    cases hget : xs[i.toNat]? with
    | none => simp [hget, halt, Run.pure] at h
    | some y =>
      simp only [hget, Run.pure, Run.mk.injEq, Outcome.ret.injEq, true_and] at h
      subst h
      refine ⟨List.getElem?_mem hget, ?_⟩
      intro hlast
      have hidx : i.toNat = xs.length - 1 := by omega
      rw [hidx] at hget
      rw [List.getLast?_eq_getElem?]
      exact hget

/-- The kernel path, the staging mount point and the support directory of one `unmount` are
pairwise different paths. -/
theorem unmount_paths_distinct (kpath podid volid : GoString)
    (hpod : getPodId kpath = Run.pure podid) (hvol : getVolId kpath = Run.pure volid) :
    kpath ≠ client_mounts_path ++ podid ++ "-".toList ++ volid ∧
    kpath ≠ client_support_path ++ podid ++ "-".toList ++ volid ∧
    client_mounts_path ++ podid ++ "-".toList ++ volid ≠
      client_support_path ++ podid ++ "-".toList ++ volid := by
  have hpodmem : podid ∈ Split kpath '/' := (index_mem _ _ _ hpod).1
  have hvollast : (Split kpath '/').getLast? = some volid :=
    (index_mem _ _ _ hvol).2 rfl
  have hvolmem : volid ∈ Split kpath '/' := List.mem_of_getLast?_eq_some hvollast
  have hnosep : '/' ∉ podid ++ '-' :: volid := by
    intro h
    rcases List.mem_append.mp h with h | h
    · exact Split_no_sep _ _ _ hpodmem h
    · rcases List.mem_cons.mp h with h | h
      · exact absurd h (by decide)
      · exact Split_no_sep _ _ _ hvolmem h
  have hlen : ∀ (a : GoString), kpath = a ++ '/' :: (podid ++ '-' :: volid) → False := by
    intro a hk
    have hlast := Split_getLast_append a (podid ++ '-' :: volid) '/' hnosep
    rw [← hk, hvollast] at hlast
    have := congrArg List.length (Option.some.inj hlast)
    simp at this
    omega
  refine ⟨?_, ?_, ?_⟩
  · intro hk
    exact hlen "/opt/mapr/k8s/mounts".toList (by rw [hk]; simp [client_mounts_path, k8s_dir, install_dir])
  · intro hk
    exact hlen "/opt/mapr/k8s/support".toList (by rw [hk]; simp [client_support_path, k8s_dir, install_dir])
  · intro h
    have := congrArg List.length h
    simp [client_mounts_path, client_support_path, k8s_dir, install_dir] at this

/-! ## The REST client: failover -/

/-- The status-code test of both failover loops never holds. -/
theorem statusCode_test_false (n : Int) : ¬ (n ≤ 200 ∧ n ≥ 299) := by
  omega

/-- One iteration of the loop of `createMaprVolume` whose endpoint fails: the request is sent and
the loop goes on with the next endpoint. -/
theorem createLoop_cons_of_fail (w : World) (si : serverInfo) (p q e : GoString) (idx : Nat)
    (rest : List GoString)
    (h : w.httpDo idx (constructQuery (if Contains e ':' = true then e else e ++ restServerPort)
        si.Userinfo p q) = .transportError ∨
      (∃ code, w.httpDo idx (constructQuery
        (if Contains e ':' = true then e else e ++ restServerPort) si.Userinfo p q) =
          .response code none) ∨
      (∃ code body, w.httpDo idx (constructQuery
        (if Contains e ':' = true then e else e ++ restServerPort) si.Userinfo p q) =
          .response code (some body) ∧ w.jsonStatus body = some "ERROR".toList)) :
    createMaprVolume.loop w si p q idx (e :: rest) =
      ⟨.httpPost (constructQuery (if Contains e ':' = true then e else e ++ restServerPort)
          si.Userinfo p q) :: (createMaprVolume.loop w si p q (idx + 1) rest).trace,
        (createMaprVolume.loop w si p q (idx + 1) rest).outcome⟩ := by
  cases hc : Contains e ':' <;> simp only [hc, if_true, if_false, Bool.not_true, Bool.not_false,
    Bool.false_eq_true] at h ⊢ <;>
  · rcases h with h | ⟨code, h⟩ | ⟨code, body, h, hs⟩
    · simp only [createMaprVolume.loop, hc, executeQuery, h, run_bind_eq, run_pure_eq, call_mk,
        bind_ret_mk, if_true, if_false, List.cons_append, List.nil_append, Bool.not_true,
        Bool.not_false, Bool.false_eq_true]
    · simp only [createMaprVolume.loop, hc, executeQuery, h, statusCode_test_false, run_bind_eq,
        run_pure_eq, call_mk, bind_ret_mk, if_true, if_false, List.cons_append, List.nil_append,
        Bool.not_true, Bool.not_false, Bool.false_eq_true]
    · simp only [createMaprVolume.loop, hc, executeQuery, h, hs, statusCode_test_false, run_bind_eq,
        run_pure_eq, call_mk, bind_ret_mk, if_true, if_false, List.cons_append, List.nil_append,
        Bool.not_true, Bool.not_false, Bool.false_eq_true]

/-- One iteration of the loop of `createMaprVolume` whose endpoint answers with a readable body
whose status is not `ERROR`: the request is sent and the loop is left with success. -/
theorem createLoop_cons_of_success (w : World) (si : serverInfo) (p q e : GoString) (idx : Nat)
    (rest : List GoString) (code : Int) (body : GoString)
    (h : w.httpDo idx (constructQuery (if Contains e ':' = true then e else e ++ restServerPort)
        si.Userinfo p q) = .response code (some body))
    (hs : w.jsonStatus body ≠ some "ERROR".toList) :
    createMaprVolume.loop w si p q idx (e :: rest) =
      ⟨[.httpPost (constructQuery (if Contains e ':' = true then e else e ++ restServerPort)
          si.Userinfo p q)], .ret true⟩ := by
  cases hc : Contains e ':' <;> simp only [hc, if_true, if_false, Bool.not_true, Bool.not_false,
    Bool.false_eq_true] at h ⊢ <;>
  simp only [createMaprVolume.loop, hc, executeQuery, h, hs, statusCode_test_false, run_bind_eq,
    run_pure_eq, call_mk, bind_ret_mk, if_true, if_false, List.cons_append, List.nil_append,
    List.append_nil, Bool.not_true, Bool.not_false, Bool.false_eq_true]

/-- One iteration of the loop of `deleteMaprVolume` whose endpoint fails. -/
theorem deleteLoop_cons_of_fail (w : World) (si : serverInfo) (p q e : GoString) (idx : Nat)
    (rest : List GoString)
    (h : w.httpDo idx (constructQuery (if Contains e ':' = true then e else e ++ restServerPort)
        si.Userinfo p q) = .transportError ∨
      (∃ code, w.httpDo idx (constructQuery
        (if Contains e ':' = true then e else e ++ restServerPort) si.Userinfo p q) =
          .response code none) ∨
      (∃ code body, w.httpDo idx (constructQuery
        (if Contains e ':' = true then e else e ++ restServerPort) si.Userinfo p q) =
          .response code (some body) ∧ w.jsonStatus body = some "ERROR".toList)) :
    deleteMaprVolume.loop w si p q idx (e :: rest) =
      ⟨.httpPost (constructQuery (if Contains e ':' = true then e else e ++ restServerPort)
          si.Userinfo p q) :: (deleteMaprVolume.loop w si p q (idx + 1) rest).trace,
        (deleteMaprVolume.loop w si p q (idx + 1) rest).outcome⟩ := by
  cases hc : Contains e ':' <;> simp only [hc, if_true, if_false, Bool.not_true, Bool.not_false,
    Bool.false_eq_true] at h ⊢ <;>
  · rcases h with h | ⟨code, h⟩ | ⟨code, body, h, hs⟩
    · simp only [deleteMaprVolume.loop, hc, executeQuery, h, run_bind_eq, run_pure_eq, call_mk,
        bind_ret_mk, if_true, if_false, List.cons_append, List.nil_append, Bool.not_true,
        Bool.not_false, Bool.false_eq_true]
    · simp only [deleteMaprVolume.loop, hc, executeQuery, h, statusCode_test_false, run_bind_eq,
        run_pure_eq, call_mk, bind_ret_mk, if_true, if_false, List.cons_append, List.nil_append,
        Bool.not_true, Bool.not_false, Bool.false_eq_true]
    · simp only [deleteMaprVolume.loop, hc, executeQuery, h, hs, statusCode_test_false, run_bind_eq,
        run_pure_eq, call_mk, bind_ret_mk, if_true, if_false, List.cons_append, List.nil_append,
        Bool.not_true, Bool.not_false, Bool.false_eq_true]

/-- One iteration of the loop of `deleteMaprVolume` whose endpoint answers with success. -/
theorem deleteLoop_cons_of_success (w : World) (si : serverInfo) (p q e : GoString) (idx : Nat)
    (rest : List GoString) (code : Int) (body : GoString)
    (h : w.httpDo idx (constructQuery (if Contains e ':' = true then e else e ++ restServerPort)
        si.Userinfo p q) = .response code (some body))
    (hs : w.jsonStatus body ≠ some "ERROR".toList) :
    deleteMaprVolume.loop w si p q idx (e :: rest) =
      ⟨[.httpPost (constructQuery (if Contains e ':' = true then e else e ++ restServerPort)
          si.Userinfo p q)], .ret true⟩ := by
  cases hc : Contains e ':' <;> simp only [hc, if_true, if_false, Bool.not_true, Bool.not_false,
    Bool.false_eq_true] at h ⊢ <;>
  simp only [deleteMaprVolume.loop, hc, executeQuery, h, hs, statusCode_test_false, run_bind_eq,
    run_pure_eq, call_mk, bind_ret_mk, if_true, if_false, List.cons_append, List.nil_append,
    List.append_nil, Bool.not_true, Bool.not_false, Bool.false_eq_true]

/-- Every answer of an endpoint is a failure or a success in the sense of the two lemmas above. -/
theorem httpResult_cases (w : World) (r : HttpResult) :
    (r = .transportError ∨ (∃ code, r = .response code none) ∨
      (∃ code body, r = .response code (some body) ∧ w.jsonStatus body = some "ERROR".toList)) ∨
    (∃ code body, r = .response code (some body) ∧ w.jsonStatus body ≠ some "ERROR".toList) := by
  cases r with
  | transportError => exact Or.inl (Or.inl rfl)
  | response code body =>
    cases body with
    | none => exact Or.inl (Or.inr (Or.inl ⟨code, rfl⟩))
    | some body =>
      by_cases hs : w.jsonStatus body = some "ERROR".toList
      · exact Or.inl (Or.inr (Or.inr ⟨code, body, rfl, hs⟩))
      · exact Or.inr ⟨code, body, rfl, hs⟩

/-- The loop of `createMaprVolume` under failover: `K` transport errors, then a success. -/
theorem createLoop_failover (w : World) (si : serverInfo) (p q : GoString) :
    ∀ (eps : List GoString) (K idx : Nat), K < eps.length →
      (∀ j e, j < K → eps[j]? = some e →
        w.httpDo (idx + j) (constructQuery
          (if Contains e ':' = true then e else e ++ restServerPort) si.Userinfo p q) =
            .transportError) →
      (∀ e, eps[K]? = some e → ∃ code body,
        w.httpDo (idx + K) (constructQuery
          (if Contains e ':' = true then e else e ++ restServerPort) si.Userinfo p q) =
            .response code (some body) ∧ w.jsonStatus body ≠ some "ERROR".toList) →
      createMaprVolume.loop w si p q idx eps =
        ⟨(eps.take (K + 1)).map (fun e => .httpPost (constructQuery
          (if Contains e ':' = true then e else e ++ restServerPort) si.Userinfo p q)),
          .ret true⟩ := by
  intro eps
  induction eps with
  | nil => intro K idx hK; simp at hK
  | cons e rest ih =>
    intro K idx hK hfail hok
    cases K with
    | zero =>
      obtain ⟨code, body, hresp, hs⟩ := hok e (by simp)
      rw [createLoop_cons_of_success w si p q e idx rest code body hresp hs]
      rfl
    | succ k =>
      have h0 := hfail 0 e (Nat.succ_pos k) (by simp)
      rw [createLoop_cons_of_fail w si p q e idx rest (Or.inl h0)]
      have hrest := ih k (idx + 1) (by simpa using hK)
        (fun j e' hj he' => by
          have := hfail (j + 1) e' (by omega) (by simpa using he')
          rwa [show idx + 1 + j = idx + (j + 1) by omega])
        (fun e' he' => by
          have := hok e' (by simpa using he')
          rwa [show idx + 1 + k = idx + (k + 1) by omega])
      rw [hrest]
      rfl

/-- C4: failover in `createMaprVolume`.  For an endpoint list of length `N` and `K < N`, if the
calls to the first `K` endpoints return transport errors and the call to endpoint `K + 1` returns
a readable body whose status is not `ERROR`, then `createMaprVolume` returns success (a `nil`
error), the requests go to the first `K + 1` endpoints in list order, exactly `K + 1` calls are
made, and no endpoint after the `K + 1`-st is called. -/
theorem createMaprVolume_failover (w : World) (cleanoptions : GoMap) (si : serverInfo) (K : Nat)
    (hK : K < (Split si.REST ' ').length)
    (hfail : ∀ j e, j < K → (Split si.REST ' ')[j]? = some e →
      w.httpDo j (constructQuery (if Contains e ':' = true then e else e ++ restServerPort)
        si.Userinfo "/rest/volume/create".toList (createRawQuery w cleanoptions)) =
          .transportError)
    (hok : ∀ e, (Split si.REST ' ')[K]? = some e → ∃ code body,
      w.httpDo K (constructQuery (if Contains e ':' = true then e else e ++ restServerPort)
        si.Userinfo "/rest/volume/create".toList (createRawQuery w cleanoptions)) =
          .response code (some body) ∧ w.jsonStatus body ≠ some "ERROR".toList) :
    createMaprVolume w cleanoptions si =
      ⟨((Split si.REST ' ').take (K + 1)).map (fun e => .httpPost (constructQuery
        (if Contains e ':' = true then e else e ++ restServerPort) si.Userinfo
        "/rest/volume/create".toList (createRawQuery w cleanoptions))), .ret none⟩ ∧
    (createMaprVolume w cleanoptions si).trace.length = K + 1 := by
  have hloop := createLoop_failover w si "/rest/volume/create".toList
    (createRawQuery w cleanoptions) (Split si.REST ' ') K 0 hK
    (fun j e hj he => by simpa using hfail j e hj he)
    (fun e he => by simpa using hok e he)
  have hrun : createMaprVolume w cleanoptions si =
      ⟨((Split si.REST ' ').take (K + 1)).map (fun e => .httpPost (constructQuery
        (if Contains e ':' = true then e else e ++ restServerPort) si.Userinfo
        "/rest/volume/create".toList (createRawQuery w cleanoptions))), .ret none⟩ := by
    simp only [createMaprVolume, hloop, run_bind_eq, run_pure_eq, bind_ret_mk, List.append_nil,
      Bool.not_true, Bool.false_eq_true, if_false]
  refine ⟨hrun, ?_⟩
  rw [hrun]
  simp only [List.length_map, List.length_take]
  omega

/-- Witness of `createMaprVolume_failover`: three endpoints, the first of which fails at
transport level (`K = 1`); two requests are sent, to `rest1:8443` and to `rest2:9443`. -/
theorem createMaprVolume_failover_witness :
    createMaprVolume World.failover [] sampleServerInfo =
      ⟨[.httpPost ⟨"https".toList, ⟨"mapr".toList, "secret".toList⟩, "rest1:8443".toList,
          "/rest/volume/create".toList, []⟩,
        .httpPost ⟨"https".toList, ⟨"mapr".toList, "secret".toList⟩, "rest2:9443".toList,
          "/rest/volume/create".toList, []⟩], .ret none⟩ :=
  (createMaprVolume_failover World.failover [] sampleServerInfo 1 (by decide)
    (fun j _ hj _ => by
      have hj0 : j = 0 := by omega
      subst hj0
      rfl)
    (fun _ _ => ⟨200, "\x7b\"status\":\"OK\"\x7d".toList, rfl, by decide⟩)).1.trans (by decide)

/-- The loop of `createMaprVolume` always returns, and it returns `false` exactly when every
endpoint from `idx` on fails. -/
theorem createLoop_false_iff (w : World) (si : serverInfo) (p q : GoString) :
    ∀ (eps : List GoString) (idx : Nat),
      (∃ success, (createMaprVolume.loop w si p q idx eps).outcome = .ret success) ∧
      ((createMaprVolume.loop w si p q idx eps).outcome = .ret false ↔
        ∀ j e, eps[j]? = some e →
          (w.httpDo (idx + j) (constructQuery
              (if Contains e ':' = true then e else e ++ restServerPort) si.Userinfo p q) =
                .transportError ∨
            (∃ code, w.httpDo (idx + j) (constructQuery
              (if Contains e ':' = true then e else e ++ restServerPort) si.Userinfo p q) =
                .response code none) ∨
            (∃ code body, w.httpDo (idx + j) (constructQuery
              (if Contains e ':' = true then e else e ++ restServerPort) si.Userinfo p q) =
                .response code (some body) ∧ w.jsonStatus body = some "ERROR".toList))) := by
  intro eps
  induction eps with
  | nil =>
    intro idx
    refine ⟨⟨false, rfl⟩, ?_⟩
    constructor
    · intro _ j e he
      simp at he
    · intro _
      rfl
  | cons e rest ih =>
    intro idx
    obtain ⟨hret, hiff⟩ := ih (idx + 1)
    rcases httpResult_cases w (w.httpDo idx (constructQuery
      (if Contains e ':' = true then e else e ++ restServerPort) si.Userinfo p q)) with hf | hs
    · rw [createLoop_cons_of_fail w si p q e idx rest hf]
      refine ⟨hret, ?_⟩
      simp only
      rw [hiff]
      constructor
      · intro hall j e' he'
        cases j with
        | zero =>
          have hee : e = e' := by simpa using he'
          subst hee
          exact hf
        | succ j =>
          have := hall j e' (by simpa using he')
          rwa [show idx + 1 + j = idx + (j + 1) by omega] at this
      · intro hall j e' he'
        have := hall (j + 1) e' (by simpa using he')
        rwa [show idx + (j + 1) = idx + 1 + j by omega] at this
    · obtain ⟨code, body, hresp, hstatus⟩ := hs
      rw [createLoop_cons_of_success w si p q e idx rest code body hresp hstatus]
      refine ⟨⟨true, rfl⟩, ?_⟩
      constructor
      · intro h
        simp at h
      · intro hall
        exfalso
        have h0 := hall 0 e (by simp)
        rw [Nat.add_zero, hresp] at h0
        rcases h0 with h0 | ⟨c, h0⟩ | ⟨c, b, h0, hb⟩
        · simp at h0
        · simp at h0
        · simp only [HttpResult.response.injEq, Option.some.injEq] at h0
          rw [← h0.2] at hb
          exact hstatus hb

/-- The loop of `createMaprVolume` does not look at HTTP status codes. -/
theorem createLoop_mapStatusCode (w : World) (f : Int → Int) (si : serverInfo)
    (p q : GoString) :
    ∀ (eps : List GoString) (idx : Nat),
      createMaprVolume.loop (w.mapStatusCode f) si p q idx eps =
        createMaprVolume.loop w si p q idx eps := by
  intro eps
  induction eps with
  | nil => intro idx; rfl
  | cons e rest ih =>
    intro idx
    rcases httpResult_cases w (w.httpDo idx (constructQuery
      (if Contains e ':' = true then e else e ++ restServerPort) si.Userinfo p q)) with hf | hs
    · have hf' : (w.mapStatusCode f).httpDo idx (constructQuery
            (if Contains e ':' = true then e else e ++ restServerPort) si.Userinfo p q) =
              .transportError ∨
          (∃ code, (w.mapStatusCode f).httpDo idx (constructQuery
            (if Contains e ':' = true then e else e ++ restServerPort) si.Userinfo p q) =
              .response code none) ∨
          (∃ code body, (w.mapStatusCode f).httpDo idx (constructQuery
            (if Contains e ':' = true then e else e ++ restServerPort) si.Userinfo p q) =
              .response code (some body) ∧
            (w.mapStatusCode f).jsonStatus body = some "ERROR".toList) := by
        rcases hf with h | ⟨c, h⟩ | ⟨c, b, h, hb⟩
        · exact Or.inl (by simp only [World.mapStatusCode, h])
        · exact Or.inr (Or.inl ⟨f c, by simp only [World.mapStatusCode, h]⟩)
        · exact Or.inr (Or.inr ⟨f c, b, by simp only [World.mapStatusCode, h], hb⟩)
      rw [createLoop_cons_of_fail w si p q e idx rest hf,
        createLoop_cons_of_fail (w.mapStatusCode f) si p q e idx rest hf', ih (idx + 1)]
    · obtain ⟨code, body, hresp, hstatus⟩ := hs
      have hresp' : (w.mapStatusCode f).httpDo idx (constructQuery
          (if Contains e ':' = true then e else e ++ restServerPort) si.Userinfo p q) =
            .response (f code) (some body) := by
        simp only [World.mapStatusCode, hresp]
      rw [createLoop_cons_of_success w si p q e idx rest code body hresp hstatus,
        createLoop_cons_of_success (w.mapStatusCode f) si p q e idx rest (f code) body hresp'
          hstatus]

/-- C5: `createMaprVolume` returns, and it returns an error if and only if every endpoint of the
list was exhausted without success, that is, for each endpoint the call failed at transport
level, or its body could not be read, or the `status` member of its body equals `"ERROR"`.  The
HTTP status code of a response never influences the run: replacing every status code by any
other leaves the run unchanged, because the test `StatusCode <= 200 && StatusCode >= 299` is false
for every integer. -/
theorem createMaprVolume_error_iff (w : World) (cleanoptions : GoMap) (si : serverInfo) :
    ((createMaprVolume w cleanoptions si).outcome = .ret none ∨
      (createMaprVolume w cleanoptions si).outcome =
        .ret (some "ERROR  cannot create volume".toList)) ∧
    ((createMaprVolume w cleanoptions si).outcome =
        .ret (some "ERROR  cannot create volume".toList) ↔
      ∀ j e, (Split si.REST ' ')[j]? = some e →
        (w.httpDo j (constructQuery (if Contains e ':' = true then e else e ++ restServerPort)
            si.Userinfo "/rest/volume/create".toList (createRawQuery w cleanoptions)) =
              .transportError ∨
          (∃ code, w.httpDo j (constructQuery
            (if Contains e ':' = true then e else e ++ restServerPort)
            si.Userinfo "/rest/volume/create".toList (createRawQuery w cleanoptions)) =
              .response code none) ∨
          (∃ code body, w.httpDo j (constructQuery
            (if Contains e ':' = true then e else e ++ restServerPort)
            si.Userinfo "/rest/volume/create".toList (createRawQuery w cleanoptions)) =
              .response code (some body) ∧ w.jsonStatus body = some "ERROR".toList))) ∧
    (∀ f : Int → Int, createMaprVolume (w.mapStatusCode f) cleanoptions si =
      createMaprVolume w cleanoptions si) ∧
    (∀ StatusCode : Int, ¬ (StatusCode ≤ 200 ∧ StatusCode ≥ 299)) := by
  obtain ⟨⟨success, hret⟩, hiff⟩ := createLoop_false_iff w si "/rest/volume/create".toList
    (createRawQuery w cleanoptions) (Split si.REST ' ') 0
  have hrun : createMaprVolume w cleanoptions si =
      ⟨(createMaprVolume.loop w si "/rest/volume/create".toList (createRawQuery w cleanoptions) 0
          (Split si.REST ' ')).trace,
        .ret (if success = true then none else some "ERROR  cannot create volume".toList)⟩ := by
    have hmk : createMaprVolume.loop w si "/rest/volume/create".toList
        (createRawQuery w cleanoptions) 0 (Split si.REST ' ') =
          ⟨(createMaprVolume.loop w si "/rest/volume/create".toList
            (createRawQuery w cleanoptions) 0 (Split si.REST ' ')).trace, .ret success⟩ := by
      rw [← hret]
    simp only [createMaprVolume, run_bind_eq]
    rw [hmk]
    cases success <;>
    simp only [run_pure_eq, bind_ret_mk, List.append_nil, Bool.not_true, Bool.not_false,
      Bool.false_eq_true, if_true, if_false]
  refine ⟨?_, ?_, ?_, statusCode_test_false⟩
  · rw [hrun]
    cases success
    · exact Or.inr rfl
    · exact Or.inl rfl
  · rw [hrun]
    simp only [Nat.zero_add] at hiff
    rw [← hiff, hret]
    cases success <;> simp
  · intro f
    simp only [createMaprVolume, createLoop_mapStatusCode]
    rfl

/-- The loops of `createMaprVolume` and `deleteMaprVolume` in step: when the answer of an attempt
depends only on its number and on the host addressed, both loops contact the same hosts, a prefix
of the endpoint list with the default port filled in, and leave with the same value of
`success`. -/
theorem create_delete_loops_agree (w : World) (si : serverInfo) (pc qc pd qd : GoString)
    (answer : Nat → GoString → HttpResult)
    (hnet : ∀ idx query, w.httpDo idx query = answer idx query.Host) :
    ∀ (eps : List GoString) (idx : Nat), ∃ (hosts : List GoString) (success : Bool),
      hosts <+: eps.map (fun e => if Contains e ':' = true then e else e ++ restServerPort) ∧
      createMaprVolume.loop w si pc qc idx eps =
        ⟨hosts.map (fun h => .httpPost (constructQuery h si.Userinfo pc qc)), .ret success⟩ ∧
      deleteMaprVolume.loop w si pd qd idx eps =
        ⟨hosts.map (fun h => .httpPost (constructQuery h si.Userinfo pd qd)), .ret success⟩ := by
  intro eps
  induction eps with
  | nil =>
    intro idx
    exact ⟨[], false, List.prefix_refl _, rfl, rfl⟩
  | cons e rest ih =>
    intro idx
    have hc : w.httpDo idx (constructQuery
        (if Contains e ':' = true then e else e ++ restServerPort) si.Userinfo pc qc) =
          answer idx (if Contains e ':' = true then e else e ++ restServerPort) := hnet _ _
    have hd : w.httpDo idx (constructQuery
        (if Contains e ':' = true then e else e ++ restServerPort) si.Userinfo pd qd) =
          answer idx (if Contains e ':' = true then e else e ++ restServerPort) := hnet _ _
    rcases httpResult_cases w
      (answer idx (if Contains e ':' = true then e else e ++ restServerPort)) with hf | hs
    · obtain ⟨hosts, success, hpre, hcreate, hdelete⟩ := ih (idx + 1)
      refine ⟨(if Contains e ':' = true then e else e ++ restServerPort) :: hosts, success,
        ?_, ?_, ?_⟩
      · simpa using hpre
      · rw [createLoop_cons_of_fail w si pc qc e idx rest (by rw [hc]; exact hf), hcreate]
        rfl
      · rw [deleteLoop_cons_of_fail w si pd qd e idx rest (by rw [hd]; exact hf), hdelete]
        rfl
    · obtain ⟨code, body, hresp, hstatus⟩ := hs
      refine ⟨[if Contains e ':' = true then e else e ++ restServerPort], true, ?_, ?_, ?_⟩
      · simp
      · rw [createLoop_cons_of_success w si pc qc e idx rest code body (by rw [hc]; exact hresp)
          hstatus]
        rfl
      · rw [deleteLoop_cons_of_success w si pd qd e idx rest code body (by rw [hd]; exact hresp)
          hstatus]
        rfl

/-- C6: `deleteMaprVolume` follows the same failover algorithm as `createMaprVolume`.  For every
endpoint list and every assignment of outcomes to the attempts (transport error, unreadable body,
body status), given per attempt number and host, both functions contact the same hosts in the
same order, with the same default-port rule (the hosts are a prefix of the endpoint list with
`:8443` appended where an endpoint has no colon), stop at the same endpoint, and return success or
failure alike.  The requests differ only in the path (`/rest/volume/remove` against
`/rest/volume/create`) and in the query string; scheme, credentials and host are the same. -/
theorem deleteMaprVolume_same_failover (w : World) (cleanoptions : GoMap)
    (volumename : GoString) (si : serverInfo) (answer : Nat → GoString → HttpResult)
    (hnet : ∀ idx query, w.httpDo idx query = answer idx query.Host) :
    ∃ (hosts : List GoString) (success : Bool),
      hosts <+: (Split si.REST ' ').map
        (fun e => if Contains e ':' = true then e else e ++ restServerPort) ∧
      createMaprVolume w cleanoptions si =
        ⟨hosts.map (fun h => .httpPost (constructQuery h si.Userinfo
            "/rest/volume/create".toList (createRawQuery w cleanoptions))),
          .ret (if success = true then none else some "ERROR  cannot create volume".toList)⟩ ∧
      deleteMaprVolume w volumename si =
        ⟨hosts.map (fun h => .httpPost (constructQuery h si.Userinfo
            "/rest/volume/remove".toList ("name=".toList ++ volumename))),
          .ret (if success = true then none else some "ERROR  cannot delete volume".toList)⟩ := by
  obtain ⟨hosts, success, hpre, hcreate, hdelete⟩ := create_delete_loops_agree w si
    "/rest/volume/create".toList (createRawQuery w cleanoptions)
    "/rest/volume/remove".toList ("name=".toList ++ volumename) answer hnet (Split si.REST ' ') 0
  refine ⟨hosts, success, hpre, ?_, ?_⟩
  · simp only [createMaprVolume, run_bind_eq, hcreate]
    cases success <;>
    simp only [run_pure_eq, bind_ret_mk, List.append_nil, Bool.not_true, Bool.not_false,
      Bool.false_eq_true, if_true, if_false]
  · simp only [deleteMaprVolume, run_bind_eq, hdelete]
    cases success <;>
    simp only [run_pure_eq, bind_ret_mk, List.append_nil, Bool.not_true, Bool.not_false,
      Bool.false_eq_true, if_true, if_false]

/-- Witness of `deleteMaprVolume_same_failover`: in the world whose first attempt fails, the
answers depend on the attempt number only, and both functions contact `rest1:8443` and then
`rest2:9443`. -/
theorem deleteMaprVolume_same_failover_witness :
    ∃ (hosts : List GoString) (success : Bool),
      hosts <+: (Split sampleServerInfo.REST ' ').map
        (fun e => if Contains e ':' = true then e else e ++ restServerPort) ∧
      createMaprVolume World.failover [] sampleServerInfo =
        ⟨hosts.map (fun h => .httpPost (constructQuery h sampleServerInfo.Userinfo
            "/rest/volume/create".toList (createRawQuery World.failover []))),
          .ret (if success = true then none else some "ERROR  cannot create volume".toList)⟩ ∧
      deleteMaprVolume World.failover "maprprovisioner.abcdefghij".toList sampleServerInfo =
        ⟨hosts.map (fun h => .httpPost (constructQuery h sampleServerInfo.Userinfo
            "/rest/volume/remove".toList ("name=".toList ++ "maprprovisioner.abcdefghij".toList))),
          .ret (if success = true then none else some "ERROR  cannot delete volume".toList)⟩ :=
  deleteMaprVolume_same_failover World.failover [] "maprprovisioner.abcdefghij".toList
    sampleServerInfo
    (fun idx _ => if idx = 0 then .transportError
      else .response 200 (some "\x7b\"status\":\"OK\"\x7d".toList))
    (fun _ _ => rfl)

/-! ## Go maps -/

theorem lookup_filter_ne (m : GoMap) (k k' : GoString) :
    List.lookup k' (m.filter (fun kv => kv.1 != k)) = if k' = k then none else m.lookup k' := by
  induction m with
  | nil => simp
  | cons kv m ih =>
    obtain ⟨a, b⟩ := kv
    by_cases hak : a = k
    · subst hak
      by_cases hk : k' = a
      · subst hk
        simp [List.filter_cons, ih]
      · have hbeq : (k' == a) = false := by simpa using hk
        simp [List.filter_cons, ih, hk, List.lookup_cons, hbeq]
    · have hne : (a != k) = true := by simpa using hak
      simp only [List.filter_cons, hne, if_true, List.lookup_cons]
      by_cases hk : k' = a
      · subst hk
        simp [hak]
      · have hbeq : (k' == a) = false := by simpa using hk
        simp only [hbeq, ih]

/-- Reading after `m[k] = v`. -/
theorem lookup_set (m : GoMap) (k v k' : GoString) :
    List.lookup k' (m.set k v) = if k' = k then some v else m.lookup k' := by
  unfold GoMap.set
  rw [List.lookup_append, lookup_filter_ne]
  by_cases hk : k' = k
  · subst hk
    simp [List.lookup_cons]
  · have hbeq : (k' == k) = false := by simpa using hk
    simp [hk, List.lookup_cons, hbeq]

/-- Reading after `delete(m, k)`. -/
theorem lookup_delete (m : GoMap) (k k' : GoString) :
    List.lookup k' (m.delete k) = if k' = k then none else m.lookup k' := by
  unfold GoMap.delete
  exact lookup_filter_ne m k k'

theorem lookup_isSome_of_mem (m : GoMap) (kv : GoString × GoString) (h : kv ∈ m) :
    ∃ v, m.lookup kv.1 = some v := by
  induction m with
  | nil => simp at h
  | cons e m ih =>
    obtain ⟨a, b⟩ := e
    by_cases hk : kv.1 = a
    · exact ⟨b, by simp [List.lookup_cons, hk]⟩
    · have hbeq : (kv.1 == a) = false := by simpa using hk
      rcases List.mem_cons.mp h with h | h
      · exact absurd (by rw [h]) hk
      · obtain ⟨v, hv⟩ := ih h
        exact ⟨v, by simp only [List.lookup_cons, hbeq, hv]⟩

theorem lookup_eq_none_of_not_mem (m : GoMap) (k : GoString) (h : ∀ kv ∈ m, kv.1 ≠ k) :
    m.lookup k = none := by
  induction m with
  | nil => rfl
  | cons e m ih =>
    obtain ⟨a, b⟩ := e
    have hne : k ≠ a := fun hk => h (a, b) (List.mem_cons_self _ _) hk.symm
    have hbeq : (k == a) = false := by simpa using hne
    simp only [List.lookup_cons, hbeq]
    exact ih (fun kv hkv => h kv (List.mem_cons_of_mem _ hkv))

/-! ## `cleanParams` -/

theorem cleanParams_fold (params : GoMap) (k : GoString) :
    ∀ (l : GoMap) (acc : GoMap),
      List.lookup k (l.foldl
        (fun (cleanoptions : GoMap) (kv : GoString × GoString) =>
          if legalparams.contains kv.1 = true then cleanoptions.set kv.1 (params.get kv.1)
          else cleanoptions) acc) =
        if legalparams.contains k = true ∧ (∃ kv ∈ l, kv.1 = k) then some (params.get k)
        else acc.lookup k := by
  intro l
  induction l with
  | nil => intro acc; simp
  | cons e l ih =>
    intro acc
    rw [List.foldl_cons, ih]
    by_cases hrest : legalparams.contains k = true ∧ (∃ kv ∈ l, kv.1 = k)
    · have hall : legalparams.contains k = true ∧ (∃ kv ∈ e :: l, kv.1 = k) := by
        obtain ⟨h1, kv, hkv, hk⟩ := hrest
        exact ⟨h1, kv, List.mem_cons_of_mem _ hkv, hk⟩
      rw [if_pos hrest, if_pos hall]
    · rw [if_neg hrest]
      by_cases hleg : legalparams.contains e.1 = true
      · rw [if_pos hleg, lookup_set]
        by_cases hk : k = e.1
        · subst hk
          have hall : legalparams.contains e.1 = true ∧ (∃ kv ∈ e :: l, kv.1 = e.1) :=
            ⟨hleg, e, List.mem_cons_self _ _, rfl⟩
          rw [if_pos rfl, if_pos hall]
        · have hall : ¬ (legalparams.contains k = true ∧ (∃ kv ∈ e :: l, kv.1 = k)) := by
            rintro ⟨h1, kv, hkv, hkk⟩
            rcases List.mem_cons.mp hkv with h | h
            · exact hk (by rw [← hkk, h])
            · exact hrest ⟨h1, kv, h, hkk⟩
          rw [if_neg hk, if_neg hall]
      · rw [if_neg hleg]
        have hall : ¬ (legalparams.contains k = true ∧ (∃ kv ∈ e :: l, kv.1 = k)) := by
          rintro ⟨h1, kv, hkv, hkk⟩
          rcases List.mem_cons.mp hkv with h | h
          · exact hleg (by rw [← h, hkk]; exact h1)
          · exact hrest ⟨h1, kv, h, hkk⟩
        rw [if_neg hall]

/-- C16: allow-list sanitisation.  For every storage-class parameter map, `cleanParams` returns
the restriction of that map to the keys listed in `legalparams`, with values unchanged: reading
a key of the result gives the value of the input when the key is in the list and present in the
input, and nothing otherwise.  So every key outside the list is dropped, no key absent from the
input is added, and, the function returning a map and nothing else, no key causes an error. -/
theorem cleanParams_restricts (options : VolumeOptions) (k : GoString) :
    List.lookup k (cleanParams options) =
      if k ∈ legalparams then List.lookup k options.Parameters else none := by
  unfold cleanParams
  simp only []
  rw [cleanParams_fold]
  by_cases hleg : k ∈ legalparams
  · have hc : legalparams.contains k = true := by simpa using hleg
    rw [if_pos hleg]
    by_cases hex : ∃ kv ∈ options.Parameters, kv.1 = k
    · rw [if_pos ⟨hc, hex⟩]
      obtain ⟨kv, hkv, hk⟩ := hex
      obtain ⟨v, hv⟩ := lookup_isSome_of_mem _ kv hkv
      rw [hk] at hv
      simp only [GoMap.get, hv]
    · rw [if_neg (fun h => hex h.2)]
      have hnone : List.lookup k options.Parameters = none :=
        lookup_eq_none_of_not_mem _ _ (fun kv hkv hk => hex ⟨kv, hkv, hk⟩)
      rw [hnone]
      rfl
  · have hc : ¬ legalparams.contains k = true := by simpa using hleg
    rw [if_neg hleg, if_neg (fun h => hc h.1)]
    rfl

/-! ## Generated volume identity -/

theorem randomString_char (w : World) (i : Nat) :
    97 ≤ (Char.ofNat (randInt w i 97 122 % 256)).toNat ∧
    (Char.ofNat (randInt w i 97 122 % 256)).toNat ≤ 121 := by
  unfold randInt
  have hlt : w.rand i % (122 - 97) < 25 := Nat.mod_lt _ (by norm_num)
  generalize w.rand i % (122 - 97) = k at hlt
  interval_cases k <;> decide

/-- Every character of a random string is a lowercase letter, and the string has the length
asked for. -/
theorem randomString_spec (w : World) (l : Nat) :
    (randomString w l).length = l ∧
    ∀ c ∈ randomString w l, 'a'.toNat ≤ c.toNat ∧ c.toNat ≤ 'z'.toNat := by
  unfold randomString
  refine ⟨by simp, ?_⟩
  intro c hc
  obtain ⟨i, -, rfl⟩ := List.mem_map.mp hc
  have h := randomString_char w i
  have ha : 'a'.toNat = 97 := rfl
  have hz : 'z'.toNat = 122 := rfl
  omega

/-- C19: generated volume identity.  For every sanitized option map and every outcome of the
random generator, `createVolumeInfo` yields `Name = pfx + "." + s`, `PVName = pfx + "-" + s` and
`Path = mountPrefix + "/" + PVName`, where `pfx` is `namePrefix`, or `maprprovisioner` when
`namePrefix` is empty, and `s` is the same string in all three, of length exactly 10, with every
character a lowercase letter `a` .. `z`. -/
theorem createVolumeInfo_identity (w : World) (cleanoptions : GoMap) (quota : GoString) :
    ∃ s : GoString,
      s.length = 10 ∧
      (∀ c ∈ s, 'a'.toNat ≤ c.toNat ∧ c.toNat ≤ 'z'.toNat) ∧
      (createVolumeInfo w cleanoptions quota).1.Name =
        (if cleanoptions.get "namePrefix".toList = [] then "maprprovisioner".toList
          else cleanoptions.get "namePrefix".toList) ++ ".".toList ++ s ∧
      (createVolumeInfo w cleanoptions quota).1.PVName =
        (if cleanoptions.get "namePrefix".toList = [] then "maprprovisioner".toList
          else cleanoptions.get "namePrefix".toList) ++ "-".toList ++ s ∧
      (createVolumeInfo w cleanoptions quota).1.Path =
        cleanoptions.get "mountPrefix".toList ++ "/".toList ++
          (createVolumeInfo w cleanoptions quota).1.PVName := by
  obtain ⟨hlen, hchars⟩ := randomString_spec w randomSize
  exact ⟨randomString w randomSize, hlen, hchars, rfl, rfl, rfl⟩

/-! ## Identity extraction -/

theorem index_of_getElem? {α : Type} (xs : List α) (n : Nat) (x : α) (h : xs[n]? = some x) :
    index xs (n : Int) = Run.pure x := by
  have h0 : ¬ ((n : Int) < 0) := by omega
  simp [index, h0, h, Run.pure]

/-- C17: identity extraction.  For every kernel path that splits on `/` into at least four
segments, `getPodId` returns the fourth segment from the end and `getVolId` the last one, and
`startFuse` takes as staging path and support path the mounts root and the support root followed
by `podId + "-" + volId` (they are the paths of its two `os.MkdirAll` calls).  For a kernel path
with fewer than four segments `getPodId` yields no identifier: its index is out of range and the
run panics.  `getVolId` is defined for every string. -/
theorem identity_extraction (kpath : GoString) :
    (4 ≤ (Split kpath '/').length →
      ∃ podid volid,
        (Split kpath '/')[(Split kpath '/').length - 4]? = some podid ∧
        (Split kpath '/')[(Split kpath '/').length - 1]? = some volid ∧
        getPodId kpath = Run.pure podid ∧
        getVolId kpath = Run.pure volid ∧
        ∀ (w : World) (options : GoMap),
          options.get "cluster".toList ≠ [] → options.get "cldbHosts".toList ≠ [] →
          (startFuse w kpath options).trace[0]? =
            some (.mkdirAll (client_mounts_path ++ podid ++ "-".toList ++ volid)) ∧
          (w.mkdirAll (client_mounts_path ++ podid ++ "-".toList ++ volid) = true →
            (startFuse w kpath options).trace[1]? =
              some (.mkdirAll (client_support_path ++ podid ++ "-".toList ++ volid)))) ∧
    ((Split kpath '/').length < 4 → getPodId kpath = halt .panic) ∧
    (∃ volid, (Split kpath '/').getLast? = some volid ∧ getVolId kpath = Run.pure volid) := by
  have hpos : 0 < (Split kpath '/').length := List.length_pos.mpr (Split_ne_nil _ _)
  have hvlt : (Split kpath '/').length - 1 < (Split kpath '/').length := by omega
  have hvget : (Split kpath '/')[(Split kpath '/').length - 1]? =
      some ((Split kpath '/').get ⟨(Split kpath '/').length - 1, hvlt⟩) :=
    List.getElem?_eq_getElem hvlt
  have hvol : getVolId kpath =
      Run.pure ((Split kpath '/').get ⟨(Split kpath '/').length - 1, hvlt⟩) := by
    unfold getVolId
    have hcast : (((Split kpath '/').length : Int) - 1) =
        (((Split kpath '/').length - 1 : Nat) : Int) := by omega
    simp only [hcast]
    exact index_of_getElem? _ _ _ hvget
  refine ⟨?_, getPodId_of_lt kpath, ?_⟩
  · intro hlen
    have hplt : (Split kpath '/').length - 4 < (Split kpath '/').length := by omega
    have hpget : (Split kpath '/')[(Split kpath '/').length - 4]? =
        some ((Split kpath '/').get ⟨(Split kpath '/').length - 4, hplt⟩) :=
      List.getElem?_eq_getElem hplt
    have hpod : getPodId kpath =
        Run.pure ((Split kpath '/').get ⟨(Split kpath '/').length - 4, hplt⟩) := by
      unfold getPodId
      have hcast : (((Split kpath '/').length : Int) - 4) =
          (((Split kpath '/').length - 4 : Nat) : Int) := by omega
      simp only [hcast]
      exact index_of_getElem? _ _ _ hpget
    refine ⟨_, _, hpget, hvget, hpod, hvol, ?_⟩
    intro w options hcluster hcldb
    have hor : ¬ (options.get "cluster".toList = [] ∨ options.get "cldbHosts".toList = []) := by
      simp only [hcluster, hcldb, or_self, not_false_eq_true]
    constructor
    · simp only [startFuse, hpod, hvol, hor, run_bind_eq, run_pure_eq, run_pure_mk, call_mk,
        bind_ret_mk, if_false, List.nil_append, List.cons_append, List.getElem?_cons_zero]
    · intro hmk
      simp only [startFuse, hpod, hvol, hor, hmk, run_bind_eq, run_pure_eq, run_pure_mk, call_mk,
        bind_ret_mk, if_false, List.nil_append, List.cons_append, Bool.not_true,
        Bool.false_eq_true, List.getElem?_cons_succ, List.getElem?_cons_zero]
  · refine ⟨_, ?_, hvol⟩
    rw [List.getLast?_eq_getElem?]
    exact hvget

/-! ## The option string of the mount daemon -/

theorem dropWhile_ne_nil_iff (p : Char → Bool) (s : GoString) :
    s.dropWhile p ≠ [] ↔ ∃ c ∈ s, p c = false := by
  rw [Ne, List.dropWhile_eq_nil_iff]
  constructor
  · intro h
    by_contra hcon
    apply h
    intro x hx
    by_contra hpx
    exact hcon ⟨x, hx, by simpa using hpx⟩
  · rintro ⟨c, hc, hpc⟩ hall
    rw [hall c hc] at hpc
    exact absurd hpc (by simp)

theorem exists_mem_dropWhile_iff (p : Char → Bool) (s : GoString) :
    (∃ c ∈ s.dropWhile p, p c = false) ↔ ∃ c ∈ s, p c = false := by
  constructor
  · rintro ⟨c, hc, hpc⟩
    exact ⟨c, (List.dropWhile_sublist p).subset hc, hpc⟩
  · rintro ⟨c, hc, hpc⟩
    refine ⟨c, ?_, hpc⟩
    rw [← List.takeWhile_append_dropWhile p s] at hc
    rcases List.mem_append.mp hc with h | h
    · rw [List.mem_takeWhile_imp h] at hpc
      exact absurd hpc (by simp)
    · exact h

/-- `strings.TrimSpace(s) != ""` says that `s` contains a character that is not white space. -/
theorem TrimSpace_ne_nil_iff (s : GoString) :
    TrimSpace s ≠ [] ↔ ∃ c ∈ s, isSpace c = false := by
  unfold TrimSpace
  rw [Ne, List.reverse_eq_nil_iff, ← Ne, dropWhile_ne_nil_iff]
  constructor
  · rintro ⟨c, hc, hpc⟩
    exact (exists_mem_dropWhile_iff isSpace s).mp ⟨c, List.mem_reverse.mp hc, hpc⟩
  · intro h
    obtain ⟨c, hc, hpc⟩ := (exists_mem_dropWhile_iff isSpace s).mpr h
    exact ⟨c, List.mem_reverse.mpr hc, hpc⟩

theorem trace_bind_forall {α β : Type} (P : Effect → Prop) (x : Run α) (f : α → Run β)
    (hx : ∀ e ∈ x.trace, P e) (hf : ∀ a, ∀ e ∈ (f a).trace, P e) :
    ∀ e ∈ (Run.bind x f).trace, P e := by
  intro e he
  unfold Run.bind at he
  split at he
  · rcases List.mem_append.mp he with h | h
    · exact hx e h
    · exact hf _ e h
  · exact hx e he

theorem mem_ite_trace {α : Type} (c : Prop) [Decidable c] (A B : Run α) (e : Effect)
    (h : e ∈ (if c then A else B).trace) : e ∈ A.trace ∨ e ∈ B.trace := by
  split at h
  · exact Or.inl h
  · exact Or.inr h

theorem index_cases {α : Type} (xs : List α) (i : Int) :
    (∃ x, index xs i = Run.pure x) ∨ index xs i = halt .panic := by
  unfold index
  split
  · exact Or.inr rfl
  · split
    · exact Or.inl ⟨_, rfl⟩
    · exact Or.inr rfl

/-- The secure branch of `startFuse` does not run any command. -/
theorem startFuse_secure_no_exec (w : World)
    (cluster cldblist tsname tsnamespace ticketfile : GoString) :
    ∀ e ∈ (startFuse.secure w cluster cldblist tsname tsnamespace ticketfile).trace,
      ∀ name args, e ≠ .execRun name args := by
  by_cases hts : tsname = [] ∨ tsnamespace = []
  · simp [startFuse.secure, run_pure_eq, run_pure_mk, halt_mk, hts, run_bind_eq, fmtPrint_mk, osExit_mk, bind_ret_mk, bind_halt_mk]
  cases hinfo : w.readFile info_file with
  | none =>
    simp [startFuse.secure, run_pure_eq, run_pure_mk, halt_mk, hts, hinfo, run_bind_eq, fmtPrint_mk, osExit_mk, call_mk,
      bind_ret_mk, bind_halt_mk]
  | some info =>
  rcases index_cases (Split (Trim info '\n') ':') 0 with ⟨khost, hk0⟩ | hk0
  swap
  · simp [startFuse.secure, run_pure_eq, run_pure_mk, halt_mk, hts, hinfo, hk0, run_bind_eq, fmtPrint_mk, osExit_mk, call_mk,
      halt_mk, bind_ret_mk, bind_halt_mk]
  rcases index_cases (Split (Trim info '\n') ':') 1 with ⟨kport, hk1⟩ | hk1
  swap
  · simp [startFuse.secure, run_pure_eq, run_pure_mk, halt_mk, hts, hinfo, hk0, hk1, run_bind_eq, fmtPrint_mk, osExit_mk, call_mk,
      halt_mk, run_pure_mk, bind_ret_mk, bind_halt_mk]
  cases hconfig : w.inClusterConfig with
  | false =>
    simp [startFuse.secure, run_pure_eq, run_pure_mk, halt_mk, hts, hinfo, hk0, hk1, hconfig, run_bind_eq, fmtPrint_mk, osExit_mk,
      call_mk, halt_mk, run_pure_mk, bind_ret_mk, bind_halt_mk]
  | true =>
  cases hclient : w.newForConfig with
  | error =>
    simp [startFuse.secure, run_pure_eq, run_pure_mk, halt_mk, hts, hinfo, hk0, hk1, hconfig, hclient, run_bind_eq, fmtPrint_mk,
      osExit_mk, call_mk, halt_mk, run_pure_mk, bind_ret_mk, bind_halt_mk]
  | nilClient =>
    simp [startFuse.secure, run_pure_eq, run_pure_mk, halt_mk, hts, hinfo, hk0, hk1, hconfig, hclient, run_bind_eq, fmtPrint_mk,
      osExit_mk, call_mk, halt_mk, run_pure_mk, bind_ret_mk, bind_halt_mk]
  | client =>
  cases hsecret : w.getSecret tsnamespace tsname with
  | none =>
    simp [startFuse.secure, run_pure_eq, run_pure_mk, halt_mk, hts, hinfo, hk0, hk1, hconfig, hclient, hsecret, run_bind_eq,
      fmtPrint_mk, osExit_mk, call_mk, halt_mk, run_pure_mk, bind_ret_mk, bind_halt_mk]
  | some secretMap =>
  cases secretMap with
  | nil =>
    simp [startFuse.secure, run_pure_eq, run_pure_mk, halt_mk, hts, hinfo, hk0, hk1, hconfig,
      hclient, hsecret, run_bind_eq, fmtPrint_mk, osExit_mk, call_mk, bind_ret_mk, bind_halt_mk]
  | cons kv rest =>
    cases hwrite : w.writeFile ticketfile (startFuse.ticket (kv :: rest)) <;>
    simp [startFuse.secure, run_pure_eq, run_pure_mk, halt_mk, hts, hinfo, hk0, hk1, hconfig,
      hclient, hsecret, hwrite, run_bind_eq, fmtPrint_mk, osExit_mk, call_mk, bind_ret_mk,
      bind_halt_mk]

/-- The option string that `startFuse` computes, as a base followed by a suffix. -/
theorem startFuse_args_eq (mountOptions readoptions readOnly dflt : GoString) :
    (if readoptions ≠ "rw".toList ∨ readOnly = "true".toList then
      (if TrimSpace mountOptions ≠ [] then mountOptions else dflt) ++ " -o ro".toList
    else (if TrimSpace mountOptions ≠ [] then mountOptions else dflt)) =
    (if mountOptions.any (fun c => !isSpace c) = true then mountOptions else dflt) ++
      (if readoptions ≠ "rw".toList ∨ readOnly = "true".toList then " -o ro".toList else []) := by
  have hbase : (if TrimSpace mountOptions ≠ [] then mountOptions else dflt) =
      (if mountOptions.any (fun c => !isSpace c) = true then mountOptions else dflt) := by
    by_cases h : TrimSpace mountOptions ≠ []
    · have hany : mountOptions.any (fun c => !isSpace c) = true := by
        obtain ⟨c, hc, hs⟩ := (TrimSpace_ne_nil_iff mountOptions).mp h
        exact List.any_eq_true.mpr ⟨c, hc, by simp [hs]⟩
      rw [if_pos h, if_pos hany]
    · have hany : ¬ mountOptions.any (fun c => !isSpace c) = true := by
        intro hany
        obtain ⟨c, hc, hs⟩ := List.any_eq_true.mp hany
        exact h ((TrimSpace_ne_nil_iff mountOptions).mpr ⟨c, hc, by simpa using hs⟩)
      rw [if_neg h, if_neg hany]
  rw [hbase]
  split <;> simp

/-- C18: the mount options string passed to the mount daemon.  For every option map, whenever
`startFuse` runs a command, the command is the mount daemon script with ten arguments, and the
last one, the options string, equals base followed by suffix: base is the caller's `mountOptions`
taken verbatim when it contains a character that is not white space (replacing the default flags
wholesale) and otherwise the fixed default flag string; suffix is `" -o ro"` exactly when
`kubernetes.io/readwrite` is not `"rw"` or `readOnly` is `"true"`, and empty otherwise. -/
theorem startFuse_mount_options (w : World) (kpath : GoString) (options : GoMap)
    (name : GoString) (args : List GoString)
    (h : Effect.execRun name args ∈ (startFuse w kpath options).trace) :
    name = fuse_script ∧ args.length = 10 ∧
    args[9]? = some
      ((if (options.get "mountOptions".toList).any (fun c => !isSpace c) = true then
          options.get "mountOptions".toList
        else "-o allow_other -o big_writes -o auto_unmount -o async_dio -o max_background=64 -o auto_inval_data --disable_writeback".toList) ++
        (if options.get "kubernetes.io/readwrite".toList ≠ "rw".toList ∨
            options.get "readOnly".toList = "true".toList then " -o ro".toList
          else [])) := by
  rw [← startFuse_args_eq]
  revert h
  have hpodcases : (∃ x, getPodId kpath = Run.pure x) ∨ getPodId kpath = halt .panic :=
    index_cases _ _
  obtain ⟨volid, hvol⟩ := getVolId_total kpath
  rcases hpodcases with ⟨podid, hpod⟩ | hpod
  swap
  · simp only [startFuse, hpod, run_bind_eq, run_pure_mk, run_pure_eq, fmtPrint_mk, osExit_mk, halt_mk, call_mk,
      bind_ret_mk, bind_halt_mk, if_true, if_false, List.nil_append, List.cons_append,
      List.append_nil, Bool.not_true, Bool.not_false, Bool.false_eq_true]
    intro h
    simp at h
  by_cases hor : options.get "cluster".toList = [] ∨ options.get "cldbHosts".toList = []
  · simp only [startFuse, hpod, hvol, hor, run_bind_eq, run_pure_mk, run_pure_eq, fmtPrint_mk, osExit_mk, halt_mk, call_mk,
      bind_ret_mk, bind_halt_mk, if_true, if_false, List.nil_append, List.cons_append,
      List.append_nil, Bool.not_true, Bool.not_false, Bool.false_eq_true]
    intro h
    simp at h
  cases hfm : w.mkdirAll (client_mounts_path ++ podid ++ "-".toList ++ volid) with
  | false =>
    simp only [startFuse, hpod, hvol, hor, hfm, run_bind_eq, run_pure_mk, run_pure_eq, fmtPrint_mk, osExit_mk, halt_mk, call_mk,
      bind_ret_mk, bind_halt_mk, if_true, if_false, List.nil_append, List.cons_append,
      List.append_nil, Bool.not_true, Bool.not_false, Bool.false_eq_true]
    intro h
    simp at h
  | true =>
  cases hsp : w.mkdirAll (client_support_path ++ podid ++ "-".toList ++ volid) with
  | false =>
    simp only [startFuse, hpod, hvol, hor, hfm, hsp, run_bind_eq, run_pure_mk, run_pure_eq, fmtPrint_mk, osExit_mk, halt_mk, call_mk,
      bind_ret_mk, bind_halt_mk, if_true, if_false, List.nil_append, List.cons_append,
      List.append_nil, Bool.not_true, Bool.not_false, Bool.false_eq_true]
    intro h
    simp at h
  | true =>
  by_cases hsec : options.get "securityType".toList = "secure".toList
  · simp only [startFuse, hpod, hvol, hor, hfm, hsp, hsec, run_bind_eq, run_pure_mk, run_pure_eq,
      fmtPrint_mk, osExit_mk, call_mk, bind_ret_mk, bind_halt_mk, if_true, if_false,
      List.nil_append, List.cons_append, List.append_nil, Bool.not_true, Bool.false_eq_true]
    intro h
    rcases List.mem_cons.mp h with h | h
    · exact Effect.noConfusion h
    rcases List.mem_cons.mp h with h | h
    · exact Effect.noConfusion h
    refine trace_bind_forall
      (fun e => e = Effect.execRun name args → _) _ _ ?_ ?_ _ h rfl
    · intro e he heq
      exact absurd heq (startFuse_secure_no_exec _ _ _ _ _ _ e he name args)
    · intro conf e he heq
      subst heq
      cases hexec : w.execRun fuse_script
          [client_mounts_path ++ podid ++ "-".toList ++ volid,
            client_support_path ++ podid ++ "-".toList ++ volid,
            log_path ++ "/".toList ++ podid ++ "-".toList ++ volid, kpath,
            "secure".toList,
            client_support_path ++ podid ++ "-".toList ++ volid ++ "/".toList ++
              "maprticket_0".toList,
            conf, options.get "platinum".toList, podid,
            if options.get "kubernetes.io/readwrite".toList ≠ "rw".toList ∨
                options.get "readOnly".toList = "true".toList then
              (if TrimSpace (options.get "mountOptions".toList) ≠ [] then
                options.get "mountOptions".toList
              else "-o allow_other -o big_writes -o auto_unmount -o async_dio -o max_background=64 -o auto_inval_data --disable_writeback".toList)
                ++ " -o ro".toList
            else
              (if TrimSpace (options.get "mountOptions".toList) ≠ [] then
                options.get "mountOptions".toList
              else "-o allow_other -o big_writes -o auto_unmount -o async_dio -o max_background=64 -o auto_inval_data --disable_writeback".toList)] <;>
      simp only [hexec, Bool.not_true, Bool.not_false, Bool.false_eq_true, if_true, if_false,
        List.mem_cons, List.mem_singleton, List.not_mem_nil, or_false, Effect.execRun.injEq,
        reduceCtorEq] at he <;>
      · obtain ⟨hname, hargs⟩ := he
        subst hname hargs
        exact ⟨rfl, rfl, rfl⟩
  · simp only [startFuse, hpod, hvol, hor, hfm, hsp, hsec, run_bind_eq, run_pure_mk, run_pure_eq,
      fmtPrint_mk, osExit_mk, call_mk, bind_ret_mk, bind_halt_mk, if_true, if_false,
      List.nil_append, List.cons_append, List.append_nil, Bool.not_true, Bool.false_eq_true]
    intro h
    rcases List.mem_cons.mp h with h | h
    · exact Effect.noConfusion h
    rcases List.mem_cons.mp h with h | h
    · exact Effect.noConfusion h
    rcases List.mem_cons.mp h with h | h
    · simp only [Effect.execRun.injEq] at h
      obtain ⟨hname, hargs⟩ := h
      subst hname hargs
      exact ⟨rfl, rfl, rfl⟩
    · exfalso
      rcases mem_ite_trace _ _ _ _ h with h | h
      · exact Effect.noConfusion (List.mem_singleton.mp h)
      · exact absurd h (List.not_mem_nil _)

/-- Witness of `startFuse_mount_options`: a request with its own mount options and a read-only
access mode reaches the mount daemon with the options string `-o big_writes -o ro`. -/
theorem startFuse_mount_options_witness :
    Effect.execRun fuse_script sampleDaemonArgs ∈
      (startFuse World.blank sampleKpath sampleMountOptions).trace ∧
    sampleDaemonArgs[9]? = some "-o big_writes -o ro".toList :=
  ⟨by decide,
    (startFuse_mount_options World.blank sampleKpath sampleMountOptions fuse_script
      sampleDaemonArgs (by decide)).2.2.trans (by decide)⟩

/-! ## Credential resolution -/

theorem fold_key_absent (key : GoString) (m : GoMap) (h : ∀ kv ∈ m, kv.1 ≠ key)
    (init : GoString) :
    m.foldl (fun ticket kv => if kv.1 = key then kv.2 else ticket) init = init := by
  induction m generalizing init with
  | nil => rfl
  | cons kv m ih =>
    rw [List.foldl_cons, if_neg (h kv (List.mem_cons_self _ _))]
    exact ih (fun kv' hkv' => h kv' (List.mem_cons_of_mem _ hkv')) init

theorem fold_userinfo_absent (m : GoMap) (init : GoString × GoString) :
    ((∀ kv ∈ m, kv.1 ≠ adminUserKey) →
      (m.foldl (fun (up : GoString × GoString) kv =>
        (if kv.1 = adminUserKey then kv.2 else up.1,
         if kv.1 = adminPasswordKey then kv.2 else up.2)) init).1 = init.1) ∧
    ((∀ kv ∈ m, kv.1 ≠ adminPasswordKey) →
      (m.foldl (fun (up : GoString × GoString) kv =>
        (if kv.1 = adminUserKey then kv.2 else up.1,
         if kv.1 = adminPasswordKey then kv.2 else up.2)) init).2 = init.2) := by
  induction m generalizing init with
  | nil => exact ⟨fun _ => rfl, fun _ => rfl⟩
  | cons kv m ih =>
    constructor
    · intro h
      rw [List.foldl_cons, (ih _).1 (fun kv' hkv' => h kv' (List.mem_cons_of_mem _ hkv')),
        if_neg (h kv (List.mem_cons_self _ _))]
    · intro h
      rw [List.foldl_cons, (ih _).2 (fun kv' hkv' => h kv' (List.mem_cons_of_mem _ hkv')),
        if_neg (h kv (List.mem_cons_self _ _))]

/-- The run of `getUserInfo` with a kube client and a secret that has entries: one lookup, no
error, whatever the keys of the secret are. -/
theorem getUserInfo_of_secret (w : World) (p : maprProvisioner) (sname snamespace : GoString)
    (secretMap : GoMap) (hclient : p.kubeClient = true)
    (hsecret : w.getSecret snamespace sname = some secretMap) (hne : secretMap ≠ []) :
    getUserInfo w p sname snamespace =
      ⟨[.getSecret snamespace sname],
        .ret (⟨(secretMap.foldl (fun (up : GoString × GoString) kv =>
            (if kv.1 = adminUserKey then kv.2 else up.1,
             if kv.1 = adminPasswordKey then kv.2 else up.2)) ([], [])).1,
          (secretMap.foldl (fun (up : GoString × GoString) kv =>
            (if kv.1 = adminUserKey then kv.2 else up.1,
             if kv.1 = adminPasswordKey then kv.2 else up.2)) ([], [])).2⟩, none)⟩ := by
  have hlen : ¬ secretMap.length = 0 := by
    intro h
    exact hne (List.length_eq_zero.mp h)
  simp only [getUserInfo, hclient, hsecret, hlen, run_bind_eq, run_pure_eq, call_mk, bind_ret_mk,
    if_false, List.append_nil, List.cons_append, List.nil_append, Bool.true_eq_false]

/-- The run of the secure branch of `startFuse` when the service-info file, the kube client and
the secret lookup all answer and the secret has entries: the ticket file is written with whatever
the extraction loop found. -/
theorem startFuse_secure_eq (w : World)
    (cluster cldblist tsname tsnamespace ticketfile info khost kport : GoString)
    (secretMap : GoMap)
    (htsname : tsname ≠ []) (htsnamespace : tsnamespace ≠ [])
    (hinfo : w.readFile info_file = some info)
    (hkhost : index (Split (Trim info '\n') ':') 0 = Run.pure khost)
    (hkport : index (Split (Trim info '\n') ':') 1 = Run.pure kport)
    (hconfig : w.inClusterConfig = true) (hclient : w.newForConfig = .client)
    (hsecret : w.getSecret tsnamespace tsname = some secretMap) (hne : secretMap ≠ [])
    (hwrite : w.writeFile ticketfile (startFuse.ticket secretMap) = true) :
    startFuse.secure w cluster cldblist tsname tsnamespace ticketfile =
      ⟨[.readFile info_file,
        .setenv "KUBERNETES_SERVICE_HOST".toList khost,
        .setenv "KUBERNETES_SERVICE_PORT".toList kport,
        .setenv "KUBERNETES_SERVICE_PORT_HTTPS".toList kport,
        .inClusterConfig, .newForConfig, .getSecret tsnamespace tsname,
        .writeFile ticketfile (startFuse.ticket secretMap)],
        .ret (cluster ++ " secure=true ".toList ++ cldblist)⟩ := by
  have hts : ¬ (tsname = [] ∨ tsnamespace = []) := by
    simp only [htsname, htsnamespace, or_self, not_false_eq_true]
  have hlen : ¬ secretMap.length = 0 := by
    intro h
    exact hne (List.length_eq_zero.mp h)
  simp only [startFuse.secure, hts, hinfo, hkhost, hkport, hconfig, hclient, hsecret, hlen,
    hwrite, run_bind_eq, run_pure_eq, run_pure_mk, call_mk, fmtPrint_mk, osExit_mk, halt_mk,
    bind_ret_mk, bind_halt_mk, if_true, if_false, List.append_nil, List.cons_append,
    List.nil_append, Bool.not_true, Bool.false_eq_true, reduceCtorEq]

/-- C13, as amended: a key missing from a non-empty secret is not an error.  For every non-empty
secret map, `getUserInfo` returns a `nil` error; when the map lacks `MAPR_CLUSTER_USER` the user
name it returns is empty, and when it lacks `MAPR_CLUSTER_PASSWORD` the password is empty.  For
every non-empty secret map that lacks `CONTAINER_TICKET`, the secure mount path of `startFuse`
does not fail the request: it writes an empty ticket file and goes on to call the mount
daemon (the eleven first calls of the run are listed). -/
theorem credentials_missing_key_not_an_error :
    (∀ (w : World) (p : maprProvisioner) (sname snamespace : GoString) (secretMap : GoMap),
      p.kubeClient = true → w.getSecret snamespace sname = some secretMap → secretMap ≠ [] →
      ∃ username password,
        getUserInfo w p sname snamespace =
          ⟨[.getSecret snamespace sname], .ret (⟨username, password⟩, none)⟩ ∧
        ((∀ kv ∈ secretMap, kv.1 ≠ adminUserKey) → username = []) ∧
        ((∀ kv ∈ secretMap, kv.1 ≠ adminPasswordKey) → password = [])) ∧
    (∀ (w : World) (kpath : GoString) (options : GoMap)
      (podid volid info khost kport : GoString) (secretMap : GoMap),
      getPodId kpath = Run.pure podid → getVolId kpath = Run.pure volid →
      options.get "cluster".toList ≠ [] → options.get "cldbHosts".toList ≠ [] →
      options.get "securityType".toList = "secure".toList →
      options.get "ticketSecretName".toList ≠ [] →
      options.get "ticketSecretNamespace".toList ≠ [] →
      w.mkdirAll (client_mounts_path ++ podid ++ "-".toList ++ volid) = true →
      w.mkdirAll (client_support_path ++ podid ++ "-".toList ++ volid) = true →
      w.readFile info_file = some info →
      index (Split (Trim info '\n') ':') 0 = Run.pure khost →
      index (Split (Trim info '\n') ':') 1 = Run.pure kport →
      w.inClusterConfig = true → w.newForConfig = .client →
      w.getSecret (options.get "ticketSecretNamespace".toList)
        (options.get "ticketSecretName".toList) = some secretMap →
      secretMap ≠ [] → (∀ kv ∈ secretMap, kv.1 ≠ ticket_key) →
      w.writeFile (client_support_path ++ podid ++ "-".toList ++ volid ++ "/".toList ++
        "maprticket_0".toList) [] = true →
      (startFuse w kpath options).trace.take 11 =
        [.mkdirAll (client_mounts_path ++ podid ++ "-".toList ++ volid),
          .mkdirAll (client_support_path ++ podid ++ "-".toList ++ volid),
          .readFile info_file,
          .setenv "KUBERNETES_SERVICE_HOST".toList khost,
          .setenv "KUBERNETES_SERVICE_PORT".toList kport,
          .setenv "KUBERNETES_SERVICE_PORT_HTTPS".toList kport,
          .inClusterConfig, .newForConfig,
          .getSecret (options.get "ticketSecretNamespace".toList)
            (options.get "ticketSecretName".toList),
          .writeFile (client_support_path ++ podid ++ "-".toList ++ volid ++ "/".toList ++
            "maprticket_0".toList) [],
          .execRun fuse_script
            [client_mounts_path ++ podid ++ "-".toList ++ volid,
              client_support_path ++ podid ++ "-".toList ++ volid,
              log_path ++ "/".toList ++ podid ++ "-".toList ++ volid,
              kpath,
              options.get "securityType".toList,
              client_support_path ++ podid ++ "-".toList ++ volid ++ "/".toList ++
                "maprticket_0".toList,
              options.get "cluster".toList ++ " secure=true ".toList ++
                startFuse.cldblist (Split (options.get "cldbHosts".toList) ' '),
              options.get "platinum".toList,
              podid,
              if options.get "kubernetes.io/readwrite".toList ≠ "rw".toList ∨
                  options.get "readOnly".toList = "true".toList then
                (if TrimSpace (options.get "mountOptions".toList) ≠ [] then
                  options.get "mountOptions".toList
                else "-o allow_other -o big_writes -o auto_unmount -o async_dio -o max_background=64 -o auto_inval_data --disable_writeback".toList)
                  ++ " -o ro".toList
              else
                (if TrimSpace (options.get "mountOptions".toList) ≠ [] then
                  options.get "mountOptions".toList
                else "-o allow_other -o big_writes -o auto_unmount -o async_dio -o max_background=64 -o auto_inval_data --disable_writeback".toList)]]) := by
  constructor
  · intro w p sname snamespace secretMap hclient hsecret hne
    refine ⟨_, _, getUserInfo_of_secret w p sname snamespace secretMap hclient hsecret hne, ?_, ?_⟩
    · exact (fold_userinfo_absent secretMap ([], [])).1
    · exact (fold_userinfo_absent secretMap ([], [])).2
  · intro w kpath options podid volid info khost kport secretMap hpod hvol hcluster hcldb hsec
      htsname htsnamespace hfm hsp hinfo hkhost hkport hconfig hclient hsecret hne hkey hwrite
    have hor : ¬ (options.get "cluster".toList = [] ∨ options.get "cldbHosts".toList = []) := by
      simp only [hcluster, hcldb, or_self, not_false_eq_true]
    have hticket : startFuse.ticket secretMap = [] := fold_key_absent ticket_key secretMap hkey []
    have hsecure := startFuse_secure_eq w (options.get "cluster".toList)
      (startFuse.cldblist (Split (options.get "cldbHosts".toList) ' '))
      (options.get "ticketSecretName".toList) (options.get "ticketSecretNamespace".toList)
      (client_support_path ++ podid ++ "-".toList ++ volid ++ "/".toList ++ "maprticket_0".toList)
      info khost kport secretMap htsname htsnamespace hinfo hkhost hkport hconfig hclient hsecret
      hne (by rw [hticket]; exact hwrite)
    rw [hticket] at hsecure
    simp only [startFuse, hpod, hvol, hor, hfm, hsp, hsecure, run_bind_eq, run_pure_eq,
      run_pure_mk, call_mk, bind_ret_mk, if_true, if_false, List.append_nil, List.cons_append,
      List.nil_append, Bool.not_true, Bool.false_eq_true, hsec, List.take_succ_cons,
      List.take_zero]

/-- Witness of `credentials_missing_key_not_an_error`: a secret whose only entry is `OTHER_KEY`
yields empty credentials without an error. -/
theorem credentials_missing_key_not_an_error_witness :
    ∃ username password,
      getUserInfo World.secretWithoutKeys provisionerWithClient "mapr-admin".toList
          "mapr-system".toList =
        ⟨[.getSecret "mapr-system".toList "mapr-admin".toList],
          .ret (⟨username, password⟩, none)⟩ ∧
      ((∀ kv ∈ [("OTHER_KEY".toList, "value".toList)], kv.1 ≠ adminUserKey) → username = []) ∧
      ((∀ kv ∈ [("OTHER_KEY".toList, "value".toList)], kv.1 ≠ adminPasswordKey) →
        password = []) :=
  credentials_missing_key_not_an_error.1 World.secretWithoutKeys provisionerWithClient
    "mapr-admin".toList "mapr-system".toList [("OTHER_KEY".toList, "value".toList)] rfl rfl
    (by decide)

/-- C13, counterexample to the claim as stated: with a secret whose only entry is `OTHER_KEY`,
`getUserInfo` returns empty credentials and no error, and the secure mount writes an empty
ticket file, calls the mount daemon and returns the staging mount point. -/
theorem credentials_missing_key_accepted :
    World.secretWithoutKeys.getSecret "mapr-system".toList "mapr-admin".toList =
      some [("OTHER_KEY".toList, "value".toList)] ∧
    getUserInfo World.secretWithoutKeys provisionerWithClient "mapr-admin".toList
        "mapr-system".toList =
      ⟨[.getSecret "mapr-system".toList "mapr-admin".toList], .ret (⟨[], []⟩, none)⟩ ∧
    Effect.writeFile "/opt/mapr/k8s/support/pod1-vol1/maprticket_0".toList [] ∈
      (startFuse World.secretWithoutKeys sampleKpath secureOptions).trace ∧
    (∃ args, Effect.execRun fuse_script args ∈
      (startFuse World.secretWithoutKeys sampleKpath secureOptions).trace) ∧
    (startFuse World.secretWithoutKeys sampleKpath secureOptions).outcome =
      .ret "/opt/mapr/k8s/mounts/pod1-vol1".toList := by
  refine ⟨by decide, by decide, by decide, ⟨
    ["/opt/mapr/k8s/mounts/pod1-vol1".toList, "/opt/mapr/k8s/support/pod1-vol1".toList,
      "/opt/mapr/logs/pod1-vol1".toList, sampleKpath, "secure".toList,
      "/opt/mapr/k8s/support/pod1-vol1/maprticket_0".toList,
      "my.cluster.com secure=true cldb1:7222 cldb2:9999 ".toList, [], "pod1".toList,
      "-o allow_other -o big_writes -o auto_unmount -o async_dio -o max_background=64 -o auto_inval_data --disable_writeback -o ro".toList],
    by decide⟩, by decide⟩

/-! ## `Provision` and `Delete` -/

/-- `getUserInfo` always returns; it makes one secret lookup when there is a kube client and none
otherwise. -/
theorem getUserInfo_returns (w : World) (p : maprProvisioner) (sname snamespace : GoString) :
    ∃ userinfo err, getUserInfo w p sname snamespace =
      ⟨if p.kubeClient = true then [.getSecret snamespace sname] else [],
        .ret (userinfo, err)⟩ := by
  cases hclient : p.kubeClient with
  | false =>
    refine ⟨⟨[], []⟩, some "ERROR  Cannot get kube client".toList, ?_⟩
    simp only [getUserInfo, hclient, run_bind_eq, run_pure_eq, if_true, Bool.false_eq_true,
      if_false]
  | true =>
    cases hsecret : w.getSecret snamespace sname with
    | none =>
      refine ⟨⟨[], []⟩, some "ERROR  Can't get secrets".toList, ?_⟩
      simp only [getUserInfo, hclient, hsecret, run_bind_eq, run_pure_eq, call_mk, bind_ret_mk,
        if_true, if_false, List.append_nil, Bool.true_eq_false, List.nil_append,
        List.cons_append]
    | some secretMap =>
      cases secretMap with
      | nil =>
        refine ⟨⟨[], []⟩, some "ERROR  Empty secret map data".toList, ?_⟩
        simp only [getUserInfo, hclient, hsecret, run_bind_eq, run_pure_eq, call_mk,
          bind_ret_mk, if_true, if_false, List.append_nil, Bool.true_eq_false,
          List.length_nil, List.nil_append, List.cons_append]
      | cons kv rest =>
        have h := getUserInfo_of_secret w p sname snamespace (kv :: rest) hclient hsecret
          (List.cons_ne_nil _ _)
        simp only [if_true]
        exact ⟨_, none, h⟩

/-- The run of `createServerInfo`: the run of `getUserInfo` for the secret named in the options,
whose error is dropped, and a server description built from the options. -/
theorem createServerInfo_eq (w : World) (p : maprProvisioner) (cleanoptions : GoMap)
    (tr : List Effect) (userinfo : Userinfo) (err : Option GoString)
    (huser : getUserInfo w p (cleanoptions.get "maprSecretName".toList)
      (cleanoptions.get "maprSecretNamespace".toList) = ⟨tr, .ret (userinfo, err)⟩) :
    createServerInfo w p cleanoptions =
      ⟨tr, .ret
        ({ REST := cleanoptions.get "restServers".toList
           Cldbhosts := cleanoptions.get "cldbHosts".toList
           Cluster := cleanoptions.get "cluster".toList
           Securitytype := cleanoptions.get "securityType".toList
           Userinfo := userinfo
           RESTSecretName := cleanoptions.get "maprSecretName".toList
           RESTSecretNamespace := cleanoptions.get "maprSecretNamespace".toList
           TicketSecretName := cleanoptions.get "ticketSecretName".toList
           TicketSecretNamespace := cleanoptions.get "ticketSecretNamespace".toList },
         ((((((((cleanoptions.delete "maprSecretName".toList).delete
           "maprSecretNamespace".toList).delete "restServers".toList).delete
           "cldbHosts".toList).delete "cluster".toList).delete "securityType".toList).delete
           "ticketSecretName".toList).delete "ticketSecretNamespace".toList))⟩ := by
  simp only [createServerInfo, getSecretLocation, huser, run_bind_eq, run_pure_eq, bind_ret_mk,
    List.append_nil]

/-- `createMaprVolume` always returns. -/
theorem createMaprVolume_returns (w : World) (cleanoptions : GoMap) (si : serverInfo) :
    ∃ err, createMaprVolume w cleanoptions si =
      ⟨(createMaprVolume w cleanoptions si).trace, .ret err⟩ := by
  obtain ⟨⟨success, hret⟩, -⟩ := createLoop_false_iff w si "/rest/volume/create".toList
    (createRawQuery w cleanoptions) (Split si.REST ' ') 0
  have hmk : createMaprVolume.loop w si "/rest/volume/create".toList
      (createRawQuery w cleanoptions) 0 (Split si.REST ' ') =
        ⟨(createMaprVolume.loop w si "/rest/volume/create".toList
          (createRawQuery w cleanoptions) 0 (Split si.REST ' ')).trace, .ret success⟩ := by
    rw [← hret]
  refine ⟨if success = true then none else some "ERROR  cannot create volume".toList, ?_⟩
  simp only [createMaprVolume, run_bind_eq]
  rw [hmk]
  cases success <;>
  simp only [run_pure_eq, bind_ret_mk, List.append_nil, Bool.not_true, Bool.not_false,
    Bool.false_eq_true, if_true, if_false]

/-- The run of `Provision`, given the runs of `createServerInfo` and of `createMaprVolume`: the
REST request is made with the server description and the options that `createVolumeInfo`
leaves, and the persistent volume is returned exactly when `createMaprVolume` returns `nil`. -/
theorem Provision_eq (w : World) (p : maprProvisioner) (options : VolumeOptions)
    (si : serverInfo) (cleanoptions : GoMap) (tr trc : List Effect) (err : Option GoString)
    (hsi : createServerInfo w p (cleanParams options) = ⟨tr, .ret (si, cleanoptions)⟩)
    (hcreate : createMaprVolume w
      (createVolumeInfo w cleanoptions (convertCapacity options.PVC.storageRequest)).2 si =
        ⟨trc, .ret err⟩) :
    Provision w p options =
      ⟨tr ++ trc,
        .ret (if err ≠ none then
            (none, some "Can't create volume because of REST error".toList)
          else
            (some
              { Name := (createVolumeInfo w cleanoptions
                  (convertCapacity options.PVC.storageRequest)).1.PVName
                Annotations :=
                  [("mapr.com/maprProvisionerIdentity".toList, p.identity),
                   ("mapr.com/provisionerVersion".toList, provisionerVersion),
                   ("mapr.com/description".toList,
                     "Dynamically provisioned PV for MapR-FS: ".toList ++
                       (createVolumeInfo w cleanoptions
                         (convertCapacity options.PVC.storageRequest)).1.Name),
                   ("mapr.com/restServers".toList, si.REST),
                   ("mapr.com/secretName".toList, si.RESTSecretName),
                   ("mapr.com/secretNamespace".toList, si.RESTSecretNamespace),
                   ("mapr.com/volumeName".toList,
                     (createVolumeInfo w cleanoptions
                       (convertCapacity options.PVC.storageRequest)).1.Name)]
                PersistentVolumeReclaimPolicy := (createVolumeInfo w cleanoptions
                  (convertCapacity options.PVC.storageRequest)).1.ReclaimPolicy
                AccessModes := options.PVC.AccessModes
                Capacity := options.PVC.storageRequest
                Driver := driverName
                Options :=
                  [("volumePath".toList, (createVolumeInfo w cleanoptions
                     (convertCapacity options.PVC.storageRequest)).1.Path),
                   ("cluster".toList, si.Cluster),
                   ("cldbHosts".toList, si.Cldbhosts),
                   ("securityType".toList, si.Securitytype),
                   ("ticketSecretName".toList, si.TicketSecretName),
                   ("ticketSecretNamespace".toList, si.TicketSecretNamespace),
                   ("platinum".toList, (createVolumeInfo w cleanoptions
                     (convertCapacity options.PVC.storageRequest)).1.Platinum),
                   ("mountOptions".toList, (createVolumeInfo w cleanoptions
                     (convertCapacity options.PVC.storageRequest)).1.MountOptions),
                   ("readOnly".toList, (createVolumeInfo w cleanoptions
                     (convertCapacity options.PVC.storageRequest)).1.ReadOnly)] },
             none))⟩ := by
  rcases hcv : createVolumeInfo w cleanoptions (convertCapacity options.PVC.storageRequest)
    with ⟨vi, cleanoptions2⟩
  rw [hcv] at hcreate
  cases err with
  | none =>
    simp only [Provision, hsi, hcv, hcreate, run_bind_eq, run_pure_eq, bind_ret_mk,
      List.append_nil, ne_eq, not_true_eq_false, if_false]
  | some e =>
    simp only [Provision, hsi, hcv, hcreate, run_bind_eq, run_pure_eq, bind_ret_mk,
      List.append_nil, ne_eq, reduceCtorEq, not_false_eq_true, if_true]

/-- C14, the code at a failing input: a provisioner with a kube client, an admin secret that
cannot be fetched, and one REST server that answers `401` with a body that is not JSON.
`getUserInfo` returns the error "Can't get secrets"; `createServerInfo` drops it, and
`Provision` sends the create request all the same, with empty credentials, and returns the
persistent volume with a `nil` error.  On the volume so obtained `Delete`, in the same world,
returns "Failed to get User Info" for the same error of `getUserInfo`, and sends nothing. -/
theorem Provision_swallows_credential_error :
    World.unauthorized.getSecret "mapr-system".toList "mapr-admin".toList = none ∧
    getUserInfo World.unauthorized provisionerWithClient "mapr-admin".toList
        "mapr-system".toList =
      ⟨[.getSecret "mapr-system".toList "mapr-admin".toList],
        .ret (⟨[], []⟩, some "ERROR  Can't get secrets".toList)⟩ ∧
    (∃ rawquery,
      (Provision World.unauthorized provisionerWithClient sampleVolumeOptions).trace =
        [.getSecret "mapr-system".toList "mapr-admin".toList,
         .httpPost ⟨"https".toList, ⟨[], []⟩, "rest1:8443".toList,
           "/rest/volume/create".toList, rawquery⟩]) ∧
    (Provision World.unauthorized provisionerWithClient sampleVolumeOptions).outcome =
      .ret (some sampleProvisionedVolume, none) ∧
    Delete World.unauthorized provisionerWithClient sampleProvisionedVolume =
      ⟨[.getSecret "mapr-system".toList "mapr-admin".toList],
        .ret (some (.errorsNew "Failed to get User Info".toList))⟩ :=
  ⟨by decide, by decide,
    ⟨"name=pv.abcdefghij&path=%2Fk8s%2Fpv-abcdefghij&quota=5000M&createparent=1&mount=1".toList,
      by decide⟩,
    by decide, by decide⟩

/-- The `name` option that `createVolumeInfo` leaves for the REST query is the volume name. -/
theorem createVolumeInfo_name (w : World) (cleanoptions : GoMap) (quota : GoString) :
    (createVolumeInfo w cleanoptions quota).2.get "name".toList =
      (createVolumeInfo w cleanoptions quota).1.Name := by
  simp only [createVolumeInfo, GoMap.get, lookup_set, lookup_delete]
  simp only [show ("name".toList = "mount".toList) = False from by decide,
    show ("name".toList = "createparent".toList) = False from by decide,
    show ("name".toList = "reclaimPolicy".toList) = False from by decide,
    show ("name".toList = "readOnly".toList) = False from by decide,
    show ("name".toList = "mountOptions".toList) = False from by decide,
    show ("name".toList = "platinum".toList) = False from by decide,
    show ("name".toList = "mountPrefix".toList) = False from by decide,
    show ("name".toList = "namePrefix".toList) = False from by decide,
    show ("name".toList = "quota".toList) = False from by decide,
    show ("name".toList = "path".toList) = False from by decide, if_false, if_true]

theorem bind_nil_ret {α β : Type} (a : α) (f : α → Run β) :
    Run.bind ⟨[], .ret a⟩ f = f a := rfl

/-- The run of `Delete` on a volume that carries the five annotations: the credentials are
looked up under the annotated secret name and namespace, and `deleteMaprVolume` is called with
the annotated volume name and REST servers. -/
theorem Delete_eq (w : World) (p : maprProvisioner) (volume : PersistentVolume)
    (identity restservers volumename sname snamespace : GoString)
    (hid : volume.Annotations.lookup "mapr.com/maprProvisionerIdentity".toList = some identity)
    (hrest : volume.Annotations.lookup "mapr.com/restServers".toList = some restservers)
    (hvol : volume.Annotations.lookup "mapr.com/volumeName".toList = some volumename)
    (hsname : volume.Annotations.lookup "mapr.com/secretName".toList = some sname)
    (hsns : volume.Annotations.lookup "mapr.com/secretNamespace".toList = some snamespace) :
    Delete w p volume =
      Run.bind (getUserInfo w p sname snamespace) (fun r =>
        if r.2 ≠ none then
          Run.pure (some (.errorsNew "Failed to get User Info".toList))
        else
          Run.bind (deleteMaprVolume w volumename
            { REST := restservers, Cldbhosts := [], Cluster := [], Securitytype := [],
              Userinfo := r.1, RESTSecretName := [], RESTSecretNamespace := [],
              TicketSecretName := [], TicketSecretNamespace := [] }) (fun err =>
            Run.pure (if err ≠ none then
              some (.errorsNew "Failed delete MapR via REST".toList) else none))) := by
  simp only [Delete, hid, hrest, hvol, hsname, hsns, run_bind_eq, run_pure_eq]
  congr 1
  funext r
  by_cases hr : r.2 = none
  · simp only [hr, ne_eq, not_true_eq_false, if_false, bind_nil_ret]
    congr 1
    funext err
    cases err <;> simp [Run.pure, bind_nil_ret]
  · simp [hr, Run.pure]

/-- The annotations that `Provision` writes are found again under their keys. -/
theorem annotations_lookup (identity version description restservers sname snamespace
    volumename : GoString) :
    List.lookup "mapr.com/maprProvisionerIdentity".toList
      [("mapr.com/maprProvisionerIdentity".toList, identity),
       ("mapr.com/provisionerVersion".toList, version),
       ("mapr.com/description".toList, description),
       ("mapr.com/restServers".toList, restservers),
       ("mapr.com/secretName".toList, sname),
       ("mapr.com/secretNamespace".toList, snamespace),
       ("mapr.com/volumeName".toList, volumename)] = some identity ∧
    List.lookup "mapr.com/restServers".toList
      [("mapr.com/maprProvisionerIdentity".toList, identity),
       ("mapr.com/provisionerVersion".toList, version),
       ("mapr.com/description".toList, description),
       ("mapr.com/restServers".toList, restservers),
       ("mapr.com/secretName".toList, sname),
       ("mapr.com/secretNamespace".toList, snamespace),
       ("mapr.com/volumeName".toList, volumename)] = some restservers ∧
    List.lookup "mapr.com/secretName".toList
      [("mapr.com/maprProvisionerIdentity".toList, identity),
       ("mapr.com/provisionerVersion".toList, version),
       ("mapr.com/description".toList, description),
       ("mapr.com/restServers".toList, restservers),
       ("mapr.com/secretName".toList, sname),
       ("mapr.com/secretNamespace".toList, snamespace),
       ("mapr.com/volumeName".toList, volumename)] = some sname ∧
    List.lookup "mapr.com/secretNamespace".toList
      [("mapr.com/maprProvisionerIdentity".toList, identity),
       ("mapr.com/provisionerVersion".toList, version),
       ("mapr.com/description".toList, description),
       ("mapr.com/restServers".toList, restservers),
       ("mapr.com/secretName".toList, sname),
       ("mapr.com/secretNamespace".toList, snamespace),
       ("mapr.com/volumeName".toList, volumename)] = some snamespace ∧
    List.lookup "mapr.com/volumeName".toList
      [("mapr.com/maprProvisionerIdentity".toList, identity),
       ("mapr.com/provisionerVersion".toList, version),
       ("mapr.com/description".toList, description),
       ("mapr.com/restServers".toList, restservers),
       ("mapr.com/secretName".toList, sname),
       ("mapr.com/secretNamespace".toList, snamespace),
       ("mapr.com/volumeName".toList, volumename)] = some volumename := by
  refine ⟨?_, ?_, ?_, ?_, ?_⟩ <;> simp [List.lookup]

/-- The provisioning annotations, compared as values.  For every persistent volume returned by
a successful `Provision`, the create request was made against the REST servers of the cleaned
parameters, with the credentials found under their secret name and namespace, for the volume
name left in the `name` option; the volume carries the identity annotation and the four
annotations `restServers`, `secretName`, `secretNamespace` and `volumeName` with exactly these
values; and `Delete`, for every world and provisioner, looks up the credentials under that
secret name and namespace and calls `deleteMaprVolume` with that volume name and a server
description holding that REST server list, using nothing else of the volume.  The two request
builders do not write the name alike: `createRawQuery` sends it through `url.QueryEscape`,
`deleteMaprVolume` writes it as it is, so the two requests agree only on names that
`url.QueryEscape` leaves unchanged. -/
theorem Provision_Delete_round_trip (w : World) (p : maprProvisioner)
    (options : VolumeOptions) (pv : PersistentVolume)
    (hprov : (Provision w p options).outcome = .ret (some pv, none)) :
    ∃ (si : serverInfo) (cleanoptions : GoMap) (volumename : GoString),
      si.REST = (cleanParams options).get "restServers".toList ∧
      si.RESTSecretName = (cleanParams options).get "maprSecretName".toList ∧
      si.RESTSecretNamespace = (cleanParams options).get "maprSecretNamespace".toList ∧
      (∃ err, (getUserInfo w p si.RESTSecretName si.RESTSecretNamespace).outcome =
        .ret (si.Userinfo, err)) ∧
      cleanoptions.get "name".toList = volumename ∧
      (Provision w p options).trace =
        (getUserInfo w p si.RESTSecretName si.RESTSecretNamespace).trace ++
          (createMaprVolume w cleanoptions si).trace ∧
      (createMaprVolume w cleanoptions si).outcome = .ret none ∧
      pv.Annotations.lookup "mapr.com/maprProvisionerIdentity".toList = some p.identity ∧
      pv.Annotations.lookup "mapr.com/restServers".toList = some si.REST ∧
      pv.Annotations.lookup "mapr.com/secretName".toList = some si.RESTSecretName ∧
      pv.Annotations.lookup "mapr.com/secretNamespace".toList = some si.RESTSecretNamespace ∧
      pv.Annotations.lookup "mapr.com/volumeName".toList = some volumename ∧
      ∀ (w2 : World) (p2 : maprProvisioner),
        Delete w2 p2 pv =
          Run.bind (getUserInfo w2 p2 si.RESTSecretName si.RESTSecretNamespace) (fun r =>
            if r.2 ≠ none then
              Run.pure (some (.errorsNew "Failed to get User Info".toList))
            else
              Run.bind (deleteMaprVolume w2 volumename
                { REST := si.REST, Cldbhosts := [], Cluster := [], Securitytype := [],
                  Userinfo := r.1, RESTSecretName := [], RESTSecretNamespace := [],
                  TicketSecretName := [], TicketSecretNamespace := [] }) (fun err =>
                Run.pure (if err ≠ none then
                  some (.errorsNew "Failed delete MapR via REST".toList) else none))) := by
  obtain ⟨userinfo, err0, hu⟩ := getUserInfo_returns w p
    ((cleanParams options).get "maprSecretName".toList)
    ((cleanParams options).get "maprSecretNamespace".toList)
  have hsi := createServerInfo_eq w p (cleanParams options) _ userinfo err0 hu
  obtain ⟨errc, hc⟩ := createMaprVolume_returns w
    (createVolumeInfo w
      (((((((((cleanParams options).delete "maprSecretName".toList).delete
        "maprSecretNamespace".toList).delete "restServers".toList).delete
        "cldbHosts".toList).delete "cluster".toList).delete "securityType".toList).delete
        "ticketSecretName".toList).delete "ticketSecretNamespace".toList)
      (convertCapacity options.PVC.storageRequest)).2
    { REST := (cleanParams options).get "restServers".toList
      Cldbhosts := (cleanParams options).get "cldbHosts".toList
      Cluster := (cleanParams options).get "cluster".toList
      Securitytype := (cleanParams options).get "securityType".toList
      Userinfo := userinfo
      RESTSecretName := (cleanParams options).get "maprSecretName".toList
      RESTSecretNamespace := (cleanParams options).get "maprSecretNamespace".toList
      TicketSecretName := (cleanParams options).get "ticketSecretName".toList
      TicketSecretNamespace := (cleanParams options).get "ticketSecretNamespace".toList }
  have hP := Provision_eq w p options _ _ _ _ errc hsi hc
  rw [hP] at hprov
  cases errc with
  | some e =>
    simp only [ne_eq, reduceCtorEq, not_false_eq_true, if_true, Outcome.ret.injEq,
      Prod.mk.injEq, and_false] at hprov
  | none =>
    simp only [ne_eq, not_true_eq_false, if_false, Outcome.ret.injEq, Prod.mk.injEq,
      Option.some.injEq, and_true] at hprov
    subst hprov
    obtain ⟨hid, hrest, hsname, hsns, hvol⟩ := annotations_lookup p.identity provisionerVersion
      ("Dynamically provisioned PV for MapR-FS: ".toList ++
        (createVolumeInfo w
          (((((((((cleanParams options).delete "maprSecretName".toList).delete
            "maprSecretNamespace".toList).delete "restServers".toList).delete
            "cldbHosts".toList).delete "cluster".toList).delete "securityType".toList).delete
            "ticketSecretName".toList).delete "ticketSecretNamespace".toList)
          (convertCapacity options.PVC.storageRequest)).1.Name)
      ((cleanParams options).get "restServers".toList)
      ((cleanParams options).get "maprSecretName".toList)
      ((cleanParams options).get "maprSecretNamespace".toList)
      (createVolumeInfo w
        (((((((((cleanParams options).delete "maprSecretName".toList).delete
          "maprSecretNamespace".toList).delete "restServers".toList).delete
          "cldbHosts".toList).delete "cluster".toList).delete "securityType".toList).delete
          "ticketSecretName".toList).delete "ticketSecretNamespace".toList)
        (convertCapacity options.PVC.storageRequest)).1.Name
    refine ⟨
      { REST := (cleanParams options).get "restServers".toList
        Cldbhosts := (cleanParams options).get "cldbHosts".toList
        Cluster := (cleanParams options).get "cluster".toList
        Securitytype := (cleanParams options).get "securityType".toList
        Userinfo := userinfo
        RESTSecretName := (cleanParams options).get "maprSecretName".toList
        RESTSecretNamespace := (cleanParams options).get "maprSecretNamespace".toList
        TicketSecretName := (cleanParams options).get "ticketSecretName".toList
        TicketSecretNamespace := (cleanParams options).get "ticketSecretNamespace".toList },
      (createVolumeInfo w
        (((((((((cleanParams options).delete "maprSecretName".toList).delete
          "maprSecretNamespace".toList).delete "restServers".toList).delete
          "cldbHosts".toList).delete "cluster".toList).delete "securityType".toList).delete
          "ticketSecretName".toList).delete "ticketSecretNamespace".toList)
        (convertCapacity options.PVC.storageRequest)).2,
      (createVolumeInfo w
        (((((((((cleanParams options).delete "maprSecretName".toList).delete
          "maprSecretNamespace".toList).delete "restServers".toList).delete
          "cldbHosts".toList).delete "cluster".toList).delete "securityType".toList).delete
          "ticketSecretName".toList).delete "ticketSecretNamespace".toList)
        (convertCapacity options.PVC.storageRequest)).1.Name,
      rfl, rfl, rfl, ⟨err0, congrArg Run.outcome hu⟩,
      createVolumeInfo_name _ _ _, ?_, ?_, hid, hrest, hsname, hsns, hvol, ?_⟩
    · dsimp only
      rw [hP, hu]
    · dsimp only
      rw [hc]
    · intro w2 p2
      exact Delete_eq w2 p2 _ _ _ _ _ _ hid hrest hvol hsname hsns

/-- The lemma `Provision_Delete_round_trip` at the volume provisioned for `sampleVolumeOptions`
by a provisioner with a kube client. -/
theorem Provision_Delete_round_trip_witness :
    (Provision World.accepting provisionerWithClient sampleVolumeOptions).outcome =
      .ret (some sampleProvisionedVolume, none) ∧
    ∃ (si : serverInfo) (cleanoptions : GoMap) (volumename : GoString),
      si.REST = (cleanParams sampleVolumeOptions).get "restServers".toList ∧
      si.RESTSecretName = (cleanParams sampleVolumeOptions).get "maprSecretName".toList ∧
      si.RESTSecretNamespace =
        (cleanParams sampleVolumeOptions).get "maprSecretNamespace".toList ∧
      (∃ err, (getUserInfo World.accepting provisionerWithClient si.RESTSecretName
        si.RESTSecretNamespace).outcome = .ret (si.Userinfo, err)) ∧
      cleanoptions.get "name".toList = volumename ∧
      (Provision World.accepting provisionerWithClient sampleVolumeOptions).trace =
        (getUserInfo World.accepting provisionerWithClient si.RESTSecretName
          si.RESTSecretNamespace).trace ++
          (createMaprVolume World.accepting cleanoptions si).trace ∧
      (createMaprVolume World.accepting cleanoptions si).outcome = .ret none ∧
      sampleProvisionedVolume.Annotations.lookup "mapr.com/maprProvisionerIdentity".toList =
        some provisionerWithClient.identity ∧
      sampleProvisionedVolume.Annotations.lookup "mapr.com/restServers".toList =
        some si.REST ∧
      sampleProvisionedVolume.Annotations.lookup "mapr.com/secretName".toList =
        some si.RESTSecretName ∧
      sampleProvisionedVolume.Annotations.lookup "mapr.com/secretNamespace".toList =
        some si.RESTSecretNamespace ∧
      sampleProvisionedVolume.Annotations.lookup "mapr.com/volumeName".toList =
        some volumename ∧
      ∀ (w2 : World) (p2 : maprProvisioner),
        Delete w2 p2 sampleProvisionedVolume =
          Run.bind (getUserInfo w2 p2 si.RESTSecretName si.RESTSecretNamespace) (fun r =>
            if r.2 ≠ none then
              Run.pure (some (.errorsNew "Failed to get User Info".toList))
            else
              Run.bind (deleteMaprVolume w2 volumename
                { REST := si.REST, Cldbhosts := [], Cluster := [], Securitytype := [],
                  Userinfo := r.1, RESTSecretName := [], RESTSecretNamespace := [],
                  TicketSecretName := [], TicketSecretNamespace := [] }) (fun err =>
                Run.pure (if err ≠ none then
                  some (.errorsNew "Failed delete MapR via REST".toList) else none))) :=
  ⟨by decide,
    Provision_Delete_round_trip World.accepting provisionerWithClient sampleVolumeOptions
      sampleProvisionedVolume (by decide)⟩

/-- C15, the code at a failing input: the name prefix `a&b`, an admin secret with user name and
password, and a REST server that answers `200` with status `OK`.  `Provision` succeeds; its
create request carries the volume name through `url.QueryEscape`, as the parameter
`name=a%26b.abcdefghij`.  `Delete` finds the five annotations on the returned volume, among them
the volume name `a&b.abcdefghij`, looks up the same secret and sends its request to the same
REST server, but writes the name unescaped: the query `name=a&b.abcdefghij` splits at the
ampersand into the parameters `name=a` and `b.abcdefghij`, so the delete request names the
volume `a`, not the one the create request named; `Delete` returns `nil`. -/
theorem Delete_names_another_volume :
    QueryEscape "a&b.abcdefghij".toList = "a%26b.abcdefghij".toList ∧
    (∃ createQuery : URL,
      Provision World.accepting provisionerWithClient ampersandVolumeOptions =
        ⟨[.getSecret "mapr-system".toList "mapr-admin".toList, .httpPost createQuery],
          .ret (some ampersandProvisionedVolume, none)⟩ ∧
      createQuery.User = ⟨"mapr".toList, "secret".toList⟩ ∧
      createQuery.Host = "rest1:8443".toList ∧
      createQuery.Path = "/rest/volume/create".toList ∧
      "name=a%26b.abcdefghij".toList ∈ Split createQuery.RawQuery '&' ∧
      (∀ param ∈ Split createQuery.RawQuery '&', param ≠ "name=a".toList)) ∧
    ampersandProvisionedVolume.Annotations.lookup "mapr.com/volumeName".toList =
      some "a&b.abcdefghij".toList ∧
    Delete World.accepting provisionerWithClient ampersandProvisionedVolume =
      ⟨[.getSecret "mapr-system".toList "mapr-admin".toList,
        .httpPost ⟨"https".toList, ⟨"mapr".toList, "secret".toList⟩, "rest1:8443".toList,
          "/rest/volume/remove".toList, "name=a&b.abcdefghij".toList⟩],
        .ret none⟩ ∧
    Split "name=a&b.abcdefghij".toList '&' = ["name=a".toList, "b.abcdefghij".toList] :=
  ⟨by decide,
    ⟨⟨"https".toList, ⟨"mapr".toList, "secret".toList⟩, "rest1:8443".toList,
        "/rest/volume/create".toList,
        "name=a%26b.abcdefghij&path=%2Fk8s%2Fa%26b-abcdefghij&quota=5000M&createparent=1&mount=1".toList⟩,
      by decide, by decide, by decide, by decide, by decide, by decide⟩,
    by decide, by decide, by decide⟩

/-! ## `cleanup`: the recovery sweep -/

theorem bind_of_outcome_ret {α β : Type} (x : Run α) (a : α) (f : α → Run β)
    (h : x.outcome = .ret a) :
    Run.bind x f = ⟨x.trace ++ (f a).trace, (f a).outcome⟩ := by
  obtain ⟨tr, out⟩ := x
  simp only at h
  subst h
  rfl

/-- In cleanup mode `unmount` returns to its caller, for a kernel path with at least four
segments and when the signal of step three does not reach the caller. -/
theorem unmount_cleanup_returns (w : World) (a0 a1 kpath : GoString) (rest : List GoString)
    (h4 : 4 ≤ (Split kpath '/').length)
    (hsurvive : ∀ podid volid, getPodId kpath = Run.pure podid →
      getVolId kpath = Run.pure volid → ∀ spid,
      w.readFile (client_support_path ++ podid ++ "-".toList ++ volid ++ "/fusepid".toList) =
        some spid →
      w.sigkillHitsCaller (Atoi (Trim spid '\n')).1 = false) :
    (unmount w (a0 :: a1 :: kpath :: rest) true).outcome = .ret () := by
  obtain ⟨podid, hpod⟩ := getPodId_of_le kpath h4
  obtain ⟨volid, hvol⟩ := getVolId_total kpath
  rw [unmount_eq w a0 a1 kpath rest podid volid true hpod hvol (hsurvive podid volid hpod hvol)
    _ rfl]
  simp only [if_true]

/-- The run of the loop of `cleanup` over the entries of the support root, when every readable
`kpath` file holds a path with at least four segments and no signal reaches the caller: for each
entry, in order, the read of its `kpath` file followed, when the read succeeds, by one run of
`unmount` in cleanup mode on the content trimmed of newlines; then the loop returns. -/
theorem cleanup_loop_eq (w : World) (files : List GoString)
    (hkpath : ∀ file ∈ files, ∀ kpathinfo,
      w.readFile (client_support_path ++ file ++ "/kpath".toList) = some kpathinfo →
      4 ≤ (Split (Trim kpathinfo '\n') '/').length)
    (hsurvive : ∀ file ∈ files, ∀ kpathinfo,
      w.readFile (client_support_path ++ file ++ "/kpath".toList) = some kpathinfo →
      ∀ podid volid, getPodId (Trim kpathinfo '\n') = Run.pure podid →
      getVolId (Trim kpathinfo '\n') = Run.pure volid → ∀ spid,
      w.readFile (client_support_path ++ podid ++ "-".toList ++ volid ++ "/fusepid".toList) =
        some spid →
      w.sigkillHitsCaller (Atoi (Trim spid '\n')).1 = false) :
    cleanup.loop w files =
      ⟨files.flatMap (fun file =>
          .readFile (client_support_path ++ file ++ "/kpath".toList) ::
            (match w.readFile (client_support_path ++ file ++ "/kpath".toList) with
              | none => []
              | some kpathinfo =>
                (unmount w ["1".toList, "2".toList, Trim kpathinfo '\n', "4".toList]
                  true).trace)),
        .ret ()⟩ := by
  induction files with
  | nil => rfl
  | cons file rest ih =>
    have ih2 := ih (fun f hf => hkpath f (List.mem_cons_of_mem _ hf))
      (fun f hf => hsurvive f (List.mem_cons_of_mem _ hf))
    cases hread : w.readFile (client_support_path ++ file ++ "/kpath".toList) with
    | none =>
      simp only [cleanup.loop, hread, ih2, run_bind_eq, run_pure_eq, call_mk, bind_ret_mk,
        List.append_nil, List.nil_append, List.cons_append, List.flatMap_cons]
    | some kpathinfo =>
      have hret := unmount_cleanup_returns w "1".toList "2".toList (Trim kpathinfo '\n')
        ["4".toList] (hkpath file (List.mem_cons_self _ _) kpathinfo hread)
        (hsurvive file (List.mem_cons_self _ _) kpathinfo hread)
      simp only [cleanup.loop, hread, ih2, run_bind_eq, run_pure_eq, call_mk, bind_ret_mk,
        bind_of_outcome_ret _ _ _ hret,
        List.append_nil, List.nil_append, List.cons_append, List.flatMap_cons]

/-- The run of `cleanup`, when every readable `kpath` file of the support root holds a path with
at least four segments and no signal reaches the caller: the support root is looked at and, when
it exists and can be listed, every entry is handled in turn; then `cleanup` returns. -/
theorem cleanup_eq (w : World)
    (hkpath : ∀ files, w.readDir client_support_path = some files → ∀ file ∈ files,
      ∀ kpathinfo,
      w.readFile (client_support_path ++ file ++ "/kpath".toList) = some kpathinfo →
      4 ≤ (Split (Trim kpathinfo '\n') '/').length)
    (hsurvive : ∀ files, w.readDir client_support_path = some files → ∀ file ∈ files,
      ∀ kpathinfo,
      w.readFile (client_support_path ++ file ++ "/kpath".toList) = some kpathinfo →
      ∀ podid volid, getPodId (Trim kpathinfo '\n') = Run.pure podid →
      getVolId (Trim kpathinfo '\n') = Run.pure volid → ∀ spid,
      w.readFile (client_support_path ++ podid ++ "-".toList ++ volid ++ "/fusepid".toList) =
        some spid →
      w.sigkillHitsCaller (Atoi (Trim spid '\n')).1 = false) :
    cleanup w =
      ⟨.stat client_support_path ::
        (if w.stat client_support_path = true then
          .readDir client_support_path ::
            (match w.readDir client_support_path with
              | none => []
              | some files => files.flatMap (fun file =>
                .readFile (client_support_path ++ file ++ "/kpath".toList) ::
                  (match w.readFile (client_support_path ++ file ++ "/kpath".toList) with
                    | none => []
                    | some kpathinfo =>
                      (unmount w ["1".toList, "2".toList, Trim kpathinfo '\n', "4".toList]
                        true).trace)))
        else []),
        .ret ()⟩ := by
  cases hstat : w.stat client_support_path with
  | false =>
    simp only [cleanup, hstat, run_bind_eq, run_pure_eq, call_mk, bind_ret_mk, if_false,
      List.append_nil, List.cons_append, List.nil_append, Bool.false_eq_true]
  | true =>
    cases hdir : w.readDir client_support_path with
    | none =>
      simp only [cleanup, hstat, hdir, run_bind_eq, run_pure_eq, call_mk, bind_ret_mk, if_true,
        List.append_nil, List.cons_append, List.nil_append]
    | some files =>
      have hloop := cleanup_loop_eq w files (hkpath files hdir) (hsurvive files hdir)
      simp only [cleanup, hstat, hdir, hloop, run_bind_eq, run_pure_eq, call_mk, bind_ret_mk,
        if_true, List.append_nil, List.cons_append, List.nil_append]

/-- C11, at a failing input.  The support root holds the two records `pod1-vol1` and
`pod2-vol2`, each with the kernel path of its mount in `kpath`; the `fusepid` file of the first
record is empty.  `cleanup` starts the release of the first record, `strconv.Atoi` fails on the
empty string and returns 0, `syscall.Kill(0, SIGKILL)` is sent all the same and reaches the
caller's own process group: the sweep ends there, the first record is not removed and the
second one is never read. -/
theorem cleanup_killed_before_second_record :
    (World.stale (sampleKpath ++ "\n".toList) []).readDir client_support_path =
      some ["pod1-vol1".toList, "pod2-vol2".toList] ∧
    (World.stale (sampleKpath ++ "\n".toList) []).readFile
      "/opt/mapr/k8s/support/pod2-vol2/kpath".toList = some (sampleKpath2 ++ "\n".toList) ∧
    cleanup (World.stale (sampleKpath ++ "\n".toList) []) =
      ⟨[.stat "/opt/mapr/k8s/support/".toList,
        .readDir "/opt/mapr/k8s/support/".toList,
        .readFile "/opt/mapr/k8s/support/pod1-vol1/kpath".toList,
        .stat sampleKpath,
        .stat "/opt/mapr/k8s/mounts/pod1-vol1".toList,
        .readFile "/opt/mapr/k8s/support/pod1-vol1/fusepid".toList,
        .kill 0], .halt .killed⟩ := by
  decide

/-- C12, counterexample to the claim as stated.  The support root holds a record whose `kpath`
file is empty: `cleanup` hands the empty path to `unmount`, `getPodId` splits it into one
segment and indexes it at `-3`, and the run panics instead of returning to `doInit`. -/
theorem cleanup_empty_kpath_panics :
    (Split (Trim [] '\n') '/').length = 1 ∧
    cleanup (World.stale [] "4241\n".toList) =
      ⟨[.stat "/opt/mapr/k8s/support/".toList,
        .readDir "/opt/mapr/k8s/support/".toList,
        .readFile "/opt/mapr/k8s/support/pod1-vol1/kpath".toList], .halt .panic⟩ := by
  decide

/-- C12, as amended: the recovery sweep returns to `doInit`.  For every content of the support
root in which every readable `kpath` file holds, newlines trimmed, a path with at least four
segments, and for every outcome of the file-system operations in which no `SIGKILL` sent
during a release reaches the plugin process itself, `cleanup` returns normally: it neither ends
the process nor panics, whether the support root is absent, unreadable or listed, whether a
`kpath` file is missing, and whatever the unmount steps answer. -/
theorem cleanup_returns_normally (w : World)
    (hkpath : ∀ files, w.readDir client_support_path = some files → ∀ file ∈ files,
      ∀ kpathinfo,
      w.readFile (client_support_path ++ file ++ "/kpath".toList) = some kpathinfo →
      4 ≤ (Split (Trim kpathinfo '\n') '/').length)
    (hsurvive : ∀ files, w.readDir client_support_path = some files → ∀ file ∈ files,
      ∀ kpathinfo,
      w.readFile (client_support_path ++ file ++ "/kpath".toList) = some kpathinfo →
      ∀ podid volid, getPodId (Trim kpathinfo '\n') = Run.pure podid →
      getVolId (Trim kpathinfo '\n') = Run.pure volid → ∀ spid,
      w.readFile (client_support_path ++ podid ++ "-".toList ++ volid ++ "/fusepid".toList) =
        some spid →
      w.sigkillHitsCaller (Atoi (Trim spid '\n')).1 = false) :
    (cleanup w).outcome = .ret () := by
  rw [cleanup_eq w hkpath hsurvive]

/-- The entries of the support root in the world `World.stale`. -/
theorem stale_files (kpath1 fusepid1 : GoString) (files : List GoString)
    (h : (World.stale kpath1 fusepid1).readDir client_support_path = some files) :
    files = ["pod1-vol1".toList, "pod2-vol2".toList] := by
  have hdir : (World.stale kpath1 fusepid1).readDir client_support_path =
      some ["pod1-vol1".toList, "pod2-vol2".toList] := by
    simp only [World.stale]
    exact if_pos (by decide)
  rw [hdir] at h
  exact (Option.some.inj h).symm

/-- Witness of `cleanup_returns_normally`: two records with well-formed kernel paths and the
pids 4241 and 4242. -/
theorem cleanup_returns_normally_witness :
    (cleanup (World.stale (sampleKpath ++ "\n".toList) "4241\n".toList)).outcome = .ret () :=
  cleanup_returns_normally (World.stale (sampleKpath ++ "\n".toList) "4241\n".toList)
    (fun files hfiles file hfile kpathinfo hread => by
      rw [stale_files _ _ files hfiles] at hfile
      simp only [List.mem_cons, List.mem_singleton, List.not_mem_nil, or_false] at hfile
      rcases hfile with hf | hf
      · subst hf
        have hk : sampleKpath ++ "\n".toList = kpathinfo := Option.some.inj hread
        subst hk
        decide
      · subst hf
        have hk : sampleKpath2 ++ "\n".toList = kpathinfo := Option.some.inj hread
        subst hk
        decide)
    (fun files hfiles file hfile kpathinfo hread podid volid hpod hvol spid hspid => by
      rw [stale_files _ _ files hfiles] at hfile
      simp only [List.mem_cons, List.mem_singleton, List.not_mem_nil, or_false] at hfile
      rcases hfile with hf | hf
      · subst hf
        have hk : sampleKpath ++ "\n".toList = kpathinfo := Option.some.inj hread
        subst hk
        have hp : "pod1".toList = podid := by
          have h1 : getPodId (Trim (sampleKpath ++ "\n".toList) '\n') =
            Run.pure "pod1".toList := by decide
          rw [h1] at hpod
          injection hpod with _ ho
          injection ho
        have hv : "vol1".toList = volid := by
          have h1 : getVolId (Trim (sampleKpath ++ "\n".toList) '\n') =
            Run.pure "vol1".toList := by decide
          rw [h1] at hvol
          injection hvol with _ ho
          injection ho
        subst hp
        subst hv
        have hs : "4241\n".toList = spid := Option.some.inj hspid
        subst hs
        decide
      · subst hf
        have hk : sampleKpath2 ++ "\n".toList = kpathinfo := Option.some.inj hread
        subst hk
        have hp : "pod2".toList = podid := by
          have h1 : getPodId (Trim (sampleKpath2 ++ "\n".toList) '\n') =
            Run.pure "pod2".toList := by decide
          rw [h1] at hpod
          injection hpod with _ ho
          injection ho
        have hv : "vol2".toList = volid := by
          have h1 : getVolId (Trim (sampleKpath2 ++ "\n".toList) '\n') =
            Run.pure "vol2".toList := by decide
          rw [h1] at hvol
          injection hvol with _ ho
          injection ho
        subst hp
        subst hv
        have hs : "4242\n".toList = spid := Option.some.inj hspid
        subst hs
        decide)

/-- C20, at a failing input.  The `fusepid` file of the record holds `not-a-pid`: the content
does not parse, `strconv.Atoi` returns 0 with an error, and `unmount` still calls
`syscall.Kill(0, SIGKILL)`; the signal addresses the caller's own process group and the run
ends there, before the support directory is looked at and before anything is reported. -/
theorem unmount_signals_pid_zero :
    Atoi (Trim "not-a-pid\n".toList '\n') = (0, false) ∧
    unmount (World.stale (sampleKpath ++ "\n".toList) "not-a-pid\n".toList)
        sampleUnmountArgs false =
      ⟨[.stat sampleKpath,
        .stat "/opt/mapr/k8s/mounts/pod1-vol1".toList,
        .readFile "/opt/mapr/k8s/support/pod1-vol1/fusepid".toList,
        .kill 0], .halt .killed⟩ := by
  decide

/-! ## Endpoint normalisation: the pieces of `strings.Split` -/

theorem getLast?_cons_eq_some {α : Type} (c sep : α) (s : List α) :
    (c :: s).getLast? = some sep ↔ (s = [] ∧ c = sep) ∨ s.getLast? = some sep := by
  cases s with
  | nil => simp
  | cons b t => simp [List.getLast?_cons_cons]

theorem pair_infix_cons {α : Type} (c sep : α) (s : List α) :
    [sep, sep] <:+: c :: s ↔ (c = sep ∧ s.head? = some sep) ∨ [sep, sep] <:+: s := by
  rw [List.infix_cons_iff]
  refine or_congr ?_ Iff.rfl
  cases s with
  | nil => simp [List.cons_prefix_cons]
  | cons b t =>
    simp only [List.cons_prefix_cons, List.nil_prefix, and_true, List.head?_cons,
      Option.some.injEq]
    constructor
    · rintro ⟨h1, h2⟩
      exact ⟨h1.symm, h2.symm⟩
    · rintro ⟨h1, h2⟩
      exact ⟨h1.symm, h2.symm⟩

/-- `strings.Split` returns one piece more than the string has separators. -/
theorem Split_length (s : GoString) (sep : Char) :
    (Split s sep).length = s.count sep + 1 := by
  unfold Split List.splitOn
  induction s with
  | nil => simp
  | cons c s ih =>
    rw [List.splitOnP_cons, List.count_cons]
    by_cases hc : (c == sep) = true
    · simp only [hc, if_true, List.length_cons, ih]
    · simp only [hc, if_false, List.length_modifyHead, ih, Bool.false_eq_true, Nat.add_zero]

/-- `strings.Split` returns an empty piece exactly for the empty string and for a string that
starts with the separator, ends with it, or holds two separators in a row. -/
theorem Split_nil_mem (s : GoString) (sep : Char) :
    ([] ∈ Split s sep ↔
      s = [] ∨ s.head? = some sep ∨ s.getLast? = some sep ∨ [sep, sep] <:+: s) ∧
    ([] ∈ (Split s sep).tail ↔ s.getLast? = some sep ∨ [sep, sep] <:+: s) := by
  unfold Split List.splitOn
  induction s with
  | nil => simp
  | cons c s ih =>
    obtain ⟨ih1, ih2⟩ := ih
    rw [List.splitOnP_cons, getLast?_cons_eq_some, pair_infix_cons]
    by_cases hc : c = sep
    · subst hc
      simp only [beq_self_eq_true, if_true, List.mem_cons, true_or, List.head?_cons,
        or_true, List.tail_cons, ih1, true_and, reduceCtorEq, false_or, and_true]
      tauto
    · have hb : ¬ ((c == sep) = true) := by simpa using hc
      simp only [hb, if_false, hc, false_and, and_false, false_or, reduceCtorEq,
        List.head?_cons, Option.some.injEq, List.tail_modifyHead, ih2, and_true]
      cases hsplit : List.splitOnP (fun x => x == sep) s with
      | nil => exact absurd hsplit (List.splitOnP_ne_nil _ s)
      | cons hd tl =>
        rw [hsplit] at ih2
        simp only [List.tail_cons] at ih2
        simp only [List.modifyHead_cons, List.mem_cons, reduceCtorEq, false_or, ih2]

/-- Every piece of `strings.Split` is a contiguous part of the string, the first one a prefix. -/
theorem Split_contiguous (s : GoString) (sep : Char) :
    (∀ hd tl, Split s sep = hd :: tl → hd <+: s) ∧ (∀ e ∈ Split s sep, e <:+: s) := by
  unfold Split List.splitOn
  induction s with
  | nil =>
    constructor
    · intro hd tl h
      simp only [List.splitOnP_nil, List.cons.injEq] at h
      rw [← h.1]
    · intro e he
      simp only [List.splitOnP_nil, List.mem_singleton] at he
      rw [he]
  | cons c s ih =>
    obtain ⟨ih1, ih2⟩ := ih
    rw [List.splitOnP_cons]
    by_cases hc : (c == sep) = true
    · simp only [hc, if_true]
      constructor
      · intro hd tl h
        rw [← (List.cons.inj h).1]
        exact List.nil_prefix
      · intro e he
        rcases List.mem_cons.mp he with h | h
        · rw [h]
          exact List.nil_infix
        · exact (ih2 e h).trans (List.infix_cons List.infix_rfl)
    · simp only [hc, if_false]
      cases hsplit : List.splitOnP (fun x => x == sep) s with
      | nil => exact absurd hsplit (List.splitOnP_ne_nil _ s)
      | cons hd0 tl0 =>
        rw [hsplit] at ih1 ih2
        have hpre : c :: hd0 <+: c :: s := List.cons_prefix_cons.mpr ⟨rfl, ih1 hd0 tl0 rfl⟩
        simp only [List.modifyHead_cons]
        constructor
        · intro hd tl h
          rw [← (List.cons.inj h).1]
          exact hpre
        · intro e he
          rcases List.mem_cons.mp he with h | h
          · rw [h]
            exact hpre.isInfix
          · exact (ih2 e (List.mem_cons_of_mem _ h)).trans (List.infix_cons List.infix_rfl)

/-- C21, counterexample to the claim as stated.  `startFuse` cuts `cldbHosts` at every single
space and at nothing else.  Two spaces in a row, a leading space and a trailing space each give
an empty piece, which becomes the bare entry `:7222`; a tab is not a separator, so two endpoints
with a tab between them give one entry.  For `"cldb1  cldb2"` the mount daemon receives the
configuration line `my.cluster.com secure=false cldb1:7222 :7222 cldb2:7222 `. -/
theorem startFuse_cldblist_bare_default_port :
    Split "cldb1  cldb2".toList ' ' = ["cldb1".toList, [], "cldb2".toList] ∧
    startFuse.cldblist (Split "cldb1  cldb2".toList ' ') =
      "cldb1:7222 :7222 cldb2:7222 ".toList ∧
    startFuse.cldblist (Split " cldb1".toList ' ') = ":7222 cldb1:7222 ".toList ∧
    startFuse.cldblist (Split "cldb1 ".toList ' ') = "cldb1:7222 :7222 ".toList ∧
    startFuse.cldblist (Split "cldb1\tcldb2".toList ' ') = "cldb1\tcldb2:7222 ".toList ∧
    startFuse World.blank sampleKpath doubleSpaceOptions =
      ⟨[.mkdirAll "/opt/mapr/k8s/mounts/pod1-vol1".toList,
        .mkdirAll "/opt/mapr/k8s/support/pod1-vol1".toList,
        .execRun fuse_script
          ["/opt/mapr/k8s/mounts/pod1-vol1".toList, "/opt/mapr/k8s/support/pod1-vol1".toList,
           "/opt/mapr/logs/pod1-vol1".toList, sampleKpath, [],
           "/opt/mapr/k8s/support/pod1-vol1/maprticket_0".toList,
           "my.cluster.com secure=false cldb1:7222 :7222 cldb2:7222 ".toList, [],
           "pod1".toList,
           "-o allow_other -o big_writes -o auto_unmount -o async_dio -o max_background=64 -o auto_inval_data --disable_writeback".toList]],
        .ret "/opt/mapr/k8s/mounts/pod1-vol1".toList⟩ := by
  decide

/-- C21, as amended: normalisation covers exactly the pieces of `strings.Split(cldbHosts, " ")`.
For every `cldbHosts` string, the normalised list is the concatenation, in order, of one entry
per piece, each followed by one space.  The pieces are the string cut at every single space:
joined by single spaces they give the string back, none of them contains a space, each is a
contiguous part of the string, they are one more than the string has spaces, and they are the
only such cutting.  Every entry carries a port: it is the piece itself when the piece contains a
colon, and the piece followed by `:7222` otherwise; it is the bare `:7222` exactly when the
piece is empty or is `:7222` itself.  An empty piece occurs exactly when the string is empty,
starts with a space, ends with a space or holds two spaces in a row. -/
theorem startFuse_cldblist_split_pieces (cldb : GoString) :
    startFuse.cldblist (Split cldb ' ') =
      ((Split cldb ' ').map
        (fun e => (if ':' ∈ e then e else e ++ ":7222".toList) ++ " ".toList)).flatten ∧
    [' '].intercalate (Split cldb ' ') = cldb ∧
    (∀ e ∈ Split cldb ' ', ' ' ∉ e ∧ e <:+: cldb) ∧
    (Split cldb ' ').length = cldb.count ' ' + 1 ∧
    (∀ eps : List GoString, eps ≠ [] → (∀ e ∈ eps, ' ' ∉ e) →
      [' '].intercalate eps = cldb → Split cldb ' ' = eps) ∧
    (∀ e ∈ Split cldb ' ',
      ':' ∈ (if ':' ∈ e then e else e ++ ":7222".toList) ∧
      ((if ':' ∈ e then e else e ++ ":7222".toList) = ":7222".toList ↔
        (e = [] ∨ e = ":7222".toList))) ∧
    ([] ∈ Split cldb ' ' ↔
      cldb = [] ∨ cldb.head? = some ' ' ∨ cldb.getLast? = some ' ' ∨ [' ', ' '] <:+: cldb) := by
  refine ⟨cldblist_eq_flatten _, List.intercalate_splitOn cldb ' ', ?_, Split_length cldb ' ',
    ?_, ?_, (Split_nil_mem cldb ' ').1⟩
  · intro e he
    exact ⟨Split_no_sep cldb ' ' e he, (Split_contiguous cldb ' ').2 e he⟩
  · intro eps hne hsp hjoin
    rw [← hjoin]
    exact List.splitOn_intercalate eps ' ' hsp hne
  · intro e _
    by_cases hcolon : ':' ∈ e
    · rw [if_pos hcolon]
      refine ⟨hcolon, ?_⟩
      constructor
      · intro h
        exact Or.inr h
      · rintro (h | h)
        · rw [h] at hcolon
          exact absurd hcolon (List.not_mem_nil _)
        · exact h
    · rw [if_neg hcolon]
      refine ⟨List.mem_append_right _ (by decide), ?_⟩
      constructor
      · intro h
        exact Or.inl (List.append_left_eq_self.mp h)
      · rintro (h | h)
        · rw [h]
          rfl
        · rw [h] at hcolon
          exact absurd (by decide) hcolon

/-- Witness of `startFuse_cldblist_split_pieces` at `"cldb1  cldb2"`: three entries, the second
one the bare default port. -/
theorem startFuse_cldblist_split_pieces_witness :
    startFuse.cldblist (Split "cldb1  cldb2".toList ' ') =
      "cldb1:7222 :7222 cldb2:7222 ".toList ∧
    (Split "cldb1  cldb2".toList ' ').length = 3 ∧
    [] ∈ Split "cldb1  cldb2".toList ' ' :=
  ⟨(startFuse_cldblist_split_pieces "cldb1  cldb2".toList).1.trans (by decide),
    (startFuse_cldblist_split_pieces "cldb1  cldb2".toList).2.2.2.1.trans (by decide),
    (startFuse_cldblist_split_pieces "cldb1  cldb2".toList).2.2.2.2.2.2.mpr
      (Or.inr (Or.inr (Or.inr (by decide))))⟩

end MapR
